import Mathlib

/-!
# SAT>IP client: parameter translator and server registry

A shallow embedding of `param.c`, `server.c` and `discover.c` of the SAT>IP
plugin.  `std::string` / `cString` values are Lean strings, C `int`s are `Int`,
VDR `cList` containers are Lean lists in insertion order, and operations that
mutate an object return the new object.
-/

namespace Satip

/-! ## Driver constants

`param.c` names the enumerators of the Linux DVB API (`linux/dvb/frontend.h`,
pulled in through `vdr/dvbdevice.h`).  That header is not part of this
repository; the values below are the ones fixed by the kernel ABI. -/

def PILOT_ON : Int := 0
def PILOT_OFF : Int := 1
def PILOT_AUTO : Int := 2

def FEC_NONE : Int := 0
def FEC_1_2 : Int := 1
def FEC_2_3 : Int := 2
def FEC_3_4 : Int := 3
def FEC_4_5 : Int := 4
def FEC_5_6 : Int := 5
def FEC_6_7 : Int := 6
def FEC_7_8 : Int := 7
def FEC_8_9 : Int := 8
def FEC_AUTO : Int := 9
def FEC_3_5 : Int := 10
def FEC_9_10 : Int := 11

def QPSK : Int := 0
def QAM_16 : Int := 1
def QAM_32 : Int := 2
def QAM_64 : Int := 3
def QAM_128 : Int := 4
def QAM_256 : Int := 5
def QAM_AUTO : Int := 6
def VSB_8 : Int := 7
def VSB_16 : Int := 8
def PSK_8 : Int := 9
def APSK_16 : Int := 10
def APSK_32 : Int := 11

def TRANSMISSION_MODE_2K : Int := 0
def TRANSMISSION_MODE_8K : Int := 1
def TRANSMISSION_MODE_AUTO : Int := 2
def TRANSMISSION_MODE_4K : Int := 3
def TRANSMISSION_MODE_1K : Int := 4
def TRANSMISSION_MODE_16K : Int := 5
def TRANSMISSION_MODE_32K : Int := 6

def GUARD_INTERVAL_1_32 : Int := 0
def GUARD_INTERVAL_1_16 : Int := 1
def GUARD_INTERVAL_1_8 : Int := 2
def GUARD_INTERVAL_1_4 : Int := 3
def GUARD_INTERVAL_AUTO : Int := 4
def GUARD_INTERVAL_1_128 : Int := 5
def GUARD_INTERVAL_19_128 : Int := 6
def GUARD_INTERVAL_19_256 : Int := 7

def ROLLOFF_35 : Int := 0
def ROLLOFF_20 : Int := 1
def ROLLOFF_25 : Int := 2
def ROLLOFF_AUTO : Int := 3

def INVERSION_OFF : Int := 0
def INVERSION_ON : Int := 1
def INVERSION_AUTO : Int := 2

/-! ## param.c: mapping tables -/

/-- One row of a mapping table (`struct tSatipParameterMap`).  The terminating
row `{ -1, nullptr, -1 }` of each C array is the end of the Lean list. -/
structure tSatipParameterMap where
  driverValue : Int
  satipString : String
  vdrValue : Int
deriving DecidableEq, Repr

def SatipBandwidthValues : List tSatipParameterMap :=
  [ ⟨5000000, "&bw=5", 5⟩,
    ⟨6000000, "&bw=6", 6⟩,
    ⟨7000000, "&bw=7", 7⟩,
    ⟨8000000, "&bw=8", 8⟩,
    ⟨10000000, "&bw=10", 10⟩,
    ⟨1712000, "&bw=1.712", 1712⟩ ]

def SatipPilotValues : List tSatipParameterMap :=
  [ ⟨PILOT_OFF, "&plts=off", 0⟩,
    ⟨PILOT_ON, "&plts=on", 1⟩,
    ⟨PILOT_AUTO, "", 999⟩ ]

def SatipSisoMisoValues : List tSatipParameterMap :=
  [ ⟨0, "&sm=0", 0⟩,
    ⟨1, "&sm=1", 1⟩ ]

def SatipCodeRateValues : List tSatipParameterMap :=
  [ ⟨FEC_NONE, "", 0⟩,
    ⟨FEC_1_2, "&fec=12", 12⟩,
    ⟨FEC_2_3, "&fec=23", 23⟩,
    ⟨FEC_3_4, "&fec=34", 34⟩,
    ⟨FEC_3_5, "&fec=35", 35⟩,
    ⟨FEC_4_5, "&fec=45", 45⟩,
    ⟨FEC_5_6, "&fec=56", 56⟩,
    ⟨FEC_6_7, "&fec=67", 67⟩,
    ⟨FEC_7_8, "&fec=78", 78⟩,
    ⟨FEC_8_9, "&fec=89", 89⟩,
    ⟨FEC_9_10, "&fec=910", 910⟩,
    ⟨FEC_AUTO, "", 999⟩ ]

def SatipModulationValues : List tSatipParameterMap :=
  [ ⟨QPSK, "&mtype=qpsk", 2⟩,
    ⟨PSK_8, "&mtype=8psk", 5⟩,
    ⟨APSK_16, "&mtype=16apsk", 6⟩,
    ⟨APSK_32, "&mtype=32apsk", 7⟩,
    ⟨VSB_8, "&mtype=8vsb", 10⟩,
    ⟨VSB_16, "&mtype=16vsb", 11⟩,
    ⟨QAM_16, "&mtype=16qam", 16⟩,
    ⟨QAM_64, "&mtype=64qam", 64⟩,
    ⟨QAM_128, "&mtype=128qam", 128⟩,
    ⟨QAM_256, "&mtype=256qam", 256⟩,
    ⟨QAM_AUTO, "", 999⟩ ]

def SatipSystemValuesSat : List tSatipParameterMap :=
  [ ⟨0, "&msys=dvbs", 0⟩,
    ⟨1, "&msys=dvbs2", 1⟩ ]

def SatipSystemValuesTerrestrial : List tSatipParameterMap :=
  [ ⟨0, "&msys=dvbt", 0⟩,
    ⟨1, "&msys=dvbt2", 1⟩ ]

def SatipSystemValuesCable : List tSatipParameterMap :=
  [ ⟨0, "&msys=dvbc", 0⟩,
    ⟨1, "&msys=dvbc2", 1⟩ ]

def SatipSystemValuesAtsc : List tSatipParameterMap :=
  [ ⟨0, "&msys=atsc", 0⟩ ]

def SatipTransmissionValues : List tSatipParameterMap :=
  [ ⟨TRANSMISSION_MODE_1K, "&tmode=1k", 1⟩,
    ⟨TRANSMISSION_MODE_2K, "&tmode=2k", 2⟩,
    ⟨TRANSMISSION_MODE_4K, "&tmode=4k", 4⟩,
    ⟨TRANSMISSION_MODE_8K, "&tmode=8k", 8⟩,
    ⟨TRANSMISSION_MODE_16K, "&tmode=16k", 16⟩,
    ⟨TRANSMISSION_MODE_32K, "&tmode=32k", 32⟩,
    ⟨TRANSMISSION_MODE_AUTO, "", 999⟩ ]

def SatipGuardValues : List tSatipParameterMap :=
  [ ⟨GUARD_INTERVAL_1_4, "&gi=14", 4⟩,
    ⟨GUARD_INTERVAL_1_8, "&gi=18", 8⟩,
    ⟨GUARD_INTERVAL_1_16, "&gi=116", 16⟩,
    ⟨GUARD_INTERVAL_1_32, "&gi=132", 32⟩,
    ⟨GUARD_INTERVAL_1_128, "&gi=1128", 128⟩,
    ⟨GUARD_INTERVAL_19_128, "&gi=19128", 19128⟩,
    ⟨GUARD_INTERVAL_19_256, "&gi=19256", 19256⟩,
    ⟨GUARD_INTERVAL_AUTO, "", 999⟩ ]

def SatipRollOffValues : List tSatipParameterMap :=
  [ ⟨ROLLOFF_AUTO, "", 0⟩,
    ⟨ROLLOFF_20, "&ro=0.20", 20⟩,
    ⟨ROLLOFF_25, "&ro=0.25", 25⟩,
    ⟨ROLLOFF_35, "&ro=0.35", 35⟩ ]

def SatipInversionValues : List tSatipParameterMap :=
  [ ⟨INVERSION_AUTO, "", 999⟩,
    ⟨INVERSION_OFF, "&specinv=0", 0⟩,
    ⟨INVERSION_ON, "&specinv=1", 1⟩ ]

/-- All thirteen mapping tables of `param.c`, in source order. -/
def SatipTables : List (List tSatipParameterMap) :=
  [ SatipBandwidthValues, SatipPilotValues, SatipSisoMisoValues, SatipCodeRateValues,
    SatipModulationValues, SatipSystemValuesSat, SatipSystemValuesTerrestrial,
    SatipSystemValuesCable, SatipSystemValuesAtsc, SatipTransmissionValues,
    SatipGuardValues, SatipRollOffValues, SatipInversionValues ]

/-! ## param.c: SatipToVdrParameter -/

/-- The test `param.find(p) == 0`: `p` occurs in `param` at position 0. -/
def findAtZero (param p : String) : Bool :=
  p.toList.isPrefixOf param.toList

/-- The `if / else if` chain of `SatipToVdrParameter` that picks the table;
`none` is `map == nullptr`. -/
def selectMap (param : String) : Option (List tSatipParameterMap) :=
  if findAtZero param "&bw=" then some SatipBandwidthValues
  else if findAtZero param "&plts=" then some SatipPilotValues
  else if findAtZero param "&sm=" then some SatipSisoMisoValues
  else if findAtZero param "&fec=" then some SatipCodeRateValues
  else if findAtZero param "&mtype=" then some SatipModulationValues
  else if findAtZero param "&msys=dvbs" then some SatipSystemValuesSat
  else if findAtZero param "&msys=dvbt" then some SatipSystemValuesTerrestrial
  else if findAtZero param "&msys=dvbc" then some SatipSystemValuesCable
  else if findAtZero param "&msys=atsc" then some SatipSystemValuesAtsc
  else if findAtZero param "&tmode=" then some SatipTransmissionValues
  else if findAtZero param "&gi=" then some SatipGuardValues
  else if findAtZero param "&ro=" then some SatipRollOffValues
  else if findAtZero param "&specinv=" then some SatipInversionValues
  else none

/-- The `while (it && it->satipString)` loop of `SatipToVdrParameter`. -/
def scanVdrValue (param : String) : List tSatipParameterMap → Int
  | [] => 999
  | it :: rest => if it.satipString = param then it.vdrValue else scanVdrValue param rest

def SatipToVdrParameter (param : String) : Int :=
  match selectMap param with
  | none => 999
  | some map => scanVdrValue param map

/-! ## param.c: GetTransponderUrlParameters -/

/-- The lambda `PrintUrlString` of `GetTransponderUrlParameters`. -/
def PrintUrlString (value : Int) : List tSatipParameterMap → String
  | [] => ""
  | it :: rest => if it.driverValue = value then it.satipString else PrintUrlString value rest

/-- The stream insertion `ss << n` for an `int`. -/
def printInt (n : Int) : String :=
  if n < 0 then "-" ++ Nat.repr n.natAbs else Nat.repr n.toNat

/-- The lambda `check`: `Type` occurs in `s`, and so does one of the characters
of the C string `{ (char)('1' + delsys), '*', 0 }` (which is empty when its first
byte is 0). -/
def check (s : String) (type : Char) (delsys : Int) : Bool :=
  let d : Int := (49 + delsys) % 256
  s.toList.contains type &&
    (d != 0 && s.toList.any (fun c => decide ((c.toNat : Int) = d) || c == '*'))

/-- The transponder parameters `cDvbTransponderParameters dtp(channel->Parameters())`. -/
structure cDvbTransponderParameters where
  Polarization : Char
  Inversion : Int
  Bandwidth : Int
  CoderateH : Int
  Modulation : Int
  System : Int
  Transmission : Int
  Guard : Int
  RollOff : Int
  Pilot : Int
  StreamId : Int
  T2SystemId : Int
  SisoMiso : Int
deriving DecidableEq, Repr

/-- What `GetTransponderUrlParameters` reads from a `cChannel`.  `type` is
`cSource::ToChar(channel->Source())`; `sourceDescription` is
`atoi(source->Description())` when `Sources.Get(channel->Source())` is not null. -/
structure cChannel where
  type : Char
  sourceDescription : Option Int
  Rid : Int
  Frequency : Int
  Srate : Int
  dtp : cDvbTransponderParameters
deriving DecidableEq, Repr

/-- The text written for `freq`.  The C code holds the frequency in a `float`,
divides it by 1000 while it exceeds 20000 and prints it with `%.3f`, a `,` of the
locale replaced by `.`.  A frequency of at most 20000 is an exact `float` and is
not divided; the text of a scaled frequency depends on `float` rounding and is
left to `fmtScaled`. -/
def PrintFloat (fmtScaled : Int → String) (Frequency : Int) : String :=
  if Frequency ≤ 20000 then printInt Frequency ++ ".000" else fmtScaled Frequency

/-- The descriptor after the `ST(" S 1")` block. -/
def applyDvbSRule (type : Char) (dtp : cDvbTransponderParameters) : cDvbTransponderParameters :=
  if check " S 1" type dtp.System then
    { dtp with Pilot := PILOT_OFF, Modulation := QPSK, RollOff := ROLLOFF_35 }
  else dtp

/-- The contents of the string stream `ss` before the leading `&` is removed. -/
def urlStream (fmtScaled : Int → String) (channel : cChannel) : String :=
  let type := channel.type
  let dtp := applyDvbSRule type channel.dtp
  let DataSlice : Int := 0
  let C2TuningFrequencyType : Int := 0
  let src : Int :=
    match channel.sourceDescription with
    | some n => if type = 'S' ∨ type = Char.ofNat 0 then n else 1
    | none => 1
  let fe : Int := max (Int.tmod channel.Rid 100) 0
  let ST (s : String) (text : String) : String := if check s type dtp.System then text else ""
  (if fe ≠ 0 then "&fe=" ++ printInt fe else "")
  ++ ST "  S *" ("&src=" ++ printInt (if 0 < src ∧ src ≤ 255 then src else 1))
  ++ (if 0 < channel.Frequency then "&freq=" ++ PrintFloat fmtScaled channel.Frequency else "")
  ++ ST "  S *" ("&pol=" ++ String.singleton dtp.Polarization.toLower)
  ++ ST "  S *" (PrintUrlString dtp.RollOff SatipRollOffValues)
  ++ ST " C  2" ("&c2tft=" ++ printInt C2TuningFrequencyType)
  ++ ST "   T*" (PrintUrlString dtp.Bandwidth SatipBandwidthValues)
  ++ ST " C  2" (PrintUrlString dtp.Bandwidth SatipBandwidthValues)
  ++ ST "  S *" (PrintUrlString dtp.System SatipSystemValuesSat)
  ++ ST " C  *" (PrintUrlString dtp.System SatipSystemValuesCable)
  ++ ST "   T*" (PrintUrlString dtp.System SatipSystemValuesTerrestrial)
  ++ ST "A   *" (PrintUrlString dtp.System SatipSystemValuesAtsc)
  ++ ST "   T*" (PrintUrlString dtp.Transmission SatipTransmissionValues)
  ++ ST "  S *" (PrintUrlString dtp.Modulation SatipModulationValues)
  ++ ST "   T*" (PrintUrlString dtp.Modulation SatipModulationValues)
  ++ ST " C  1" (PrintUrlString dtp.Modulation SatipModulationValues)
  ++ ST "A   *" (PrintUrlString dtp.Modulation SatipModulationValues)
  ++ ST "  S *" (PrintUrlString dtp.Pilot SatipPilotValues)
  ++ ST "  S *" ("&sr=" ++ printInt channel.Srate)
  ++ ST " C  1" ("&sr=" ++ printInt channel.Srate)
  ++ ST "   T*" (PrintUrlString dtp.Guard SatipGuardValues)
  ++ ST " CST*" (PrintUrlString dtp.CoderateH SatipCodeRateValues)
  ++ ST " C  2" ("&ds=" ++ printInt DataSlice)
  ++ ST " C T2" ("&plp=" ++ printInt dtp.StreamId)
  ++ ST "   T2" ("&t2id=" ++ printInt dtp.T2SystemId)
  ++ ST "   T2" (PrintUrlString dtp.SisoMiso SatipSisoMisoValues)
  ++ ST " C  1" (PrintUrlString dtp.Inversion SatipInversionValues)
  ++ ST "A   *" (PrintUrlString dtp.Inversion SatipInversionValues)

/-- The function `GetTransponderUrlParameters`; `none` is a null `channel`.
`result.erase(0,1)` drops the first character of a non-empty result. -/
def GetTransponderUrlParameters (fmtScaled : Int → String) (channel : Option cChannel) : String :=
  match channel with
  | none => ""
  | some ch => String.mk ((urlStream fmtScaled ch).toList.drop 1)


/-- A string `needle` occurs somewhere in `hay`. -/
def occursIn (needle hay : String) : Prop :=
  List.IsInfix needle.toList hay.toList

/-! ## C string helpers used by server.c and discover.c -/

/-- The library function `strstr`: the tail of `s` that starts at the first
occurrence of `needle`, `none` for a null result. -/
def strstr (s needle : List Char) : Option (List Char) :=
  match s with
  | [] => if needle.isEmpty then some [] else none
  | c :: cs => if needle.isPrefixOf (c :: cs) then some (c :: cs) else strstr cs needle

/-- The library predicate `isspace` in the "C" locale. -/
def isspace (c : Char) : Bool :=
  c == ' ' || (9 ≤ c.toNat && c.toNat ≤ 13)

/-- The decimal value of the leading digits of `s`, continuing from `acc`. -/
def digitsValue (acc : Nat) : List Char → Nat
  | [] => acc
  | c :: cs => if c.isDigit then digitsValue (acc * 10 + (c.toNat - 48)) cs else acc

/-- The library function `atoi` (no overflow is modelled). -/
def atoi (s : List Char) : Int :=
  match s.dropWhile isspace with
  | '-' :: r => - (digitsValue 0 r : Int)
  | '+' :: r => (digitsValue 0 r : Int)
  | r => (digitsValue 0 r : Int)

/-- The tokens returned by the calls `strtok_r(p, delims, &s)`,
`strtok_r(NULL, delims, &s)`, ... until the null result; `cur` holds the
characters of the token being read, last one first. -/
def strtokAux (delims : List Char) : List Char → List Char → List (List Char)
  | [], cur => if cur.isEmpty then [] else [cur.reverse]
  | c :: cs, cur =>
    if delims.contains c then
      (if cur.isEmpty then strtokAux delims cs [] else cur.reverse :: strtokAux delims cs [])
    else strtokAux delims cs (c :: cur)

def strtok (delims : String) (s : String) : List (List Char) :=
  strtokAux delims.toList s.toList []

/-- The helper `skipspace` of VDR: skips the leading bytes up to `' '`. -/
def skipspace (s : List Char) : List Char :=
  s.dropWhile (fun c => decide (c.toNat ≤ 32))

/-- The helper `isempty` of VDR: a null pointer or only white space. -/
def isempty (p : Option String) : Bool :=
  match p with
  | none => true
  | some s => (skipspace s.toList).isEmpty

/-- The library function `strcasecmp` in the "C" locale. -/
def strcasecmp : List Char → List Char → Int
  | [], [] => 0
  | [], b :: _ => - (b.toLower.toNat : Int)
  | a :: _, [] => (a.toLower.toNat : Int)
  | a :: as, b :: bs =>
    if a.toLower = b.toLower then strcasecmp as bs
    else (a.toLower.toNat : Int) - (b.toLower.toNat : Int)

/-- The idiom `(p && *p) ? p : dflt`. -/
def orDefault (p : Option String) (dflt : String) : String :=
  match p with
  | some s => if s.isEmpty then dflt else s
  | none => dflt

/-! ## server.c: cSatipFrontend and cSatipFrontends -/

structure cSatipFrontend where
  indexM : Int
  transponderM : Int
  deviceIdM : Int
  descriptionM : String
deriving DecidableEq, Repr

/-- The constructor `cSatipFrontend::cSatipFrontend`. -/
def cSatipFrontend.new (indexP : Int) (descriptionP : String) : cSatipFrontend :=
  { indexM := indexP, transponderM := 0, deviceIdM := -1, descriptionM := descriptionP }

/-- Modelled from the spec: the inline member `cSatipFrontend::Attached` is
declared in `server.h`, which is not among the sources.  A frontend holds
`attachedDeviceId|none`; the constructor stores `-1` for `none`, device ids
count from 0. -/
def cSatipFrontend.Attached (f : cSatipFrontend) : Bool :=
  decide (0 ≤ f.deviceIdM)

/-- Modelled from the spec: the inline member `cSatipFrontend::Attach` of
`server.h`; the frontend becomes attached to the device. -/
def cSatipFrontend.Attach (f : cSatipFrontend) (deviceIdP : Int) : cSatipFrontend :=
  { f with deviceIdM := deviceIdP }

/-- Modelled from the spec: the inline member `cSatipFrontend::Detach` of
`server.h`; the device that holds the frontend frees it. -/
def cSatipFrontend.Detach (f : cSatipFrontend) (deviceIdP : Int) : cSatipFrontend :=
  if deviceIdP = f.deviceIdM then { f with deviceIdM := -1 } else f

/-- Modelled from the spec: the inline member `cSatipFrontend::SetTransponder`
of `server.h`. -/
def cSatipFrontend.SetTransponder (f : cSatipFrontend) (transponderP : Int) : cSatipFrontend :=
  { f with transponderM := transponderP }

/-- A frontend pool `cSatipFrontends` (a `cList<cSatipFrontend>`), in list order. -/
abbrev cSatipFrontends := List cSatipFrontend

def cSatipFrontends.Matches : cSatipFrontends → Int → Int → Bool
  | [], _, _ => false
  | f :: rest, deviceIdP, transponderP =>
    if f.Attached && f.deviceIdM == deviceIdP && f.transponderM == transponderP then true
    else cSatipFrontends.Matches rest deviceIdP transponderP

/-- The search loop of `cSatipFrontends::Assign`: the position of `tmp` in the
pool, `none` when `tmp` stays null. -/
def cSatipFrontends.assignTarget : cSatipFrontends → Int → Option Nat
  | [], _ => none
  | f :: rest, deviceIdP =>
    if !f.Attached || f.deviceIdM == deviceIdP then some 0
    else (cSatipFrontends.assignTarget rest deviceIdP).map (· + 1)

/-- The member `cSatipFrontends::Assign`: the result and the pool afterwards. -/
def cSatipFrontends.Assign (pool : cSatipFrontends) (deviceIdP transponderP : Int) :
    Bool × cSatipFrontends :=
  match cSatipFrontends.assignTarget pool deviceIdP with
  | some i => (true, pool.modify (fun tmp => tmp.SetTransponder transponderP) i)
  | none => (false, pool)

/-- The loop of `cSatipFrontends::Attach`: the position of the frontend that is
attached, `none` when the loop ends without one. -/
def cSatipFrontends.attachTarget : cSatipFrontends → Int → Option Nat
  | [], _ => none
  | f :: rest, transponderP =>
    if f.transponderM == transponderP then some 0
    else (cSatipFrontends.attachTarget rest transponderP).map (· + 1)

def cSatipFrontends.Attach (pool : cSatipFrontends) (deviceIdP transponderP : Int) :
    Bool × cSatipFrontends :=
  match cSatipFrontends.attachTarget pool transponderP with
  | some i => (true, pool.modify (fun f => f.Attach deviceIdP) i)
  | none => (false, pool)

def cSatipFrontends.Detach (pool : cSatipFrontends) (deviceIdP transponderP : Int) :
    Bool × cSatipFrontends :=
  match cSatipFrontends.attachTarget pool transponderP with
  | some i => (true, pool.modify (fun f => f.Detach deviceIdP) i)
  | none => (false, pool)

/-! ## server.c: cSatipServer -/

/-- The delivery systems that index `frontendsM`. -/
inductive delsys where
  | DVBS2 | DVBT | DVBT2 | DVBC | DVBC2 | ATSC
deriving DecidableEq, Repr

/-- Modelled from the spec: the quirk bits `eSatipQuirk...` are declared in
`server.h`, which is not among the sources; the spec tabulates them. -/
def eSatipQuirkSessionId : Nat := 0x01
def eSatipQuirkPlayPids : Nat := 0x02
def eSatipQuirkForceLock : Nat := 0x04
def eSatipQuirkRtpOverTcp : Nat := 0x08
def eSatipQuirkCiXpmt : Nat := 0x10
def eSatipQuirkCiTnr : Nat := 0x20
def eSatipQuirkForcePilot : Nat := 0x40
def eSatipQuirkTearAndPlay : Nat := 0x80

/-- What the constructor of a server reads from outside `server.c`:
the number of slots of the array `sourceFiltersM` (declared in `server.h`),
the converters `cSource::FromString` and `cSource::ToString` of VDR, and
`SatipConfig.GetDisableServerQuirks()`. -/
structure ServerEnv where
  sourceFilterSlots : Nat
  FromString : List Char → Int
  ToString : Int → String
  DisableServerQuirks : Bool

structure cSatipServer where
  srcAddressM : String
  addressM : String
  modelM : String
  filtersM : String
  descriptionM : String
  portM : Int
  quirkM : Nat
  hasCiM : Bool
  activeM : Bool
  createdM : Nat
  /-- The time stamp held by the `cTimeMs lastSeenM`, in ms. -/
  lastSeenM : Nat
  sourceFiltersM : List Int
  frontendsM : delsys → cSatipFrontends

/-- The frontends `1 .. count` that one model token adds to a pool. -/
def newFrontends (count : Int) (descriptionP : String) : cSatipFrontends :=
  (List.range count.toNat).map (fun (i : Nat) => cSatipFrontend.new ((i : Int) + 1) descriptionP)

/-- The `if / else if` chain in the model loop of the constructor: the pool a
token `r` feeds and the frontends it adds, `none` when no branch is taken. -/
def tokenFrontends (r : List Char) : Option (delsys × cSatipFrontends) :=
  match strstr r "DVBS2-".toList with
  | some c => some (delsys.DVBS2, newFrontends (atoi (c.drop 6)) "DVB-S2")
  | none =>
  match strstr r "DVBT-".toList with
  | some c => some (delsys.DVBT, newFrontends (atoi (c.drop 5)) "DVB-T")
  | none =>
  match strstr r "DVBT2-".toList with
  | some c => some (delsys.DVBT2, newFrontends (atoi (c.drop 6)) "DVB-T2")
  | none =>
  match strstr r "DVBC-".toList with
  | some c => some (delsys.DVBC, newFrontends (atoi (c.drop 5)) "DVB-C")
  | none =>
  match strstr r "DVBC2-".toList with
  | some c => some (delsys.DVBC2, newFrontends (atoi (c.drop 6)) "DVB-C2")
  | none =>
  match strstr r "ATSC-".toList with
  | some c => some (delsys.ATSC, newFrontends (atoi (c.drop 5)) "ATSC")
  | none => none

/-- One round of the model loop: `frontendsM[d].Add(...)` appends to pool `d`. -/
def addTokenFrontends (pools : delsys → cSatipFrontends) (r : List Char) :
    delsys → cSatipFrontends :=
  match tokenFrontends r with
  | some (d, fs) => fun q => if q = d then pools q ++ fs else pools q
  | none => pools

/-- The model loop of the constructor (`strtok_r` over `modelM` with `","`). -/
def parseModel (modelM : String) : delsys → cSatipFrontends :=
  (strtok "," modelM).foldl addTokenFrontends (fun _ => [])

/-- The values the filter loop of the constructor stores in `sourceFiltersM`. -/
def parseFilters (env : ServerEnv) (filtersM : String) : List Int :=
  (((strtok "," filtersM).map (fun r => env.FromString (skipspace r))).filter
    (fun t => t != 0)).take env.sourceFilterSlots

/-- The text `filtersM` is rebuilt to when at least one filter was stored: each
round appends `","` (unless the text so far is empty in the sense of `isempty`)
and the name of the source. -/
def joinFilters (env : ServerEnv) (stored : List Int) : String :=
  stored.foldl
    (fun filtersM t => filtersM ++ (if isempty (some filtersM) then "" else ",") ++ env.ToString t)
    ""

def containsStr (s : String) (needle : String) : Bool :=
  (strstr s.toList needle.toList).isSome

/-- The quirk detection block of the constructor. -/
def detectQuirks (env : ServerEnv) (descriptionM : String) (quirkP : Nat) : Nat :=
  if env.DisableServerQuirks then quirkP
  else
    let q := quirkP
    let q := if containsStr descriptionM "GSSBOX" || containsStr descriptionM "DIGIBIT" ||
                containsStr descriptionM "Multibox-" ||
                containsStr descriptionM "Triax SatIP Converter"
             then q ||| eSatipQuirkSessionId else q
    let q := if containsStr descriptionM "minisatip" || containsStr descriptionM "DVBViewer"
             then q ||| eSatipQuirkRtpOverTcp else q
    let q := if containsStr descriptionM "FRITZ!WLAN Repeater DVB-C" ||
                containsStr descriptionM "fritzdvbc"
             then q ||| eSatipQuirkPlayPids else q
    let q := if containsStr descriptionM "FRITZ!WLAN Repeater DVB-C" ||
                containsStr descriptionM "fritzdvbc" ||
                containsStr descriptionM "Schwaiger Sat>IP Server"
             then q ||| eSatipQuirkForceLock else q
    let q := if containsStr descriptionM "OctopusNet" || containsStr descriptionM "minisatip"
             then q ||| eSatipQuirkCiXpmt else q
    let q := if containsStr descriptionM "DVBViewer" then q ||| eSatipQuirkCiTnr else q
    let q := if containsStr descriptionM "GSSBOX" || containsStr descriptionM "DIGIBIT" ||
                containsStr descriptionM "Multibox-" ||
                containsStr descriptionM "Triax SatIP Converter" ||
                containsStr descriptionM "KATHREIN SatIP Server"
             then q ||| eSatipQuirkForcePilot else q
    let q := if containsStr descriptionM "FRITZ!WLAN Repeater DVB-C" ||
                containsStr descriptionM "fritzdvbc"
             then q ||| eSatipQuirkTearAndPlay else q
    q

/-- The constructor `cSatipServer::cSatipServer`.  `now` is the clock reading
(`time(NULL)` and the start of the `cTimeMs lastSeenM(0)`), in ms.  The display
text `quirksM` is not kept. -/
def cSatipServer.new (env : ServerEnv) (now : Nat)
    (srcAddressP addressP : Option String) (portP : Int)
    (modelP filtersP descriptionP : Option String) (quirkP : Nat) : cSatipServer :=
  let modelM := orDefault modelP "DVBS-1"
  let filtersM := orDefault filtersP ""
  let descriptionM :=
    match descriptionP with
    | some d => if !isempty descriptionP then d else "MyBrokenHardware"
    | none => "MyBrokenHardware"
  let stored := if !isempty (some filtersM) then parseFilters env filtersM else []
  { srcAddressM := orDefault srcAddressP ""
    addressM := orDefault addressP "0.0.0.0"
    modelM := modelM
    filtersM := if stored.isEmpty then filtersM else joinFilters env stored
    descriptionM := descriptionM
    portM := portP
    quirkM := detectQuirks env descriptionM quirkP
    hasCiM := containsStr descriptionM "OctopusNet" || containsStr descriptionM "minisatip" ||
              containsStr descriptionM "DVBViewer"
    activeM := true
    createdM := now
    lastSeenM := now
    sourceFiltersM := stored ++ List.replicate (env.sourceFilterSlots - stored.length) 0
    frontendsM := parseModel modelM }

/-- The member `cSatipServer::Compare`. -/
def cSatipServer.Compare (self s : cSatipServer) : Int :=
  let result := strcasecmp self.addressM.toList s.addressM.toList
  if result = 0 then
    let result := strcasecmp self.modelM.toList s.modelM.toList
    if result = 0 then strcasecmp self.descriptionM.toList s.descriptionM.toList
    else result
  else result

/-- The member `cSatipServer::IsValidSource`; `sourceFiltersM[0]` of an array
without slots reads as 0. -/
def cSatipServer.IsValidSource (self : cSatipServer) (sourceP : Int) : Bool :=
  if self.sourceFiltersM.headD 0 ≠ 0 then self.sourceFiltersM.any (fun t => sourceP == t)
  else true

/-- The expression `(char) (Source >> 24)` as a byte value. -/
def sourceChar (Source : Int) : Int :=
  (Source / 16777216) % 256

/-- Modelled from the spec: the inline member `cSatipServer::IsActive` of
`server.h` reads the activity flag. -/
def cSatipServer.IsActive (self : cSatipServer) : Bool :=
  self.activeM

/-- Modelled from the spec: the inline member `cSatipServer::Update` of
`server.h` refreshes the last-seen time. -/
def cSatipServer.Update (self : cSatipServer) (now : Nat) : cSatipServer :=
  { self with lastSeenM := now }

/-- Modelled from the spec: the inline member `cSatipServer::LastSeen` of
`server.h`, the age of the last-seen time in ms. -/
def cSatipServer.LastSeen (self : cSatipServer) (now : Nat) : Nat :=
  now - self.lastSeenM

/-- Store the pool `pool` as `frontendsM[d]`. -/
def cSatipServer.setPool (self : cSatipServer) (d : delsys) (pool : cSatipFrontends) :
    cSatipServer :=
  { self with frontendsM := fun q => if q = d then pool else self.frontendsM q }

/-- The call `frontendsM[d].Assign(DeviceId, Transponder)` on a server. -/
def cSatipServer.assignIn (self : cSatipServer) (d : delsys) (DeviceId Transponder : Int) :
    Bool × cSatipServer :=
  let r := cSatipFrontends.Assign (self.frontendsM d) DeviceId Transponder
  (r.1, self.setPool d r.2)

/-- The call `frontendsM[a].Assign(..) || frontendsM[b].Assign(..)`. -/
def cSatipServer.assignInEither (self : cSatipServer) (a b : delsys)
    (DeviceId Transponder : Int) : Bool × cSatipServer :=
  let r := self.assignIn a DeviceId Transponder
  if r.1 then r else r.2.assignIn b DeviceId Transponder

/-- The member `cSatipServer::Assign`: the result and the server afterwards. -/
def cSatipServer.Assign (self : cSatipServer) (DeviceId Source DelSys Transponder : Int) :
    Bool × cSatipServer :=
  if !self.IsValidSource Source then (false, self)
  else if sourceChar Source = 83 then self.assignIn delsys.DVBS2 DeviceId Transponder
  else if sourceChar Source = 84 then
    (if DelSys ≠ 0 then self.assignIn delsys.DVBT2 DeviceId Transponder
     else self.assignInEither delsys.DVBT delsys.DVBT2 DeviceId Transponder)
  else if sourceChar Source = 67 then
    (if DelSys ≠ 0 then self.assignIn delsys.DVBC2 DeviceId Transponder
     else self.assignInEither delsys.DVBC delsys.DVBC2 DeviceId Transponder)
  else if sourceChar Source = 65 then self.assignIn delsys.ATSC DeviceId Transponder
  else (false, self)

/-- The member `cSatipServer::Matches(DeviceId, Source, DelSys, Transponder)`. -/
def cSatipServer.Matches (self : cSatipServer) (DeviceId Source DelSys Transponder : Int) :
    Bool :=
  if !self.IsValidSource Source then false
  else if sourceChar Source = 83 then
    cSatipFrontends.Matches (self.frontendsM delsys.DVBS2) DeviceId Transponder
  else if sourceChar Source = 84 then
    (if DelSys ≠ 0 then cSatipFrontends.Matches (self.frontendsM delsys.DVBT2) DeviceId Transponder
     else cSatipFrontends.Matches (self.frontendsM delsys.DVBT) DeviceId Transponder ||
          cSatipFrontends.Matches (self.frontendsM delsys.DVBT2) DeviceId Transponder)
  else if sourceChar Source = 67 then
    (if DelSys ≠ 0 then cSatipFrontends.Matches (self.frontendsM delsys.DVBC2) DeviceId Transponder
     else cSatipFrontends.Matches (self.frontendsM delsys.DVBC) DeviceId Transponder ||
          cSatipFrontends.Matches (self.frontendsM delsys.DVBC2) DeviceId Transponder)
  else if sourceChar Source = 65 then
    cSatipFrontends.Matches (self.frontendsM delsys.ATSC) DeviceId Transponder
  else false

/-- The registry `cSatipServers` (a `cList<cSatipServer>`): `Add` appends, so
list order is insertion order. -/
abbrev cSatipServers := List cSatipServer

/-- The first loop of `cSatipServers::Assign`: position of the server returned. -/
def cSatipServers.findMatching : cSatipServers → Int → Int → Int → Int → Option Nat
  | [], _, _, _, _ => none
  | s :: rest, deviceIdP, sourceP, transponderP, systemP =>
    if s.IsActive && s.Matches deviceIdP sourceP systemP transponderP then some 0
    else (cSatipServers.findMatching rest deviceIdP sourceP transponderP systemP).map (· + 1)

/-- The second loop of `cSatipServers::Assign`: position of the server returned
and the registry afterwards (`s->Assign` runs only on an active server). -/
def cSatipServers.assignFirst :
    cSatipServers → Int → Int → Int → Int → Option Nat × cSatipServers
  | [], _, _, _, _ => (none, [])
  | s :: rest, deviceIdP, sourceP, transponderP, systemP =>
    if s.IsActive then
      let r := s.Assign deviceIdP sourceP systemP transponderP
      if r.1 then (some 0, r.2 :: rest)
      else
        let q := cSatipServers.assignFirst rest deviceIdP sourceP transponderP systemP
        (q.1.map (· + 1), r.2 :: q.2)
    else
      let q := cSatipServers.assignFirst rest deviceIdP sourceP transponderP systemP
      (q.1.map (· + 1), s :: q.2)

/-- The member `cSatipServers::Assign`: the position of the returned server
(`none` for `NULL`) and the registry afterwards. -/
def cSatipServers.Assign (servers : cSatipServers)
    (deviceIdP sourceP transponderP systemP : Int) : Option Nat × cSatipServers :=
  match cSatipServers.findMatching servers deviceIdP sourceP transponderP systemP with
  | some i => (some i, servers)
  | none => cSatipServers.assignFirst servers deviceIdP sourceP transponderP systemP

/-- The member `cSatipServers::Update`: position of the refreshed server (`none`
for `NULL`) and the registry afterwards. -/
def cSatipServers.Update :
    cSatipServers → cSatipServer → Nat → Option Nat × cSatipServers
  | [], _, _ => (none, [])
  | s :: rest, serverP, now =>
    if s.Compare serverP = 0 then (some 0, s.Update now :: rest)
    else
      let q := cSatipServers.Update rest serverP now
      (q.1.map (· + 1), s :: q.2)

/-- The member `cSatipServers::Cleanup`.  `Del(s)` unlinks and frees `s`, and
the loop header then evaluates `Next(s)` on the freed object; `staleNext` says
what that read yields: the former successor (`true`) or the null pointer that
unlinking stored (`false`). -/
def cSatipServers.Cleanup (staleNext : Bool) (now : Nat) (intervalMsP : Nat) :
    cSatipServers → cSatipServers
  | [] => []
  | s :: rest =>
    if intervalMsP = 0 ∨ s.LastSeen now > intervalMsP then
      (if staleNext then cSatipServers.Cleanup staleNext now intervalMsP rest else rest)
    else s :: cSatipServers.Cleanup staleNext now intervalMsP rest

/-! ## discover.c: cSatipDiscover::AddServer -/

/-- The step `if (!serversM.Update(tmp)) serversM.Add(tmp); else DELETENULL(tmp);`. -/
def addOrRefresh (servers : cSatipServers) (tmp : cSatipServer) (now : Nat) : cSatipServers :=
  let r := cSatipServers.Update servers tmp now
  match r.1 with
  | none => r.2 ++ [tmp]
  | some _ => r.2

/-- The loop of the single-model branch of `AddServer` over the tokens of
`modelP`; `n` is the running counter of the description suffix. -/
def addSingleModels (env : ServerEnv) (now : Nat) (srcAddrP addrP : Option String)
    (portP : Int) (filtersP descP : Option String) (quirkP : Nat) :
    List (List Char) → Nat → cSatipServers → cSatipServers
  | [], _, servers => servers
  | r :: rest, n, servers =>
    let desc := (match descP with
                 | some d => if !isempty descP then d else "MyBrokenHardware"
                 | none => "MyBrokenHardware") ++ " #" ++ Nat.repr n
    let tmp := cSatipServer.new env now srcAddrP addrP portP (some (String.mk (skipspace r)))
                 filtersP (some desc) quirkP
    addSingleModels env now srcAddrP addrP portP filtersP descP quirkP rest (n + 1)
      (addOrRefresh servers tmp now)

/-- The member `cSatipDiscover::AddServer` acting on `serversM`;
`useSingleModelServers` is `SatipConfig.GetUseSingleModelServers()`. -/
def AddServer (env : ServerEnv) (useSingleModelServers : Bool) (now : Nat)
    (servers : cSatipServers) (srcAddrP addrP : Option String) (portP : Int)
    (modelP filtersP descP : Option String) (quirkP : Nat) : cSatipServers :=
  match modelP with
  | some m =>
    if useSingleModelServers && !isempty modelP then
      addSingleModels env now srcAddrP addrP portP filtersP descP quirkP (strtok "," m) 0 servers
    else
      addOrRefresh servers
        (cSatipServer.new env now srcAddrP addrP portP modelP filtersP descP quirkP) now
  | none =>
    addOrRefresh servers
      (cSatipServer.new env now srcAddrP addrP portP modelP filtersP descP quirkP) now

/-! ## server.c: quirk test -/

/-- Modelled from the spec: the inline member `cSatipServer::Quirk` of
`server.h`, a feature gate on the quirk bitset: some bit of `quirkP` is set in
the quirk mask of the server. -/
def cSatipServer.Quirk (self : cSatipServer) (quirkP : Nat) : Bool :=
  (self.quirkM &&& quirkP) != 0

/-- Modelled from the spec: the inline member `cSatipServer::HasCI` of
`server.h` reads the flag for external Common-Interface support. -/
def cSatipServer.HasCI (self : cSatipServer) : Bool :=
  self.hasCiM

/-! ## tuner.c: state of a tuner -/

/-- Modelled from the spec: the class `cSatipPid` is declared in `tuner.h`,
which is not among the sources.  A PidSet is a set of PIDs, listed in ascending
order. -/
abbrev cSatipPid := List Int

/-- Modelled from the spec: `cSatipPid::AddPid` puts the PID into the set. -/
def cSatipPid.AddPid (self : cSatipPid) (pidP : Int) : cSatipPid :=
  if pidP ∈ self then self else List.orderedInsert (fun a b => a ≤ b) pidP self

/-- Modelled from the spec: `cSatipPid::RemovePid` takes the PID out of the set. -/
def cSatipPid.RemovePid (self : cSatipPid) (pidP : Int) : cSatipPid :=
  self.filter (fun q => q != pidP)

/-- Modelled from the spec: `cSatipPid::ListPids`, the PIDs separated by `,` as
in `addpids=160,161`. -/
def cSatipPid.ListPids (self : cSatipPid) : String :=
  String.intercalate "," (self.map printInt)

/-- The states `eTunerState` of `tuner.h`, as the spec lists them. -/
inductive eTunerState where
  | tsIdle | tsRelease | tsSet | tsTuned | tsLocked
deriving DecidableEq, Repr

/-- Modelled from the spec: `eMinKeepAliveIntervalMs` of `tuner.h`
(min keepalive 30 s). -/
def eMinKeepAliveIntervalMs : Int := 30000

/-- Modelled from the spec: `eKeepAlivePreBufferMs` of `tuner.h`
(keepalive = serverTimeout − 500 ms). -/
def eKeepAlivePreBufferMs : Int := 500

/-- Modelled from the spec: `ePidUpdateIntervalMs` of `tuner.h`
(pid-update debounce 100 ms). -/
def ePidUpdateIntervalMs : Nat := 100

/-- Modelled from the spec: `SATIP_DEFAULT_RTSP_PORT` of `common.h`
(default RTSP port 554). -/
def SATIP_DEFAULT_RTSP_PORT : Int := 554

/-- The members of `cSatipTuner` that the modelled functions read or write.
A `cTimeMs` timer is the time stamp (ms) at which it times out.  A server
handle (`cSatipTunerServer`) is the server it refers to, `none` when it refers
to no server of the registry.  The `double` member `signalStrengthDBmM` holds
the value of the `double` as a rational number.  `TP` holds the
transponder fields of the last reception report (initially none). -/
structure cSatipTuner where
  deviceIdM : Int
  streamAddrM : String
  streamParamM : String
  lastAddrM : String
  lastParamM : String
  tnrParamM : String
  streamPortM : Int
  currentServerM : Option cSatipServer
  nextServerM : Option cSatipServer
  reConnectM : Nat
  keepAliveM : Nat
  statusUpdateM : Nat
  pidUpdateCacheM : Nat
  setupTimeoutM : Nat
  sessionM : String
  currentStateM : eTunerState
  internalStateM : List eTunerState
  externalStateM : List eTunerState
  timeoutM : Int
  hasLockM : Bool
  signalStrengthDBmM : ℚ
  signalStrengthM : Int
  signalQualityM : Int
  frontendIdM : Int
  streamIdM : Int
  pmtPidM : Int
  addPidsM : cSatipPid
  delPidsM : cSatipPid
  pidsM : cSatipPid
  TP : List String := []

/-- A call the tuner makes on its RTSP client, on the registry or on its
device. -/
inductive TunerCall where
  | Play (uri : String)
  | Teardown (uri : String)
  | Reset
  | SetSession (session : String)
  | Detach
  | SetInterface (address : Option String)
  | Options (uri : String)
  | Setup (uri : String) (useTcp : Bool)
  | Describe (uri : String)
  | Receive (uri : String)
  | Attach
  | SetChannelTuned
deriving DecidableEq, Repr

/-- What `UpdatePids` reads from outside the tuner: `SatipConfig.GetCIExtension()`,
`deviceM.GetPmtPid()`, `deviceM.GetCISlot()`, `deviceM.GetTnrParameterString()`,
and the constant `eDummyPid` of `tuner.h`. -/
structure PidUpdateEnv where
  CIExtension : Bool
  PmtPid : Int
  CISlot : Int
  TnrParameterString : String
  eDummyPid : Int

/-- The method `TimedOut` of a `cTimeMs` at clock reading `now`. -/
def TimedOut (timer now : Nat) : Bool :=
  decide (timer ≤ now)

/-- The call `IsQuirk(quirkP)` on a server handle. -/
def IsQuirk (server : Option cSatipServer) (quirkP : Nat) : Bool :=
  match server with
  | some s => s.Quirk quirkP
  | none => false

/-- The call `HasCI()` on a server handle. -/
def HasCI (server : Option cSatipServer) : Bool :=
  match server with
  | some s => s.HasCI
  | none => false

/-- The member `cSatipTuner::GetBaseUrl`. -/
def GetBaseUrl (addressP : String) (portP : Int) : String :=
  if portP ≠ SATIP_DEFAULT_RTSP_PORT then "rtsp://" ++ addressP ++ ":" ++ printInt portP ++ "/"
  else "rtsp://" ++ addressP ++ "/"

/-- The member `cSatipTuner::SetPid` (the type `typeP` is only logged). -/
def cSatipTuner.SetPid (t : cSatipTuner) (pidP : Int) (onP : Bool) : cSatipTuner :=
  if onP then
    { t with pidsM := t.pidsM.AddPid pidP
             addPidsM := t.addPidsM.AddPid pidP
             delPidsM := t.delPidsM.RemovePid pidP }
  else
    { t with pidsM := t.pidsM.RemovePid pidP
             delPidsM := t.delPidsM.AddPid pidP
             addPidsM := t.addPidsM.RemovePid pidP }

/-- The guard of `UpdatePids`. -/
def updatePidsDue (now : Nat) (t : cSatipTuner) (forceP : Bool) : Bool :=
  ((forceP && t.pidsM.length != 0) ||
    (TimedOut t.pidUpdateCacheM now && (t.addPidsM.length != 0 || t.delPidsM.length != 0))) &&
  !isempty (some t.streamAddrM) && decide (t.streamIdM > 0)

/-- The separator `paramadded ? "&" : "?"`. -/
def paramSep (paramadded : Bool) : String :=
  if paramadded then "&" else "?"

/-- The PID parameters that `UpdatePids` appends to the URI, with the value of
`paramadded` afterwards. -/
def pidQuery (env : PidUpdateEnv) (t : cSatipTuner) (forceP usedummy : Bool) : String × Bool :=
  if forceP || usedummy then
    if t.pidsM.length != 0 then
      (paramSep false ++ "pids=" ++ t.pidsM.ListPids ++
        (if usedummy && t.pidsM.length == 1 && decide (t.pidsM.headD 0 < 0x20)
          then "," ++ printInt env.eDummyPid else ""), true)
    else ("", false)
  else
    let a : String × Bool :=
      if t.addPidsM.length != 0 then (paramSep false ++ "addpids=" ++ t.addPidsM.ListPids, true)
      else ("", false)
    if t.delPidsM.length != 0 then
      (a.1 ++ paramSep a.2 ++ "delpids=" ++ t.delPidsM.ListPids, true)
    else a

/-- The CI extension block of `UpdatePids`: the text appended to the URI and the
new values of `pmtPidM` and `tnrParamM`. -/
def ciQuery (env : PidUpdateEnv) (t : cSatipTuner) (paramadded : Bool) :
    String × Int × String :=
  if env.CIExtension && HasCI t.currentServerM then
    if IsQuirk t.currentServerM eSatipQuirkCiXpmt then
      let pid := env.PmtPid
      ((if pid > 0 ∧ pid ≠ t.pmtPidM then
          paramSep paramadded ++ "x_pmt=" ++ printInt pid ++
            (if env.CISlot > 0 then "&x_ci=" ++ printInt env.CISlot else "")
        else ""), pid, t.tnrParamM)
    else if IsQuirk t.currentServerM eSatipQuirkCiTnr then
      let param := env.TnrParameterString
      ((if !isempty (some param) && t.tnrParamM != param then
          paramSep paramadded ++ "tnr=" ++ param
        else ""), t.pmtPidM, param)
    else ("", t.pmtPidM, t.tnrParamM)
  else ("", t.pmtPidM, t.tnrParamM)

/-- The URI of the PLAY request that `UpdatePids` builds. -/
def playUri (env : PidUpdateEnv) (t : cSatipTuner) (forceP : Bool) : String :=
  let usedummy := IsQuirk t.currentServerM eSatipQuirkPlayPids
  let q := pidQuery env t forceP usedummy
  GetBaseUrl t.streamAddrM t.streamPortM ++ "stream=" ++ printInt t.streamIdM
    ++ q.1 ++ (ciQuery env t q.2).1

/-- The member `cSatipTuner::UpdatePids`: its result, the tuner afterwards and the
calls made.  `play` is the outcome of `rtspM.Play` for a URI. -/
def cSatipTuner.UpdatePids (env : PidUpdateEnv) (now : Nat) (play : String → Bool)
    (t : cSatipTuner) (forceP : Bool) : Bool × cSatipTuner × List TunerCall :=
  if updatePidsDue now t forceP then
    let usedummy := IsQuirk t.currentServerM eSatipQuirkPlayPids
    let q := pidQuery env t forceP usedummy
    let ci := ciQuery env t q.2
    let uri := playUri env t forceP
    let t1 := { t with pmtPidM := ci.2.1, tnrParamM := ci.2.2,
                       pidUpdateCacheM := now + ePidUpdateIntervalMs }
    if !play uri then (false, t1, [TunerCall.Play uri])
    else (true, { t1 with addPidsM := [], delPidsM := [] }, [TunerCall.Play uri])
  else (true, t, [])

/-- The member `cSatipTuner::Disconnect`: the tuner afterwards and the calls made. -/
def cSatipTuner.Disconnect (now : Nat) (t : cSatipTuner) : cSatipTuner × List TunerCall :=
  let torn := !isempty (some t.lastAddrM) && decide (t.streamIdM ≥ 0)
  ({ t with streamIdM := if torn then -1 else t.streamIdM
            hasLockM := false
            signalStrengthDBmM := 0
            signalStrengthM := -1
            signalQualityM := -1
            frontendIdM := -1
            statusUpdateM := now
            timeoutM := eMinKeepAliveIntervalMs - eKeepAlivePreBufferMs
            pmtPidM := -1
            addPidsM := []
            delPidsM := [] },
   (if torn then
      [TunerCall.Teardown (t.lastAddrM ++ "stream=" ++ printInt t.streamIdM), TunerCall.Reset]
    else []) ++ [TunerCall.Detach])

/-- Modelled from the spec: the helper `SkipZeroes` of `common.h` strips the
leading zeros of a session id. -/
def SkipZeroes (s : String) : String :=
  String.mk (s.toList.dropWhile (fun c => c == '0'))

/-- The member `cSatipTuner::SetSessionTimeout`: the tuner afterwards and the
calls made. -/
def cSatipTuner.SetSessionTimeout (t : cSatipTuner) (sessionP : String) (timeoutP : Int) :
    cSatipTuner × List TunerCall :=
  ({ t with sessionM := sessionP
            timeoutM := (if timeoutP > eMinKeepAliveIntervalMs then timeoutP
                         else eMinKeepAliveIntervalMs) - eKeepAlivePreBufferMs },
   if IsQuirk t.nextServerM eSatipQuirkSessionId && !isempty (some sessionP) &&
        "0".toList.isPrefixOf sessionP.toList
     then [TunerCall.SetSession (SkipZeroes sessionP)] else [])

/-! ## tuner.c: ProcessApplicationData, the signal fields -/

/-- The position of the highest set bit of `n`, by at most `fuel` halvings. -/
def log2Fuel : Nat → Nat → Nat
  | 0, _ => 0
  | fuel + 1, n => if n ≥ 2 then log2Fuel fuel (n / 2) + 1 else 0

/-- The position of the highest set bit of `n` (0 for 0 and 1). -/
def floorLog2 (n : Nat) : Nat :=
  log2Fuel n n

/-- The significand and the exponent of the `double` nearest to the positive
rational `n / d`, ties to even: the value is `m * 2 ^ e`, where `m` has 53 bits
(or is 2^53 after rounding up). -/
def roundSignificand (n d : Nat) : Nat × Int :=
  let e0 : Int := (floorLog2 n : Int) - (floorLog2 d : Int) - 52
  let scaled : Int → Nat × Nat := fun e =>
    if 0 ≤ e then (n, d * 2 ^ e.toNat) else (n * 2 ^ (-e).toNat, d)
  let e := if (scaled e0).1 / (scaled e0).2 < 2 ^ 52 then e0 - 1 else e0
  let q := (scaled e).1 / (scaled e).2
  let r := (scaled e).1 % (scaled e).2
  let m := if 2 * r > (scaled e).2 ∨ (2 * r = (scaled e).2 ∧ q % 2 = 1) then q + 1 else q
  (m, e)

/-- The rounding of the exact result of an operation to `double` (IEEE 754
binary64, round to nearest, ties to even), for results in the range of the
normal numbers: neither overflow nor subnormal numbers are modelled. -/
def fl (x : ℚ) : ℚ :=
  if x = 0 then 0
  else
    let me := roundSignificand x.num.natAbs x.den
    let v : ℚ :=
      if 0 ≤ me.2 then (me.1 : ℚ) * 2 ^ me.2.toNat else (me.1 : ℚ) / 2 ^ (-me.2).toNat
    if x < 0 then -v else v

/-- The conversion of a `double` to `int`: the fraction is discarded.  The
conversion is defined in C for values within the range of `int` only. -/
def doubleToInt (q : ℚ) : Int :=
  if 0 ≤ q then ⌊q⌋ else -⌊-q⌋

/-- The statements of `ProcessApplicationData` that follow the splitting of the
`tuner=` field (`feID`, `level`, `lock`, `quality`): `params` is the vector of
its comma-separated values, filled up to 14 entries, and `StrToInt` the
conversion of the same name (an external helper).  Every `double` operation is
followed by its rounding `fl`. -/
def cSatipTuner.applySignalFields (StrToInt : String → Int) (t : cSatipTuner)
    (params : List String) : cSatipTuner :=
  let level := StrToInt (params.getD 1 "")
  let hasLockM := params.getD 2 "" == "1"
  let quality := StrToInt (params.getD 3 "")
  { t with frontendIdM := StrToInt (params.getD 0 "")
           signalStrengthDBmM :=
             if level > 0 then fl (fl (fl (40 * ((level - 32 : Int) : ℚ)) / 192) - 65) else 0
           signalStrengthM :=
             if level ≥ 0 then doubleToInt (fl (1 / 2 + fl (fl ((level : ℚ) * 100) / 255)))
             else -1
           hasLockM := hasLockM
           signalQualityM :=
             if hasLockM && decide (quality ≥ 0)
               then doubleToInt (fl (1 / 2 + fl (fl ((quality : ℚ) * 100) / 15))) else 0 }

/-! ## tuner.c: the state queues and the thread loop -/

/-- The modes `eStateMode` of `tuner.h` that `RequestState` tells apart. -/
inductive eStateMode where
  | smInternal | smExternal
deriving DecidableEq, Repr

/-- The member `cSatipTuner::UpdateCurrentState`. -/
def cSatipTuner.UpdateCurrentState (t : cSatipTuner) : cSatipTuner :=
  match t.internalStateM with
  | state :: rest => { t with currentStateM := state, internalStateM := rest }
  | [] =>
    match t.externalStateM with
    | state :: rest => { t with currentStateM := state, externalStateM := rest }
    | [] => t

/-- The member `cSatipTuner::StateRequested`. -/
def cSatipTuner.StateRequested (t : cSatipTuner) : Bool :=
  t.internalStateM.length != 0 || t.externalStateM.length != 0

/-- The member `cSatipTuner::RequestState`: its result and the tuner afterwards.
The last branch of the source (`return false` for a mode that is neither of the
two enumerators) has no counterpart. -/
def cSatipTuner.RequestState (t : cSatipTuner) (stateP : eTunerState) (modeP : eStateMode) :
    Bool × cSatipTuner :=
  match modeP with
  | eStateMode.smExternal => (true, { t with externalStateM := t.externalStateM ++ [stateP] })
  | eStateMode.smInternal =>
    let state := (t.internalStateM.getLast?).getD t.currentStateM
    match state with
    | eTunerState.tsIdle =>
      if stateP = eTunerState.tsRelease then (false, t)
      else (true, { t with internalStateM := t.internalStateM ++ [stateP] })
    | _ => (true, { t with internalStateM := t.internalStateM ++ [stateP] })

/-- Modelled from the spec: `eConnectTimeoutMs` of `tuner.h` (connect 1500 ms). -/
def eConnectTimeoutMs : Nat := 1500

/-- Modelled from the spec: `eSetupTimeoutMs` of `tuner.h` (setup 2000 ms). -/
def eSetupTimeoutMs : Nat := 2000

/-- Modelled from the spec: `eTuningTimeoutMs` of `tuner.h` (tuning 3000 ms). -/
def eTuningTimeoutMs : Nat := 3000

/-- Modelled from the spec: `eIdleCheckTimeoutMs` of `tuner.h` (idle-release
10 s, two cycles). -/
def eIdleCheckTimeoutMs : Nat := 10000

/-- Modelled from the spec: `eStatusUpdateTimeoutMs` of `tuner.h` (status poll
2000 ms). -/
def eStatusUpdateTimeoutMs : Nat := 2000

/-- The member `cSatipTuner::SetSource`: its result and the tuner afterwards.
`unescape` is `RtspUnescapeString` (of `rtsp.c`), `parameterP` is `none` for a
null pointer.  The transponder goes into the server handle only and the index
is only logged. -/
def cSatipTuner.SetSource (unescape : String → String) (now : Nat) (t : cSatipTuner)
    (serverP : Option cSatipServer) (parameterP : Option String) : Bool × cSatipTuner :=
  match serverP with
  | some server =>
    let t := { t with nextServerM := some server }
    if !isempty (some server.addressM) && !isempty parameterP then
      let parameter := parameterP.getD ""
      let t := { t with streamAddrM := unescape server.addressM
                        streamParamM := unescape parameter
                        streamPortM := server.portM }
      let t :=
        if IsQuirk t.nextServerM eSatipQuirkForcePilot && containsStr parameter "msys=dvbs2" &&
            !containsStr parameter "plts=" then
          { t with streamParamM := unescape (parameter ++ "&plts=on") }
        else t
      let t :=
        if !isempty (some t.lastAddrM) then
          if GetBaseUrl t.streamAddrM t.streamPortM != t.lastAddrM then
            (t.RequestState eTunerState.tsRelease eStateMode.smInternal).2
          else t
        else t
      let t := (t.RequestState eTunerState.tsSet eStateMode.smExternal).2
      (true, { t with setupTimeoutM := now + eSetupTimeoutMs })
    else (true, t)
  | none => (true, { t with streamAddrM := "", streamParamM := "" })

/-- What the thread loop reads from outside the tuner: the outcome of the
requests of the RTSP client (`rtspM`), the configuration, the device, and
constants of `tuner.h`. -/
structure ActionEnv where
  Play : String → Bool
  SetInterface : Option String → Bool
  Options : String → Bool
  Setup : String → Bool → Bool
  Describe : String → Bool
  Receive : String → Bool
  pid : PidUpdateEnv
  IsTransportModeRtpOverTcp : Bool
  deviceIsIdle : Bool
  eDefaultSignalStrengthDBm : ℚ
  eDefaultSignalStrength : Int
  eDefaultSignalQuality : Int

/-- The member `cSatipTuner::Connect`: its result, the tuner afterwards and the
calls made. -/
def cSatipTuner.Connect (env : ActionEnv) (now : Nat) (t : cSatipTuner) :
    Bool × cSatipTuner × List TunerCall :=
  if !isempty (some t.streamAddrM) then
    let connectionUri := GetBaseUrl t.streamAddrM t.streamPortM
    let t := { t with tnrParamM := "" }
    if t.streamIdM ≥ 0 then
      if t.streamParamM == t.lastParamM && t.hasLockM then (true, t, [])
      else
        let uri := connectionUri ++ "stream=" ++ printInt t.streamIdM ++ "?" ++ t.streamParamM
        if env.Play uri then
          (true, { t with keepAliveM := now + t.timeoutM.toNat, lastParamM := t.streamParamM },
            [TunerCall.Play uri])
        else (false, { t with streamIdM := -1 }, [TunerCall.Play uri, TunerCall.Reset])
    else
      let source := t.nextServerM.map (fun s => s.srcAddressM)
      if !env.SetInterface source then
        (false, { t with streamIdM := -1 }, [TunerCall.SetInterface source, TunerCall.Reset])
      else if !env.Options connectionUri then
        (false, { t with streamIdM := -1 },
          [TunerCall.SetInterface source, TunerCall.Options connectionUri, TunerCall.Reset])
      else
        let uri := connectionUri ++ "?" ++ t.streamParamM
        let useTcp := env.IsTransportModeRtpOverTcp && t.nextServerM.isSome &&
          IsQuirk t.nextServerM eSatipQuirkRtpOverTcp
        if env.Setup uri useTcp then
          (true,
            { t with keepAliveM := now + t.timeoutM.toNat
                     currentServerM := if t.nextServerM.isSome then t.nextServerM
                                       else t.currentServerM
                     nextServerM := none
                     lastAddrM := connectionUri },
            [TunerCall.SetInterface source, TunerCall.Options connectionUri,
             TunerCall.Setup uri useTcp, TunerCall.Attach])
        else
          (false, { t with streamIdM := -1 },
            [TunerCall.SetInterface source, TunerCall.Options connectionUri,
             TunerCall.Setup uri useTcp, TunerCall.Reset])
  else (false, t, [])

/-- The member `cSatipTuner::Receive`: its result and the calls made. -/
def cSatipTuner.Receive (env : ActionEnv) (t : cSatipTuner) : Bool × List TunerCall :=
  if !isempty (some t.streamAddrM) then
    let uri := GetBaseUrl t.streamAddrM t.streamPortM
    (env.Receive uri, [TunerCall.Receive uri])
  else (true, [])

/-- The member `cSatipTuner::KeepAlive`: its result, the tuner afterwards and
the calls made. -/
def cSatipTuner.KeepAlive (env : ActionEnv) (now : Nat) (t : cSatipTuner) (forceP : Bool) :
    Bool × cSatipTuner × List TunerCall :=
  let due := TimedOut t.keepAliveM now
  let t := if due then { t with keepAliveM := now + t.timeoutM.toNat } else t
  if (forceP || due) && !isempty (some t.streamAddrM) then
    let uri := GetBaseUrl t.streamAddrM t.streamPortM
    (env.Options uri, t, [TunerCall.Options uri])
  else (true, t, [])

/-- The member `cSatipTuner::ReadReceptionStatus`: its result, the tuner
afterwards and the calls made. -/
def cSatipTuner.ReadReceptionStatus (env : ActionEnv) (now : Nat) (t : cSatipTuner)
    (forceP : Bool) : Bool × cSatipTuner × List TunerCall :=
  let due := TimedOut t.statusUpdateM now
  let t := if due then { t with statusUpdateM := now + eStatusUpdateTimeoutMs } else t
  if (forceP || due) && !isempty (some t.streamAddrM) && decide (t.streamIdM > 0) then
    let uri := GetBaseUrl t.streamAddrM t.streamPortM ++ "stream=" ++ printInt t.streamIdM
    (env.Describe uri, t, [TunerCall.Describe uri])
  else (false, t, [])

/-- The local variables of `cSatipTuner::Action`; the timers are the time
stamps at which they time out. -/
structure ActionLocals where
  lastIdleStatus : Bool
  idleCheck : Nat
  tuning : Nat

/-- The local variables of `Action` when the loop is entered at clock reading
`now`. -/
def ActionLocals.new (now : Nat) : ActionLocals :=
  { lastIdleStatus := false, idleCheck := now + eIdleCheckTimeoutMs,
    tuning := now + eTuningTimeoutMs }

/-- One round of the loop of `cSatipTuner::Action` at clock reading `now`: the
tuner and the local variables afterwards, and the calls made.  The wait at the
end of the round is the progress of the clock from one round to the next. -/
def cSatipTuner.ActionRound (env : ActionEnv) (now : Nat) (t : cSatipTuner)
    (loc : ActionLocals) : cSatipTuner × ActionLocals × List TunerCall :=
  let t := t.UpdateCurrentState
  match t.currentStateM with
  | eTunerState.tsIdle => (t, loc, [])
  | eTunerState.tsRelease =>
    let d := t.Disconnect now
    ((d.1.RequestState eTunerState.tsIdle eStateMode.smInternal).2, loc, d.2)
  | eTunerState.tsSet =>
    let d := if IsQuirk t.currentServerM eSatipQuirkTearAndPlay then t.Disconnect now
             else (t, [])
    let c := d.1.Connect env now
    if c.1 then
      let r := (c.2.1.RequestState eTunerState.tsTuned eStateMode.smInternal).2
      let u := r.UpdatePids env.pid now env.Play true
      (u.2.1, { loc with tuning := now + eTuningTimeoutMs }, d.2 ++ c.2.2 ++ u.2.2)
    else
      let e := c.2.1.Disconnect now
      (e.1, loc, d.2 ++ c.2.2 ++ e.2)
  | eTunerState.tsTuned =>
    let t := { t with reConnectM := now + eConnectTimeoutMs }
    let loc1 := { loc with idleCheck := now + eIdleCheckTimeoutMs, lastIdleStatus := false }
    let r := if t.hasLockM then (true, t, []) else t.ReadReceptionStatus env now false
    if r.1 then
      let t := r.2.1
      let t :=
        if IsQuirk t.currentServerM eSatipQuirkForceLock then
          { t with hasLockM := true
                   signalStrengthDBmM := env.eDefaultSignalStrengthDBm
                   signalStrengthM := env.eDefaultSignalStrength
                   signalQualityM := env.eDefaultSignalQuality }
        else t
      ((if t.hasLockM then (t.RequestState eTunerState.tsLocked eStateMode.smInternal).2 else t),
        loc1, TunerCall.SetChannelTuned :: r.2.2)
    else if TimedOut loc.tuning now then
      ((r.2.1.RequestState eTunerState.tsSet eStateMode.smInternal).2, loc1,
        TunerCall.SetChannelTuned :: r.2.2)
    else (r.2.1, loc1, TunerCall.SetChannelTuned :: r.2.2)
  | eTunerState.tsLocked =>
    let u := t.UpdatePids env.pid now env.Play false
    if !u.1 then
      ((u.2.1.RequestState eTunerState.tsSet eStateMode.smInternal).2, loc, u.2.2)
    else
      let k := u.2.1.KeepAlive env now false
      if !k.1 then
        ((k.2.1.RequestState eTunerState.tsSet eStateMode.smInternal).2, loc, u.2.2 ++ k.2.2)
      else
        let t := k.2.1
        if TimedOut t.reConnectM now then
          ((t.RequestState eTunerState.tsSet eStateMode.smInternal).2, loc, u.2.2 ++ k.2.2)
        else if TimedOut loc.idleCheck now then
          let currentIdleStatus := env.deviceIsIdle
          ((if loc.lastIdleStatus && currentIdleStatus then
              (t.RequestState eTunerState.tsRelease eStateMode.smInternal).2 else t),
            { loc with lastIdleStatus := currentIdleStatus
                       idleCheck := now + eIdleCheckTimeoutMs },
            u.2.2 ++ k.2.2)
        else (t, loc, u.2.2 ++ k.2.2 ++ (t.Receive env).2)

/-- The rounds of the loop of `Action` at the successive clock readings
`times`, with no call from outside in between: the tuner and the local
variables after the last round, and the calls made in each round. -/
def runAction (env : ActionEnv) :
    List Nat → cSatipTuner → ActionLocals → cSatipTuner × ActionLocals × List (List TunerCall)
  | [], t, loc => (t, loc, [])
  | now :: rest, t, loc =>
    let r := t.ActionRound env now loc
    let q := runAction env rest r.1 r.2.1
    (q.1, q.2.1, r.2.2 :: q.2.2)

/-! ## satip.c: ParsePortRange -/

/-- The value of a digit or letter as a digit of `strtol`. -/
def digitOf (c : Char) : Option Nat :=
  if c.isDigit then some (c.toNat - 48)
  else if c.isLower then some (c.toNat - 97 + 10)
  else if c.isUpper then some (c.toNat - 65 + 10)
  else none

/-- The value of the leading digits of `s` in base `base`, continuing from `acc`. -/
def digitsBase (base : Nat) (acc : Nat) : List Char → Nat
  | [] => acc
  | c :: cs =>
    match digitOf c with
    | some d => if d < base then digitsBase base (acc * base + d) cs else acc
    | none => acc

/-- The number that `strtol` with base 0 reads after the sign: hexadecimal after
`0x`, octal after `0`, decimal otherwise. -/
def strtolMagnitude (s : List Char) : Nat :=
  match s with
  | '0' :: x :: h :: rest =>
    if (x == 'x' || x == 'X') && (digitOf h).any (fun d => decide (d < 16)) then
      digitsBase 16 0 (h :: rest)
    else digitsBase 8 0 (x :: h :: rest)
  | '0' :: rest => digitsBase 8 0 rest
  | _ => digitsBase 10 0 s

/-- The library function `strtol(s, NULL, 0)` for a 64-bit `long`. -/
def strtol (s : List Char) : Int :=
  match s.dropWhile isspace with
  | '-' :: r => max (- (strtolMagnitude r : Int)) (-9223372036854775808)
  | '+' :: r => min (strtolMagnitude r : Int) 9223372036854775807
  | r => min (strtolMagnitude r : Int) 9223372036854775807

/-- The conversion of a `long` to `unsigned int` (32 bits). -/
def toUnsigned (x : Int) : Nat :=
  (x % 4294967296).toNat

/-- The member `cPluginSatip::ParsePortRange`: the values passed to
`SetPortRangeStart` and `SetPortRangeStop`.  The `unsigned int` arithmetic of
the comparison is modulo 2^32. -/
def ParsePortRange (deviceCountM : Nat) (paramP : String) : Nat × Nat :=
  let tokens := strtokAux "-".toList (skipspace paramP.toList) []
  let range : Nat × Nat :=
    match tokens with
    | r1 :: r2 :: _ => (toUnsigned (strtol r1), toUnsigned (strtol r2))
    | _ => (0, 0)
  let rangeStart := range.1
  let rangeStop := range.2
  if rangeStart % 2 ≠ 0 then (0, 0)
  else if (rangeStop + (4294967296 - rangeStart) + 1) % 4294967296
      < (deviceCountM * 2) % 4294967296 then (0, 0)
  else (rangeStart, rangeStop)

/-! ## device.c: the TS buffer and the section filters -/

/-- Modelled from the spec: `TS_SIZE`, the size of a TS packet (188 bytes). -/
def TS_SIZE : Nat := 188

/-- Modelled from the spec: `TS_SYNC_BYTE`, the TS sync byte (0x47). -/
def TS_SYNC_BYTE : Nat := 0x47

/-- Modelled from the spec: the section filter hub `cSatipSectionFilterHandler`
is not among the sources.  It holds the open filters, each one with its handle
and its PID. -/
structure cSatipSectionFilterHandler where
  filtersM : List (Int × Int)
deriving DecidableEq, Repr

/-- Modelled from the spec: `GetPid`, the PID of the filter with the given
handle, -1 when there is none. -/
def cSatipSectionFilterHandler.GetPid (h : cSatipSectionFilterHandler) (handleP : Int) : Int :=
  match h.filtersM.find? (fun f => f.1 == handleP) with
  | some f => f.2
  | none => -1

/-- Modelled from the spec: `Exists`, whether an open filter is on the PID. -/
def cSatipSectionFilterHandler.Exists (h : cSatipSectionFilterHandler) (pidP : Int) : Bool :=
  h.filtersM.any (fun f => f.2 == pidP)

/-- Modelled from the spec: `Open`, with the handle that the hub gives to the
new filter (negative when it cannot open one). -/
def cSatipSectionFilterHandler.Open (h : cSatipSectionFilterHandler) (handle : Int)
    (pidP : Int) : cSatipSectionFilterHandler :=
  if handle ≥ 0 then { filtersM := h.filtersM ++ [(handle, pidP)] } else h

/-- Modelled from the spec: `Close`, which closes the filter with the handle. -/
def cSatipSectionFilterHandler.Close (h : cSatipSectionFilterHandler) (handleP : Int) :
    cSatipSectionFilterHandler :=
  { filtersM := h.filtersM.filter (fun f => f.1 != handleP) }

/-- The fields of the PID handle `cPidHandle` of VDR that `cSatipDevice::SetPid`
reads. -/
structure cPidHandle where
  pid : Int
  used : Int
deriving DecidableEq, Repr

/-- The members of `cSatipDevice` that the modelled functions read or write.
The ring buffer `tsBufferM` is the list of the bytes it holds, oldest first,
`none` for a null pointer. -/
structure cSatipDevice where
  isOpenDvrM : Bool
  tsBufferM : Option (List Nat)
  bytesDelivered : Nat
  tuner : Option cSatipTuner
  pSectionFilterHandlerM : Option cSatipSectionFilterHandler

/-- The member `cSatipDevice::SetPid`: its result and the device afterwards. -/
def cSatipDevice.SetPid (dev : cSatipDevice) (handleP : Option cPidHandle) (onP : Bool) :
    Bool × cSatipDevice :=
  match dev.tuner, handleP with
  | some tuner, some handle =>
    if handle.pid ≥ 0 ∧ handle.pid ≤ 8191 then
      if onP then (true, { dev with tuner := some (tuner.SetPid handle.pid true) })
      else
        match dev.pSectionFilterHandlerM with
        | some h =>
          if handle.used == 0 && !h.Exists handle.pid then
            (true, { dev with tuner := some (tuner.SetPid handle.pid false) })
          else (true, dev)
        | none => (true, dev)
    else (true, dev)
  | _, _ => (true, dev)

/-- The member `cSatipDevice::OpenFilter`: its result and the device afterwards;
`handle` is the result of `pSectionFilterHandlerM->Open`. -/
def cSatipDevice.OpenFilter (dev : cSatipDevice) (handle : Int) (pidP : Int) :
    Int × cSatipDevice :=
  match dev.pSectionFilterHandlerM with
  | some h =>
    (handle,
      { dev with pSectionFilterHandlerM := some (h.Open handle pidP)
                 tuner := if handle ≥ 0 then dev.tuner.map (fun t => t.SetPid pidP true)
                          else dev.tuner })
  | none => (-1, dev)

/-- The member `cSatipDevice::CloseFilter`: the device afterwards. -/
def cSatipDevice.CloseFilter (dev : cSatipDevice) (handleP : Int) : cSatipDevice :=
  match dev.pSectionFilterHandlerM with
  | some h =>
    let pid := h.GetPid handleP
    { dev with tuner := dev.tuner.map (fun t => t.SetPid pid false)
               pSectionFilterHandlerM := some (h.Close handleP) }
  | none => dev

/-- The resynchronisation loop of `GetData`: the number of bytes to drop, which
is the position of the first sync byte after position 0 of the run `p`, or the
length of the run when there is none. -/
def resyncCount (p : List Nat) : Nat :=
  match (p.drop 1).indexOf? TS_SYNC_BYTE with
  | some i => i + 1
  | none => p.length

/-- The member `cSatipDevice::GetData`: the result and the device afterwards.
The result is `none` for a null pointer, otherwise the bytes that can be read
at the returned pointer together with the value stored through `availableP`.
`contiguous` is the number of bytes that `tsBufferM->Get(count)` hands out in
this call: `Get` returns the bytes from the read position up to the end of the
data or of the buffer memory, and a null pointer when there are none. -/
def cSatipDevice.GetData (contiguous : Nat) (dev : cSatipDevice) (checkTsBuffer : Bool) :
    Option (List Nat × Nat) × cSatipDevice :=
  match dev.tsBufferM with
  | some buffer =>
    if dev.isOpenDvrM then
      let buffer := if dev.bytesDelivered != 0 then buffer.drop dev.bytesDelivered else buffer
      let dev := { dev with tsBufferM := some buffer, bytesDelivered := 0 }
      if checkTsBuffer && decide (buffer.length < TS_SIZE) then (none, dev)
      else
        let p := buffer.take contiguous
        let count := p.length
        if !p.isEmpty && decide (count ≥ TS_SIZE) then
          if p.head? != some TS_SYNC_BYTE then
            (none, { dev with tsBufferM := some (buffer.drop (resyncCount p)) })
          else (some (p, count), { dev with bytesDelivered := TS_SIZE })
        else (none, dev)
    else (none, dev)
  | none => (none, dev)

/-! ## tuner.c: ProcessApplicationData -/

/-- The helpers of the external library that `ProcessApplicationData` calls:
`SplitStr`, `StrToInt`, `StrToFloat` and `UpperCase`. -/
structure RepFunc where
  SplitStr : String → Char → List String
  StrToInt : String → Int
  StrToFloat : String → ℚ
  UpperCase : String → String

/-- How a call ends: it returns, or an exception leaves it. -/
inductive Outcome (α : Type) where
  | returned (value : α)
  | thrown (what : String)

/-- The arguments of a call of `cChannel::SetTransponderData`. -/
structure TransponderData where
  Source : Int
  Frequency : Int
  Srate : Int
  Parameters : String

/-- The library function `lround`: the nearest integer, halves away from zero. -/
def lround (q : ℚ) : Int :=
  if 0 ≤ q then ⌊q + 1 / 2⌋ else -⌊-q + 1 / 2⌋

/-- The bytes of a buffer read as a C string: those before the first zero byte. -/
def cStr (s : List Char) : List Char :=
  s.takeWhile (fun c => c != Char.ofNat 0)

/-- The element `v[i]` of a `std::vector` of strings, for an index that is in
range. -/
def elemAt (v : List String) (i : Nat) : String :=
  v.getD i ""

/-- The text that `ss << c` adds for a `char`. -/
def putChar (c : Char) : String :=
  String.mk [c]

/-- The branch `isSat` of `ProcessApplicationData`. -/
def satTransponderData (rf : RepFunc) (SrcIdToSource : Int → Int)
    (channelSource channelSrate : Int) (srcID : Int) (params : List String) : TransponderData :=
  let Frequency := lround (rf.StrToFloat (elemAt params 4))
  let Polarisation := (rf.UpperCase (elemAt params 5)).toList.headD (Char.ofNat 0)
  let System := SatipToVdrParameter ("&msys=" ++ elemAt params 6)
  let ModType := SatipToVdrParameter ("&mtype=" ++ elemAt params 7)
  let Pilots := SatipToVdrParameter ("&plts=" ++ elemAt params 8)
  let RollOff := SatipToVdrParameter ("&ro=" ++ elemAt params 9)
  let SymbolRate := if (elemAt params 10).isEmpty then 0 else rf.StrToInt (elemAt params 10)
  let Fec := SatipToVdrParameter ("&fec=" ++ elemAt params 11)
  let Source := SrcIdToSource srcID
  let Source := if Source < 0 then channelSource else Source
  let SymbolRate := if SymbolRate ≤ 0 then channelSrate else SymbolRate
  let ss := putChar Polarisation ++ "C" ++ printInt Fec ++ "M" ++ printInt ModType ++
    (if System > 0 then "N" ++ printInt Pilots ++ "O" ++ printInt RollOff else "") ++
    "S" ++ printInt System
  { Source := Source, Frequency := Frequency, Srate := SymbolRate,
    Parameters := String.mk (cStr ss.toList) }

/-- The branch `isTerr` of `ProcessApplicationData`; `next` is the value that
the variable `next` has when the branch is entered. -/
def terrTransponderData (rf : RepFunc) (next : Nat) (params : List String) : TransponderData :=
  let Frequency := lround (rf.StrToFloat (elemAt params 4))
  let BandWidth := SatipToVdrParameter ("&bw=" ++ elemAt params 5)
  let System := SatipToVdrParameter ("&msys=" ++ elemAt params 6)
  let Transmission := SatipToVdrParameter ("&tmode=" ++ elemAt params 7)
  let ModType := SatipToVdrParameter ("&mtype=" ++ elemAt params 8)
  let Guard := SatipToVdrParameter ("&gi=" ++ elemAt params 9)
  let Fec := SatipToVdrParameter ("&fec=" ++ elemAt params 10)
  let Plp := if (elemAt params 11).isEmpty then -1 else rf.StrToInt (elemAt params 11)
  let T2id := if (elemAt params 12).isEmpty then -1 else rf.StrToInt (elemAt params 12)
  let SM := SatipToVdrParameter ("&sm=" ++ elemAt params next)
  let ss := "B" ++ printInt BandWidth ++ "C" ++ printInt Fec ++ "G" ++ printInt Guard ++
    "M" ++ printInt ModType ++
    (if System > 0 then "P" ++ printInt Plp ++ "Q" ++ printInt T2id else "") ++
    "S" ++ printInt System ++ "T" ++ printInt Transmission ++
    (if System > 0 then "X" ++ printInt SM else "")
  { Source := 84 * 16777216, Frequency := Frequency, Srate := 0, Parameters := ss }

/-- The branch `isCable` of `ProcessApplicationData`. -/
def cableTransponderData (rf : RepFunc) (channelSrate : Int) (params : List String) :
    TransponderData :=
  let Frequency := lround (rf.StrToFloat (elemAt params 4))
  let ModType := SatipToVdrParameter ("&mtype=" ++ elemAt params 7)
  let SymbolRate := if (elemAt params 8).isEmpty then 0 else rf.StrToInt (elemAt params 8)
  let Inversion := if (elemAt params 12).isEmpty then 999 else rf.StrToInt (elemAt params 12)
  let SymbolRate := if SymbolRate ≤ 0 then channelSrate else SymbolRate
  { Source := 67 * 16777216, Frequency := Frequency, Srate := SymbolRate,
    Parameters := "I" ++ printInt Inversion ++ "M" ++ printInt ModType }

/-- The member `cSatipTuner::ProcessApplicationData`: how the call ends and,
when it returns, the tuner afterwards and the transponder data written to the
current channel of the device, if any.  `bufferP` holds at least `lengthP`
bytes; `SrcIdToSource` is the helper of that name, `channelSource` and
`channelSrate` are the source and the symbol rate of the current channel.
An exception leaves the call where `std::string` throws one: on its
construction from a null pointer and on `substr` with a position beyond the
end. -/
def cSatipTuner.ProcessApplicationData (rf : RepFunc) (SrcIdToSource : Int → Int)
    (channelSource channelSrate : Int) (now : Nat) (t : cSatipTuner)
    (bufferP : List Char) (lengthP : Int) :
    Outcome (cSatipTuner × Option TransponderData) :=
  let t := { t with reConnectM := now + eConnectTimeoutMs }
  if lengthP < 33 then Outcome.returned (t, none)
  else
    let s := cStr (bufferP.take lengthP.toNat)
    match strstr s "ver=".toList with
    | none => Outcome.thrown "std::logic_error"
    | some ps =>
      let payload := rf.SplitStr (String.mk ps) ';'
      if payload.length < 3 then Outcome.returned (t, none)
      else
        let isSat := elemAt payload 0 == "ver=1.0"
        let isTerr := elemAt payload 0 == "ver=1.1"
        let isCable := elemAt payload 0 == "ver=1.2"
        let hasSrc := "src=".toList.isPrefixOf (elemAt payload 1).toList
        let srcID := if hasSrc then rf.StrToInt (String.mk ((elemAt payload 1).toList.drop 4)) else -1
        let next := if hasSrc then 2 else 1
        if (elemAt payload next).length < 6 then Outcome.thrown "std::out_of_range"
        else
          let params := rf.SplitStr (String.mk ((elemAt payload next).toList.drop 6)) ','
          let next := next + 1
          let params := params ++ List.replicate (14 - params.length) ""
          let t := t.applySignalFields rf.StrToInt params
          if t.TP.length == params.length - 4 && params.drop 4 == t.TP then
            Outcome.returned (t, none)
          else
            let t := { t with TP := params.drop 4 }
            if isSat then
              Outcome.returned (t, some (satTransponderData rf SrcIdToSource channelSource
                channelSrate srcID params))
            else if isTerr then Outcome.returned (t, some (terrTransponderData rf next params))
            else if isCable then
              Outcome.returned (t, some (cableTransponderData rf channelSrate params))
            else Outcome.returned (t, none)

/-! ## Auxiliary notions used in the statements -/

/-- The channel of scenario S1. -/
def channelS1 : cChannel :=
  { type := 'S', sourceDescription := some 1, Rid := 0, Frequency := 11494, Srate := 22000,
    dtp := { Polarization := 'H', Inversion := INVERSION_AUTO, Bandwidth := 8000000,
             CoderateH := FEC_2_3, Modulation := PSK_8, System := 1,
             Transmission := TRANSMISSION_MODE_AUTO, Guard := GUARD_INTERVAL_AUTO,
             RollOff := ROLLOFF_35, Pilot := PILOT_OFF, StreamId := 0, T2SystemId := 0,
             SisoMiso := 0 } }

/-- A first-generation DVB-S channel whose descriptor asks for 8PSK, roll-off
0.20 and pilot on. -/
def channelDvbS : cChannel :=
  { channelS1 with
    dtp := { channelS1.dtp with System := 0, Modulation := PSK_8, RollOff := ROLLOFF_20,
                                Pilot := PILOT_ON } }

/-- An environment for the examples: sixteen filter slots, no source is known
to the converters, quirk detection enabled. -/
def exampleEnv : ServerEnv :=
  { sourceFilterSlots := 16, FromString := fun _ => 0, ToString := fun _ => "",
    DisableServerQuirks := false }

/-- The satellite pool of a server whose model is `DVBS2-2`. -/
def poolDVBS2x2 : cSatipFrontends :=
  (cSatipServer.new exampleEnv 0 none (some "10.0.0.2") 554 (some "DVBS2-2") none
    (some "minisatip") 0).frontendsM delsys.DVBS2

/-- Position `i` holds the first element of `l` that satisfies `p`. -/
def IsFirstAt {α : Type} (p : α → Bool) (l : List α) (i : Nat) : Prop :=
  (∃ s, l[i]? = some s ∧ p s = true) ∧ ∀ k, k < i → ∀ s, l[k]? = some s → p s = false

/-- The recursion scheme shared by the search loops: position of the first
element that satisfies `p`. -/
def firstIdx {α : Type} (p : α → Bool) : List α → Option Nat
  | [] => none
  | s :: rest => if p s then some 0 else (firstIdx p rest).map (· + 1)

/-- The server of scenario S1, first seen at time 0. -/
def exampleServer : cSatipServer :=
  cSatipServer.new exampleEnv 0 none (some "10.0.0.2") 554 (some "DVBS2-2") none
    (some "minisatip") 0

/-- The registry after that server has been added to an empty registry. -/
def exampleRegistry : cSatipServers :=
  AddServer exampleEnv false 0 [] none (some "10.0.0.2") 554 (some "DVBS2-2") none
    (some "minisatip") 0

/-- The source code of a satellite source: `'S' << 24`. -/
def sourceSat : Int := 83 * 16777216

/-- A registry whose first server has been deactivated. -/
def exampleRegistryTwo : cSatipServers :=
  [{ exampleServer with activeM := false }, exampleServer]

/-- An environment in which quirk detection is disabled. -/
def noQuirksEnv : ServerEnv :=
  { exampleEnv with DisableServerQuirks := true }

/-- A tuner in the state the constructor leaves it in, at clock reading 0. -/
def idleTuner : cSatipTuner :=
  { deviceIdM := 0, streamAddrM := "", streamParamM := "", lastAddrM := "", lastParamM := "",
    tnrParamM := "", streamPortM := SATIP_DEFAULT_RTSP_PORT, currentServerM := none,
    nextServerM := none, reConnectM := 0, keepAliveM := 0, statusUpdateM := 0,
    pidUpdateCacheM := 0, setupTimeoutM := 0, sessionM := "", currentStateM := eTunerState.tsIdle,
    internalStateM := [], externalStateM := [],
    timeoutM := eMinKeepAliveIntervalMs - eKeepAlivePreBufferMs, hasLockM := false,
    signalStrengthDBmM := 0, signalStrengthM := -1, signalQualityM := -1, frontendIdM := -1,
    streamIdM := -1, pmtPidM := -1, addPidsM := [], delPidsM := [], pidsM := [] }

/-- A tuner with an established session (stream 1 on 10.0.0.2) on the server of
scenario S1, PID 2000 active and nothing pending. -/
def lockedTuner : cSatipTuner :=
  { idleTuner with streamAddrM := "10.0.0.2", lastAddrM := "rtsp://10.0.0.2/",
                   currentServerM := some exampleServer, sessionM := "12345678",
                   currentStateM := eTunerState.tsLocked, hasLockM := true, streamIdM := 1,
                   pidsM := [2000] }

/-- A server described as a FRITZ!WLAN Repeater, which has the PlayPids quirk. -/
def fritzServer : cSatipServer :=
  cSatipServer.new exampleEnv 0 none (some "10.0.0.3") 554 (some "DVBC-4") none
    (some "FRITZ!WLAN Repeater DVB-C") 0

/-- The observations of the examples: CI extension off, dummy PID 100. -/
def exampleMinPidEnv : PidUpdateEnv :=
  { CIExtension := false, PmtPid := 0, CISlot := 0, TnrParameterString := "", eDummyPid := 100 }

/-- The two pending sets have no PID in common. -/
def pendingDisjoint (t : cSatipTuner) : Prop :=
  ∀ p, ¬ (p ∈ t.addPidsM ∧ p ∈ t.delPidsM)

/-- The conversion `StrToInt` of the examples: the leading decimal number. -/
def exampleStrToInt (s : String) : Int :=
  atoi s.toList

/-- A server that answers OPTIONS and refuses every SETUP, PLAY and DESCRIBE. -/
def refusingEnv : ActionEnv :=
  { Play := fun _ => false, SetInterface := fun _ => true, Options := fun _ => true,
    Setup := fun _ _ => false, Describe := fun _ => false, Receive := fun _ => false,
    pid := exampleMinPidEnv, IsTransportModeRtpOverTcp := false, deviceIsIdle := false,
    eDefaultSignalStrengthDBm := 0, eDefaultSignalStrength := 0, eDefaultSignalQuality := 0 }

/-- A tuner in state Set that has been given the server and the channel of
scenario S1 and has no session yet. -/
def setTuner : cSatipTuner :=
  { idleTuner with streamAddrM := "10.0.0.2"
                   streamParamM := "src=1&freq=11494&pol=h&msys=dvbs2&sr=22000"
                   nextServerM := some exampleServer
                   currentStateM := eTunerState.tsSet }

/-- The calls of one failed connection attempt of `setTuner`. -/
def failedAttempt : List TunerCall :=
  [TunerCall.SetInterface (some ""), TunerCall.Options "rtsp://10.0.0.2/",
   TunerCall.Setup "rtsp://10.0.0.2/?src=1&freq=11494&pol=h&msys=dvbs2&sr=22000" false,
   TunerCall.Reset, TunerCall.Detach]

/-- A device whose DVR is open, with an empty TS buffer, a tuner in its initial
state and no section filter open. -/
def exampleDevice : cSatipDevice :=
  { isOpenDvrM := true, tsBufferM := some [], bytesDelivered := 0, tuner := some idleTuner,
    pSectionFilterHandlerM := some { filtersM := [] } }

/-- The device after two section filters have been opened on PID 18, with the
handles 3 and 4. -/
def deviceTwoFilters : cSatipDevice :=
  ((exampleDevice.OpenFilter 3 18).2.OpenFilter 4 18).2

/-- A device whose TS buffer holds one TS packet followed by the first 12 bytes
of the next one. -/
def deviceOddFill : cSatipDevice :=
  { exampleDevice with
    tsBufferM := some ((TS_SYNC_BYTE :: List.replicate 187 0) ++
      (TS_SYNC_BYTE :: List.replicate 11 0)) }

/-- A split of a list of characters at every `delim`; `cur` holds the
characters of the piece being read, last one first. -/
def splitChars (delim : Char) : List Char → List Char → List (List Char)
  | [], cur => [cur.reverse]
  | c :: cs, cur =>
    if c == delim then cur.reverse :: splitChars delim cs [] else splitChars delim cs (c :: cur)

/-- The helpers of the examples: `SplitStr` splits at every delimiter,
`StrToInt` reads the leading decimal number, `StrToFloat` reads the integral
part only, `UpperCase` maps every letter to its capital. -/
def exampleRepFunc : RepFunc :=
  { SplitStr := fun s delim => (splitChars delim s.toList []).map String.mk
    StrToInt := exampleStrToInt
    StrToFloat := fun s => (exampleStrToInt s : ℚ)
    UpperCase := fun s => String.mk (s.toList.map Char.toUpper) }

/-- A DVB-T2 reception report without lock, whose `<sm>` field is 1. -/
def reportTerrNoLock : String :=
  "ver=1.1;tuner=1,224,0,15,474.00,8,dvbt2,32k,256qam,1128,23,0,0,1;pids=0,16,17"

/-- The same report with lock, the `<sm>` field being 0. -/
def reportTerrLock : String :=
  "ver=1.1;tuner=1,224,1,15,474.00,8,dvbt2,32k,256qam,1128,23,0,0,0;pids=0,16,17"

/-- The transponder parameters that a call of `ProcessApplicationData` writes to
the channel, `none` when it writes none or does not return. -/
def writtenParameters (r : Outcome (cSatipTuner × Option TransponderData)) : Option String :=
  match r with
  | Outcome.returned (_, some d) => some d.Parameters
  | _ => none

/-- Whether a call returns. -/
def Outcome.returns {α : Type} (r : Outcome α) : Bool :=
  match r with
  | Outcome.returned _ => true
  | Outcome.thrown _ => false

/-- The values of the `tuner=` field of a reception report as
`ProcessApplicationData` reads them, filled up to 14 entries; `none` when the
report is dropped before they are read or the call does not return. -/
def reportParams (rf : RepFunc) (bufferP : List Char) (lengthP : Int) : Option (List String) :=
  if lengthP < 33 then none
  else
    match strstr (cStr (bufferP.take lengthP.toNat)) "ver=".toList with
    | none => none
    | some ps =>
      let payload := rf.SplitStr (String.mk ps) ';'
      if payload.length < 3 then none
      else
        let next := if "src=".toList.isPrefixOf (elemAt payload 1).toList then 2 else 1
        if (elemAt payload next).length < 6 then none
        else
          let params := rf.SplitStr (String.mk ((elemAt payload next).toList.drop 6)) ','
          some (params ++ List.replicate (14 - params.length) "")

/-- The tuner after a call that returns, `none` when the call does not return. -/
def tunerAfter (r : Outcome (cSatipTuner × Option TransponderData)) : Option cSatipTuner :=
  match r with
  | Outcome.returned (t, _) => some t
  | Outcome.thrown _ => none

/-- The reception report of scenario S1: level 224, lock 1, quality 15. -/
def reportS1 : String :=
  "ver=1.0;src=1;tuner=1,224,1,15,11494,h,dvbs2,qpsk,off,0.35,22000,34;pids=0,16,17"

/-- A registry of two servers that were both last seen at clock reading 0. -/
def staleRegistry : cSatipServers :=
  [exampleServer,
   cSatipServer.new exampleEnv 0 none (some "10.0.0.3") 554 (some "DVBT2-2") none
     (some "OctopusNet") 0]

theorem scanVdrValue_absent (param : String) (map : List tSatipParameterMap)
    (h : ∀ r ∈ map, r.satipString ≠ param) : scanVdrValue param map = 999 := by
  induction map with
  | nil => rfl
  | cons it rest ih =>
    have h1 : it.satipString ≠ param := h it (List.mem_cons_self _ _)
    have h2 : ∀ r ∈ rest, r.satipString ≠ param := fun r hr => h r (List.mem_cons_of_mem _ hr)
    simp [scanVdrValue, h1, ih h2]

set_option maxRecDepth 100000 in
/-- C1 (amended). For every mapping table and every row of it, `PrintUrlString`
of the row's driver value is the row's SAT>IP string, and `SatipToVdrParameter`
of that string is the row's VDR value (the third column, not the driver value
that was translated) when the string is not empty, and 999 when it is empty. -/
theorem roundtrip_rows :
    ∀ t ∈ SatipTables, ∀ r ∈ t,
      PrintUrlString r.driverValue t = r.satipString ∧
      SatipToVdrParameter (PrintUrlString r.driverValue t)
        = if r.satipString = "" then 999 else r.vdrValue := by
  decide

theorem roundtrip_rows_witness :
    SatipBandwidthValues ∈ SatipTables ∧
    (⟨8000000, "&bw=8", 8⟩ : tSatipParameterMap) ∈ SatipBandwidthValues ∧
    PrintUrlString 8000000 SatipBandwidthValues = "&bw=8" ∧
    SatipToVdrParameter (PrintUrlString 8000000 SatipBandwidthValues) = 8 :=
  ⟨by decide, by decide,
   (roundtrip_rows SatipBandwidthValues (by decide) ⟨8000000, "&bw=8", 8⟩ (by decide)).1,
   (roundtrip_rows SatipBandwidthValues (by decide) ⟨8000000, "&bw=8", 8⟩ (by decide)).2⟩

/-- C1 (as stated) fails: the bandwidth 5000000 comes back as 5, and the code
rate `FEC_NONE`, listed with driver value 0 and VDR value 0, comes back as 999;
so the round trip returns neither the driver value nor the VDR value of every
row. -/
theorem roundtrip_not_identity :
    SatipToVdrParameter (PrintUrlString 5000000 SatipBandwidthValues) = 5 ∧
    SatipToVdrParameter (PrintUrlString FEC_NONE SatipCodeRateValues) = 999 ∧
    (¬ ∀ t ∈ SatipTables, ∀ r ∈ t,
        SatipToVdrParameter (PrintUrlString r.driverValue t) = r.driverValue) ∧
    (¬ ∀ t ∈ SatipTables, ∀ r ∈ t,
        SatipToVdrParameter (PrintUrlString r.driverValue t) = r.vdrValue) := by
  refine ⟨by decide, by decide, ?_, ?_⟩
  · intro h
    exact absurd (h SatipBandwidthValues (by decide) ⟨5000000, "&bw=5", 5⟩ (by decide))
      (by decide)
  · intro h
    exact absurd (h SatipCodeRateValues (by decide) ⟨FEC_NONE, "", 0⟩ (by decide)) (by decide)

/-- C4. A string that is not one of the SAT>IP strings of the table its prefix
selects (in particular a string that selects no table) is translated to 999. -/
theorem unknown_is_sentinel (s : String)
    (h : ∀ map, selectMap s = some map → ∀ r ∈ map, r.satipString ≠ s) :
    SatipToVdrParameter s = 999 := by
  unfold SatipToVdrParameter
  cases hm : selectMap s with
  | none => rfl
  | some map => exact scanVdrValue_absent s map (h map hm)

theorem unknown_is_sentinel_witness :
    selectMap "&plts=" = some SatipPilotValues ∧ SatipToVdrParameter "&plts=" = 999 :=
  ⟨by decide,
   unknown_is_sentinel "&plts=" (by
    intro map hm
    have hsel : selectMap "&plts=" = some SatipPilotValues := by decide
    rw [hsel] at hm
    cases hm
    decide)⟩

theorem applyDvbSRule_System (type : Char) (dtp : cDvbTransponderParameters) :
    (applyDvbSRule type dtp).System = dtp.System := by
  unfold applyDvbSRule
  split <;> rfl

theorem sat_stream (fmtScaled : Int → String) (ch : cChannel)
    (hType : ch.type = 'S') (hSys : ch.dtp.System = 0 ∨ ch.dtp.System = 1) :
    urlStream fmtScaled ch =
      (if max (Int.tmod ch.Rid 100) 0 ≠ 0 then "&fe=" ++ printInt (max (Int.tmod ch.Rid 100) 0)
        else "")
      ++ ("&src=" ++ printInt
            (if 0 < (ch.sourceDescription.getD 1) ∧ (ch.sourceDescription.getD 1) ≤ 255
              then ch.sourceDescription.getD 1 else 1))
      ++ (if 0 < ch.Frequency then "&freq=" ++ PrintFloat fmtScaled ch.Frequency else "")
      ++ ("&pol=" ++ String.singleton ch.dtp.Polarization.toLower)
      ++ PrintUrlString (applyDvbSRule 'S' ch.dtp).RollOff SatipRollOffValues
      ++ PrintUrlString ch.dtp.System SatipSystemValuesSat
      ++ PrintUrlString (applyDvbSRule 'S' ch.dtp).Modulation SatipModulationValues
      ++ PrintUrlString (applyDvbSRule 'S' ch.dtp).Pilot SatipPilotValues
      ++ ("&sr=" ++ printInt ch.Srate)
      ++ PrintUrlString ch.dtp.CoderateH SatipCodeRateValues := by
  have hPol : (applyDvbSRule 'S' ch.dtp).Polarization = ch.dtp.Polarization := by
    unfold applyDvbSRule; split <;> rfl
  have hFec : (applyDvbSRule 'S' ch.dtp).CoderateH = ch.dtp.CoderateH := by
    unfold applyDvbSRule; split <;> rfl
  simp only [urlStream, hType, applyDvbSRule_System, hPol, hFec]
  rcases hSys with h | h <;> rw [h]
  · have c2 : check "  S *" 'S' 0 = true := by decide
    have c3 : check " C  2" 'S' 0 = false := by decide
    have c4 : check "   T*" 'S' 0 = false := by decide
    have c5 : check " C  *" 'S' 0 = false := by decide
    have c6 : check "A   *" 'S' 0 = false := by decide
    have c7 : check " C  1" 'S' 0 = false := by decide
    have c8 : check " CST*" 'S' 0 = true := by decide
    have c9 : check " C T2" 'S' 0 = false := by decide
    have c10 : check "   T2" 'S' 0 = false := by decide
    simp only [c2, c3, c4, c5, c6, c7, c8, c9, c10, ↓reduceIte, String.append_empty,
      Bool.false_eq_true]
    cases ch.sourceDescription <;> simp
  · have c2 : check "  S *" 'S' 1 = true := by decide
    have c3 : check " C  2" 'S' 1 = false := by decide
    have c4 : check "   T*" 'S' 1 = false := by decide
    have c5 : check " C  *" 'S' 1 = false := by decide
    have c6 : check "A   *" 'S' 1 = false := by decide
    have c7 : check " C  1" 'S' 1 = false := by decide
    have c8 : check " CST*" 'S' 1 = true := by decide
    have c9 : check " C T2" 'S' 1 = false := by decide
    have c10 : check "   T2" 'S' 1 = false := by decide
    simp only [c2, c3, c4, c5, c6, c7, c8, c9, c10, ↓reduceIte, String.append_empty,
      Bool.false_eq_true]
    cases ch.sourceDescription <;> simp

theorem applyDvbSRule_dvbs (dtp : cDvbTransponderParameters) (h : dtp.System = 0) :
    applyDvbSRule 'S' dtp
      = { dtp with Pilot := PILOT_OFF, Modulation := QPSK, RollOff := ROLLOFF_35 } := by
  have c : check " S 1" 'S' 0 = true := by decide
  simp [applyDvbSRule, h, c]

theorem applyDvbSRule_dvbs2 (dtp : cDvbTransponderParameters) (h : dtp.System = 1) :
    applyDvbSRule 'S' dtp = dtp := by
  have c : check " S 1" 'S' 1 = false := by decide
  simp [applyDvbSRule, h, c]

theorem occurs_skip (n a b : List Char) (h : List.IsInfix n b) : List.IsInfix n (a ++ b) := by
  obtain ⟨s, t, rfl⟩ := h
  exact ⟨a ++ s, t, by simp⟩

theorem occurs_here (n m b : List Char) (h : List.IsInfix n m) : List.IsInfix n (m ++ b) := by
  obtain ⟨s, t, rfl⟩ := h
  exact ⟨s, t ++ b, by simp⟩

theorem one_le_length_of_amp (a b c d : String) :
    1 ≤ (a ++ ("&src=" ++ b) ++ c ++ d).data.length := by
  have h5 : ("&src=" : String).data.length = 5 := by decide
  rw [String.data_append, String.data_append, String.data_append, String.data_append]
  rw [List.length_append, List.length_append, List.length_append, List.length_append, h5]
  omega

/-- C2. For a satellite channel (source type `S`): when the delivery system is
DVB-S (System 0) the query string contains `plts=off`, `mtype=qpsk` and
`ro=0.35` whatever pilot, modulation and roll-off the descriptor carries; when
it is DVB-S2 (System 1) the query string is built from the descriptor's own
roll-off, modulation and pilot values. -/
theorem dvbs_rule (fmtScaled : Int → String) (ch : cChannel) (hType : ch.type = 'S') :
    (ch.dtp.System = 0 →
      occursIn "plts=off" (GetTransponderUrlParameters fmtScaled (some ch)) ∧
      occursIn "mtype=qpsk" (GetTransponderUrlParameters fmtScaled (some ch)) ∧
      occursIn "ro=0.35" (GetTransponderUrlParameters fmtScaled (some ch))) ∧
    (ch.dtp.System = 1 →
      GetTransponderUrlParameters fmtScaled (some ch) =
        String.mk (List.drop 1
          ((if max (Int.tmod ch.Rid 100) 0 ≠ 0
              then "&fe=" ++ printInt (max (Int.tmod ch.Rid 100) 0) else "")
          ++ ("&src=" ++ printInt
                (if 0 < (ch.sourceDescription.getD 1) ∧ (ch.sourceDescription.getD 1) ≤ 255
                  then ch.sourceDescription.getD 1 else 1))
          ++ (if 0 < ch.Frequency then "&freq=" ++ PrintFloat fmtScaled ch.Frequency else "")
          ++ ("&pol=" ++ String.singleton ch.dtp.Polarization.toLower)
          ++ PrintUrlString ch.dtp.RollOff SatipRollOffValues
          ++ "&msys=dvbs2"
          ++ PrintUrlString ch.dtp.Modulation SatipModulationValues
          ++ PrintUrlString ch.dtp.Pilot SatipPilotValues
          ++ ("&sr=" ++ printInt ch.Srate)
          ++ PrintUrlString ch.dtp.CoderateH SatipCodeRateValues).toList)) := by
  constructor
  · intro hSys
    have hro : PrintUrlString ROLLOFF_35 SatipRollOffValues = "&ro=0.35" := by decide
    have hmod : PrintUrlString QPSK SatipModulationValues = "&mtype=qpsk" := by decide
    have hpl : PrintUrlString PILOT_OFF SatipPilotValues = "&plts=off" := by decide
    have hsys : PrintUrlString 0 SatipSystemValuesSat = "&msys=dvbs" := by decide
    simp only [GetTransponderUrlParameters, occursIn, String.toList,
      sat_stream fmtScaled ch hType (Or.inl hSys), applyDvbSRule_dvbs ch.dtp hSys, hSys,
      hro, hmod, hpl, hsys]
    generalize hA : ((if max (Int.tmod ch.Rid 100) 0 ≠ 0
              then "&fe=" ++ printInt (max (Int.tmod ch.Rid 100) 0) else "")
          ++ ("&src=" ++ printInt
                (if 0 < (ch.sourceDescription.getD 1) ∧ (ch.sourceDescription.getD 1) ≤ 255
                  then ch.sourceDescription.getD 1 else 1))
          ++ (if 0 < ch.Frequency then "&freq=" ++ PrintFloat fmtScaled ch.Frequency else "")
          ++ ("&pol=" ++ String.singleton ch.dtp.Polarization.toLower)) = A
    have hlen : 1 ≤ A.data.length := by
      rw [← hA]
      exact one_le_length_of_amp _ _ _ _
    simp only [String.data_append, List.append_assoc]
    rw [List.drop_append_of_le_length hlen]
    refine ⟨?_, ?_, ?_⟩
    · exact occurs_skip _ _ _ (occurs_skip _ _ _ (occurs_skip _ _ _ (occurs_skip _ _ _
        (occurs_here _ _ _ ⟨['&'], [], rfl⟩))))
    · exact occurs_skip _ _ _ (occurs_skip _ _ _ (occurs_skip _ _ _
        (occurs_here _ _ _ ⟨['&'], [], rfl⟩)))
    · exact occurs_skip _ _ _ (occurs_here _ _ _ ⟨['&'], [], rfl⟩)
  · intro hSys
    simp only [GetTransponderUrlParameters, sat_stream fmtScaled ch hType (Or.inr hSys),
      applyDvbSRule_dvbs2 ch.dtp hSys, hSys]
    have hsys : PrintUrlString 1 SatipSystemValuesSat = "&msys=dvbs2" := by decide
    rw [hsys]

theorem dvbs_rule_witness :
    occursIn "plts=off" (GetTransponderUrlParameters (fun _ => "") (some channelDvbS)) ∧
    occursIn "mtype=qpsk" (GetTransponderUrlParameters (fun _ => "") (some channelDvbS)) ∧
    occursIn "ro=0.35" (GetTransponderUrlParameters (fun _ => "") (some channelDvbS)) :=
  (dvbs_rule (fun _ => "") channelDvbS rfl).1 rfl

/-- C3. Scenario S1: for a satellite channel with source number 1, no frontend
id, frequency 11494, polarization H, symbol rate 22000, DVB-S2, FEC 2/3, 8PSK,
roll-off 0.35 and pilot off, the query string is exactly
`src=1&freq=11494.000&pol=h&ro=0.35&msys=dvbs2&mtype=8psk&plts=off&sr=22000&fec=23`. -/
theorem scenario_S1 (fmtScaled : Int → String) (ch : cChannel)
    (hType : ch.type = 'S') (hSrc : ch.sourceDescription = some 1)
    (hRid : Int.tmod ch.Rid 100 = 0) (hFreq : ch.Frequency = 11494)
    (hPol : ch.dtp.Polarization = 'H') (hSr : ch.Srate = 22000)
    (hSys : ch.dtp.System = 1) (hFec : ch.dtp.CoderateH = FEC_2_3)
    (hMod : ch.dtp.Modulation = PSK_8) (hRo : ch.dtp.RollOff = ROLLOFF_35)
    (hPlt : ch.dtp.Pilot = PILOT_OFF) :
    GetTransponderUrlParameters fmtScaled (some ch)
      = "src=1&freq=11494.000&pol=h&ro=0.35&msys=dvbs2&mtype=8psk&plts=off&sr=22000&fec=23" := by
  have hpf : PrintFloat fmtScaled 11494 = "11494.000" := by
    unfold PrintFloat
    rw [if_pos (by decide)]
    decide
  simp only [GetTransponderUrlParameters, sat_stream fmtScaled ch hType (Or.inr hSys),
    applyDvbSRule_dvbs2 ch.dtp hSys, hSrc, hRid, hFreq, hPol, hSr, hSys, hFec, hMod, hRo, hPlt,
    hpf]
  decide

theorem scenario_S1_witness :
    GetTransponderUrlParameters (fun _ => "") (some channelS1)
      = "src=1&freq=11494.000&pol=h&ro=0.35&msys=dvbs2&mtype=8psk&plts=off&sr=22000&fec=23" :=
  scenario_S1 (fun _ => "") channelS1 rfl rfl (by decide) rfl rfl rfl rfl rfl rfl rfl rfl

/-! ## Theorems: frontend pools -/

theorem assignTarget_spec (pool : cSatipFrontends) (d : Int) :
    ∀ k, cSatipFrontends.assignTarget pool d = some k →
      ∃ f, pool[k]? = some f ∧ (f.Attached = false ∨ f.deviceIdM = d) := by
  induction pool with
  | nil => intro k h; simp [cSatipFrontends.assignTarget] at h
  | cons a rest ih =>
    intro k h
    by_cases ha : (!a.Attached || a.deviceIdM == d) = true
    · simp only [cSatipFrontends.assignTarget, ha, if_true, Option.some.injEq] at h
      subst h
      refine ⟨a, by simp, ?_⟩
      simpa using ha
    · simp only [cSatipFrontends.assignTarget, ha, Bool.false_eq_true, if_false,
        Option.map_eq_some'] at h
      obtain ⟨j, hj, rfl⟩ := h
      obtain ⟨f, hf, hp⟩ := ih j hj
      exact ⟨f, by simpa using hf, hp⟩

theorem assignTarget_none_iff (pool : cSatipFrontends) (d : Int) :
    cSatipFrontends.assignTarget pool d = none
      ↔ ∀ f ∈ pool, f.Attached = true ∧ f.deviceIdM ≠ d := by
  induction pool with
  | nil => simp [cSatipFrontends.assignTarget]
  | cons a rest ih =>
    by_cases ha : (!a.Attached || a.deviceIdM == d) = true
    · simp only [cSatipFrontends.assignTarget, ha, if_true, List.mem_cons, forall_eq_or_imp]
      constructor
      · intro h; cases h
      · rintro ⟨⟨h1, h2⟩, _⟩
        simp [h1, h2] at ha
    · simp only [cSatipFrontends.assignTarget, ha, Bool.false_eq_true, if_false,
        Option.map_eq_none', ih, List.mem_cons, forall_eq_or_imp]
      constructor
      · intro h
        refine ⟨?_, h⟩
        simpa using ha
      · intro h
        exact h.2

theorem assignTarget_modify (pool : cSatipFrontends) (d t : Int) :
    ∀ k, cSatipFrontends.assignTarget
        (pool.modify (fun tmp => tmp.SetTransponder t) k) d
      = cSatipFrontends.assignTarget pool d := by
  induction pool with
  | nil => intro k; cases k <;> rfl
  | cons a rest ih =>
    intro k
    cases k with
    | zero =>
      simp [cSatipFrontends.assignTarget, cSatipFrontend.SetTransponder,
        cSatipFrontend.Attached]
    | succ j =>
      rw [List.modify_succ_cons]
      simp only [cSatipFrontends.assignTarget, ih j]

/-- C5 (amended). In every frontend pool: assigning the same (deviceId,
transponder) twice selects the same frontend; the frontend selected for a
device is unattached or attached to that device, so it is never a frontend
attached to a different device; and the assignment fails exactly when every
frontend of the pool is attached to a different device. -/
theorem frontend_assign_selection (pool : cSatipFrontends) (d t : Int) :
    cSatipFrontends.assignTarget (cSatipFrontends.Assign pool d t).2 d
      = cSatipFrontends.assignTarget pool d ∧
    (∀ k, cSatipFrontends.assignTarget pool d = some k →
      ∃ f, pool[k]? = some f ∧ (f.Attached = false ∨ f.deviceIdM = d)) ∧
    (∀ j f, pool[j]? = some f → f.Attached = true → f.deviceIdM ≠ d →
      cSatipFrontends.assignTarget pool d ≠ some j) ∧
    ((cSatipFrontends.Assign pool d t).1 = false
      ↔ ∀ f ∈ pool, f.Attached = true ∧ f.deviceIdM ≠ d) := by
  refine ⟨?_, assignTarget_spec pool d, ?_, ?_⟩
  · unfold cSatipFrontends.Assign
    cases h : cSatipFrontends.assignTarget pool d with
    | none => simp [h]
    | some k => simp [assignTarget_modify, h]
  · intro j f hf hatt hdev hsel
    obtain ⟨g, hg, hp⟩ := assignTarget_spec pool d j hsel
    rw [hf] at hg
    cases hg
    rcases hp with hp | hp
    · rw [hatt] at hp
      cases hp
    · exact hdev hp
  · rw [← assignTarget_none_iff]
    unfold cSatipFrontends.Assign
    cases h : cSatipFrontends.assignTarget pool d with
    | none => simp
    | some k => simp

theorem frontend_assign_selection_witness :
    cSatipFrontends.assignTarget
        [(⟨1, 100, 0, "DVB-S2"⟩ : cSatipFrontend), ⟨2, 0, -1, "DVB-S2"⟩] 1 ≠ some 0 :=
  (frontend_assign_selection [⟨1, 100, 0, "DVB-S2"⟩, ⟨2, 0, -1, "DVB-S2"⟩] 1 100).2.2.1
    0 ⟨1, 100, 0, "DVB-S2"⟩ rfl (by decide) (by decide)

/-- C5 (as stated) fails: devices 0 and 1 hold the two frontends of a `DVBS2-2`
server on transponders 100 and 200, so no frontend is free; device 1 then asks
for transponder 100, the one of device 0, and the assignment does not fail: it
is given its own frontend 2 again. -/
theorem assign_succeeds_when_none_free :
    (cSatipFrontends.Attach (cSatipFrontends.Assign
        (cSatipFrontends.Attach (cSatipFrontends.Assign poolDVBS2x2 0 100).2 0 100).2
        1 200).2 1 200).2
      = [⟨1, 100, 0, "DVB-S2"⟩, ⟨2, 200, 1, "DVB-S2"⟩] ∧
    (∀ f ∈ [(⟨1, 100, 0, "DVB-S2"⟩ : cSatipFrontend), ⟨2, 200, 1, "DVB-S2"⟩],
        f.Attached = true) ∧
    cSatipFrontends.Assign [⟨1, 100, 0, "DVB-S2"⟩, ⟨2, 200, 1, "DVB-S2"⟩] 1 100
      = (true, [⟨1, 100, 0, "DVB-S2"⟩, ⟨2, 100, 1, "DVB-S2"⟩]) := by
  decide

/-- What `Attach` does after such a selection.  On the two free satellite
frontends of a `DVBS2-2` server, device 0 is assigned and attached to
transponder 100 and gets frontend 1; device 1 then asks for the same
transponder: `Assign` picks the free frontend 2 and stores the transponder in
it, and `Attach` attaches the first frontend whose transponder is 100, which is
frontend 1. -/
theorem attach_takes_first_transponder_match :
    (cSatipFrontends.Attach (cSatipFrontends.Assign poolDVBS2x2 0 100).2 0 100).2
      = [⟨1, 100, 0, "DVB-S2"⟩, ⟨2, 0, -1, "DVB-S2"⟩] ∧
    cSatipFrontends.Assign [⟨1, 100, 0, "DVB-S2"⟩, ⟨2, 0, -1, "DVB-S2"⟩] 1 100
      = (true, [⟨1, 100, 0, "DVB-S2"⟩, ⟨2, 100, -1, "DVB-S2"⟩]) ∧
    cSatipFrontends.Attach [⟨1, 100, 0, "DVB-S2"⟩, ⟨2, 100, -1, "DVB-S2"⟩] 1 100
      = (true, [⟨1, 100, 1, "DVB-S2"⟩, ⟨2, 100, -1, "DVB-S2"⟩]) := by
  decide

/-- C6 (the code at the failing input). Device 3 holds frontend 1 of a `DVBS2-2`
server and frontend 2 is unattached; `Assign` for device 3 and a new
transponder takes frontend 1, the one the device already holds, not the unused
frontend 2. -/
theorem assign_takes_own_before_unused :
    (cSatipFrontends.Attach (cSatipFrontends.Assign poolDVBS2x2 3 100).2 3 100).2
      = [⟨1, 100, 3, "DVB-S2"⟩, ⟨2, 0, -1, "DVB-S2"⟩] ∧
    cSatipFrontend.Attached ⟨2, 0, -1, "DVB-S2"⟩ = false ∧
    cSatipFrontends.assignTarget [⟨1, 100, 3, "DVB-S2"⟩, ⟨2, 0, -1, "DVB-S2"⟩] 3 = some 0 ∧
    cSatipFrontends.Assign [⟨1, 100, 3, "DVB-S2"⟩, ⟨2, 0, -1, "DVB-S2"⟩] 3 200
      = (true, [⟨1, 200, 3, "DVB-S2"⟩, ⟨2, 0, -1, "DVB-S2"⟩]) := by
  decide

/-! ## Theorems: registry assignment -/

theorem firstIdx_of_isFirstAt {α : Type} (p : α → Bool) :
    ∀ (l : List α) (i : Nat), IsFirstAt p l i → firstIdx p l = some i := by
  intro l
  induction l with
  | nil =>
    intro i h
    obtain ⟨⟨s, hs, _⟩, _⟩ := h
    simp at hs
  | cons a rest ih =>
    intro i h
    obtain ⟨⟨s, hs, hp⟩, hmin⟩ := h
    cases i with
    | zero =>
      simp at hs
      subst hs
      simp [firstIdx, hp]
    | succ j =>
      have ha : p a = false := hmin 0 (Nat.succ_pos j) a (by simp)
      have hrest : IsFirstAt p rest j := by
        refine ⟨⟨s, by simpa using hs, hp⟩, ?_⟩
        intro k hk s' hs'
        exact hmin (k + 1) (Nat.succ_lt_succ hk) s' (by simpa using hs')
      simp [firstIdx, ha, ih j hrest]

theorem firstIdx_none_of_all_false {α : Type} (p : α → Bool) :
    ∀ (l : List α), (∀ s ∈ l, p s = false) → firstIdx p l = none := by
  intro l
  induction l with
  | nil => intro _; rfl
  | cons a rest ih =>
    intro h
    have ha : p a = false := h a (List.mem_cons_self _ _)
    have hr := ih (fun s hs => h s (List.mem_cons_of_mem _ hs))
    simp [firstIdx, ha, hr]

theorem firstIdx_some_spec {α : Type} (p : α → Bool) :
    ∀ (l : List α) (i : Nat), firstIdx p l = some i → ∃ s, l[i]? = some s ∧ p s = true := by
  intro l
  induction l with
  | nil => intro i h; simp [firstIdx] at h
  | cons a rest ih =>
    intro i h
    by_cases ha : p a = true
    · simp [firstIdx, ha] at h
      subst h
      exact ⟨a, by simp, ha⟩
    · have ha' : p a = false := by simpa using ha
      simp [firstIdx, ha'] at h
      obtain ⟨j, hj, rfl⟩ := h
      obtain ⟨s, hs, hp⟩ := ih j hj
      exact ⟨s, by simpa using hs, hp⟩

theorem findMatching_eq_firstIdx (servers : cSatipServers) (d src t sys : Int) :
    cSatipServers.findMatching servers d src t sys
      = firstIdx (fun s => s.IsActive && s.Matches d src sys t) servers := by
  induction servers with
  | nil => rfl
  | cons s rest ih => simp [cSatipServers.findMatching, firstIdx, ih]

theorem assignFirst_fst_eq_firstIdx (servers : cSatipServers) (d src t sys : Int) :
    (cSatipServers.assignFirst servers d src t sys).1
      = firstIdx (fun s => s.IsActive && (s.Assign d src sys t).1) servers := by
  induction servers with
  | nil => rfl
  | cons s rest ih =>
    by_cases ha : s.IsActive = true
    · by_cases hr : (s.Assign d src sys t).1 = true
      · simp [cSatipServers.assignFirst, firstIdx, ha, hr]
      · have hr' : (s.Assign d src sys t).1 = false := by simpa using hr
        simp [cSatipServers.assignFirst, firstIdx, ha, hr', ih]
    · have ha' : s.IsActive = false := by simpa using ha
      simp [cSatipServers.assignFirst, firstIdx, ha', ih]

/-- C7. `cSatipServers::Assign` returns the first active server, in insertion
order, that already matches (deviceId, source, system, transponder), leaving the
registry as it is; when no active server matches it returns the first active
server on which `cSatipServer::Assign` succeeds; when there is none either it
returns `NULL`; the server it returns is always active. -/
theorem registry_assign_order (servers : cSatipServers) (d src t sys : Int) :
    (∀ i, IsFirstAt (fun s => s.IsActive && s.Matches d src sys t) servers i →
        cSatipServers.Assign servers d src t sys = (some i, servers)) ∧
    ((∀ s ∈ servers, (s.IsActive && s.Matches d src sys t) = false) →
        ∀ i, IsFirstAt (fun s => s.IsActive && (s.Assign d src sys t).1) servers i →
          (cSatipServers.Assign servers d src t sys).1 = some i) ∧
    ((∀ s ∈ servers, (s.IsActive && s.Matches d src sys t) = false) →
        (∀ s ∈ servers, (s.IsActive && (s.Assign d src sys t).1) = false) →
          (cSatipServers.Assign servers d src t sys).1 = none) ∧
    (∀ i, (cSatipServers.Assign servers d src t sys).1 = some i →
        ∃ s, servers[i]? = some s ∧ s.IsActive = true) := by
  refine ⟨?_, ?_, ?_, ?_⟩
  · intro i h
    have := firstIdx_of_isFirstAt _ servers i h
    simp [cSatipServers.Assign, findMatching_eq_firstIdx, this]
  · intro hno i h
    have h1 := firstIdx_none_of_all_false _ servers hno
    have h2 := firstIdx_of_isFirstAt _ servers i h
    simp [cSatipServers.Assign, findMatching_eq_firstIdx, h1, assignFirst_fst_eq_firstIdx, h2]
  · intro hno hno2
    have h1 := firstIdx_none_of_all_false _ servers hno
    have h2 := firstIdx_none_of_all_false _ servers hno2
    simp [cSatipServers.Assign, findMatching_eq_firstIdx, h1, assignFirst_fst_eq_firstIdx, h2]
  · intro i h
    unfold cSatipServers.Assign at h
    rw [findMatching_eq_firstIdx] at h
    cases hm : firstIdx (fun s => s.IsActive && s.Matches d src sys t) servers with
    | some j =>
      rw [hm] at h
      simp at h
      subst h
      obtain ⟨s, hs, hp⟩ := firstIdx_some_spec _ servers j hm
      simp at hp
      exact ⟨s, hs, hp.1⟩
    | none =>
      rw [hm] at h
      simp only at h
      rw [assignFirst_fst_eq_firstIdx] at h
      obtain ⟨s, hs, hp⟩ := firstIdx_some_spec _ servers i h
      simp at hp
      exact ⟨s, hs, hp.1⟩

theorem registry_assign_order_witness :
    (cSatipServers.Assign exampleRegistryTwo 0 sourceSat 100 1).1 = some 1 := by
  refine (registry_assign_order exampleRegistryTwo 0 sourceSat 100 1).2.1 ?_ 1 ?_
  · intro s hs
    simp only [exampleRegistryTwo, List.mem_cons, List.mem_singleton, List.not_mem_nil,
      or_false] at hs
    rcases hs with rfl | rfl
    · rfl
    · decide
  · refine ⟨⟨exampleServer, rfl, by decide⟩, ?_⟩
    intro k hk s hs
    have hk0 : k = 0 := by omega
    subst hk0
    simp only [exampleRegistryTwo, List.getElem?_cons_zero, Option.some.injEq] at hs
    subst hs
    rfl

/-! ## Theorems: frontend indices -/

theorem firstIdx_isFirstAt {α : Type} (p : α → Bool) :
    ∀ (l : List α) (i : Nat), firstIdx p l = some i → IsFirstAt p l i := by
  intro l
  induction l with
  | nil => intro i h; simp [firstIdx] at h
  | cons a rest ih =>
    intro i h
    by_cases ha : p a = true
    · simp [firstIdx, ha] at h
      subst h
      exact ⟨⟨a, by simp, ha⟩, fun k hk => absurd hk (Nat.not_lt_zero k)⟩
    · have ha' : p a = false := by simpa using ha
      simp [firstIdx, ha'] at h
      obtain ⟨j, hj, rfl⟩ := h
      obtain ⟨⟨s, hs, hp⟩, hmin⟩ := ih j hj
      refine ⟨⟨s, by simpa using hs, hp⟩, ?_⟩
      intro k hk s' hs'
      cases k with
      | zero =>
        simp at hs'
        subst hs'
        exact ha'
      | succ k' =>
        exact hmin k' (Nat.lt_of_succ_lt_succ hk) s' (by simpa using hs')

theorem firstIdx_none_all_false {α : Type} (p : α → Bool) :
    ∀ (l : List α), firstIdx p l = none → ∀ s ∈ l, p s = false := by
  intro l
  induction l with
  | nil => intro _ s hs; simp at hs
  | cons a rest ih =>
    intro h s hs
    by_cases ha : p a = true
    · simp [firstIdx, ha] at h
    · have ha' : p a = false := by simpa using ha
      simp [firstIdx, ha'] at h
      rcases List.mem_cons.mp hs with rfl | hr
      · exact ha'
      · exact ih h s hr

theorem strcasecmp_of_lower_eq :
    ∀ (a b : List Char), a.map Char.toLower = b.map Char.toLower → strcasecmp a b = 0 := by
  intro a
  induction a with
  | nil =>
    intro b h
    cases b with
    | nil => rfl
    | cons y ys => simp at h
  | cons x xs ih =>
    intro b h
    cases b with
    | nil => simp at h
    | cons y ys =>
      simp only [List.map_cons, List.cons.injEq] at h
      simp [strcasecmp, h.1, ih ys h.2]

theorem update_fst_eq_firstIdx (servers : cSatipServers) (tmp : cSatipServer) (now : Nat) :
    (cSatipServers.Update servers tmp now).1
      = firstIdx (fun s => decide (s.Compare tmp = 0)) servers := by
  induction servers with
  | nil => rfl
  | cons s rest ih =>
    by_cases h : s.Compare tmp = 0
    · simp [cSatipServers.Update, firstIdx, h]
    · simp [cSatipServers.Update, firstIdx, h, ih]

theorem update_snd_eq_modify (servers : cSatipServers) (tmp : cSatipServer) (now : Nat) :
    (cSatipServers.Update servers tmp now).2
      = match firstIdx (fun s => decide (s.Compare tmp = 0)) servers with
        | some i => servers.modify (fun s => s.Update now) i
        | none => servers := by
  induction servers with
  | nil => rfl
  | cons s rest ih =>
    by_cases h : s.Compare tmp = 0
    · simp [cSatipServers.Update, firstIdx, h]
    · simp only [cSatipServers.Update, firstIdx, h, if_false, decide_False, Bool.false_eq_true]
      rw [ih]
      cases firstIdx (fun s => decide (s.Compare tmp = 0)) rest with
      | none => simp
      | some j => simp

theorem addSingleModels_eq_foldl (env : ServerEnv) (now : Nat) (srcAddrP addrP : Option String)
    (portP : Int) (filtersP descP : Option String) (quirkP : Nat) :
    ∀ (tokens : List (List Char)) (n : Nat) (servers : cSatipServers),
      addSingleModels env now srcAddrP addrP portP filtersP descP quirkP tokens n servers
        = (tokens.enumFrom n).foldl
            (fun acc p =>
              addOrRefresh acc
                (cSatipServer.new env now srcAddrP addrP portP (some (String.mk (skipspace p.2)))
                  filtersP
                  (some ((match descP with
                          | some d => if !isempty descP then d else "MyBrokenHardware"
                          | none => "MyBrokenHardware") ++ " #" ++ Nat.repr p.1))
                  quirkP) now)
            servers := by
  intro tokens
  induction tokens with
  | nil => intro n servers; rfl
  | cons r rest ih =>
    intro n servers
    simp only [addSingleModels, List.enumFrom_cons, List.foldl_cons]
    exact ih (n + 1) _

/-- C9 (amended). With single-model splitting off, or with a model that is
null or empty, `AddServer` runs the update-or-add step once, on the server it
constructs from its arguments; with single-model splitting on it runs the step
once for every comma-separated token of the model, in order, on a server whose
model is the token and whose description is the given description followed by
` #n`, where n counts the tokens from 0.  The step: when an entry of the
registry has the same (address, model, description) ignoring letter case, the
count is unchanged and the first entry that `Compare` finds equal gets the
current time as its last-seen time; when `Compare` finds no entry equal, the
new server is appended and the count grows by one. -/
theorem registry_dedup (env : ServerEnv) (now : Nat) (srcAddrP addrP : Option String)
    (portP : Int) (filtersP descP : Option String) (quirkP : Nat) :
    (∀ (servers : cSatipServers) (modelP : Option String),
      AddServer env false now servers srcAddrP addrP portP modelP filtersP descP quirkP
        = addOrRefresh servers
            (cSatipServer.new env now srcAddrP addrP portP modelP filtersP descP quirkP) now) ∧
    (∀ (servers : cSatipServers) (modelP : Option String), isempty modelP = true →
      AddServer env true now servers srcAddrP addrP portP modelP filtersP descP quirkP
        = addOrRefresh servers
            (cSatipServer.new env now srcAddrP addrP portP modelP filtersP descP quirkP) now) ∧
    (∀ (servers : cSatipServers) (m : String), isempty (some m) = false →
      AddServer env true now servers srcAddrP addrP portP (some m) filtersP descP quirkP
        = ((strtok "," m).enumFrom 0).foldl
            (fun acc p =>
              addOrRefresh acc
                (cSatipServer.new env now srcAddrP addrP portP (some (String.mk (skipspace p.2)))
                  filtersP
                  (some ((match descP with
                          | some d => if !isempty descP then d else "MyBrokenHardware"
                          | none => "MyBrokenHardware") ++ " #" ++ Nat.repr p.1))
                  quirkP) now)
            servers) ∧
    (∀ (servers : cSatipServers) (tmp : cSatipServer),
      (∃ s ∈ servers,
        s.addressM.toList.map Char.toLower = tmp.addressM.toList.map Char.toLower ∧
        s.modelM.toList.map Char.toLower = tmp.modelM.toList.map Char.toLower ∧
        s.descriptionM.toList.map Char.toLower = tmp.descriptionM.toList.map Char.toLower) →
      (addOrRefresh servers tmp now).length = servers.length ∧
      ∃ i, IsFirstAt (fun s => decide (s.Compare tmp = 0)) servers i ∧
        addOrRefresh servers tmp now = servers.modify (fun s => s.Update now) i ∧
        ∃ s', (addOrRefresh servers tmp now)[i]? = some s' ∧ s'.lastSeenM = now) ∧
    (∀ (servers : cSatipServers) (tmp : cSatipServer),
      (∀ s ∈ servers, s.Compare tmp ≠ 0) →
      addOrRefresh servers tmp now = servers ++ [tmp] ∧
      (addOrRefresh servers tmp now).length = servers.length + 1) := by
  refine ⟨?_, ?_, ?_, ?_, ?_⟩
  · intro servers modelP
    cases modelP <;> simp [AddServer]
  · intro servers modelP hm
    cases modelP with
    | none => rfl
    | some m => simp [AddServer, hm]
  · intro servers m hm
    simp only [AddServer, hm, Bool.not_false, Bool.and_self, if_true]
    exact addSingleModels_eq_foldl env now srcAddrP addrP portP filtersP descP quirkP _ 0 servers
  · rintro servers tmp ⟨s, hs, ha, hm, hd⟩
    have h1 : strcasecmp s.addressM.toList tmp.addressM.toList = 0 :=
      strcasecmp_of_lower_eq _ _ ha
    have h2 : strcasecmp s.modelM.toList tmp.modelM.toList = 0 :=
      strcasecmp_of_lower_eq _ _ hm
    have h3 : strcasecmp s.descriptionM.toList tmp.descriptionM.toList = 0 :=
      strcasecmp_of_lower_eq _ _ hd
    have hcmp : s.Compare tmp = 0 := by
      simp only [cSatipServer.Compare, h1, h2, h3, if_true]
    cases hf : firstIdx (fun s => decide (s.Compare tmp = 0)) servers with
    | none =>
      exfalso
      have := firstIdx_none_all_false _ servers hf s hs
      simp [hcmp] at this
    | some i =>
      have hfirst := firstIdx_isFirstAt _ servers i hf
      have hres : addOrRefresh servers tmp now = servers.modify (fun s => s.Update now) i := by
        simp [addOrRefresh, update_fst_eq_firstIdx, update_snd_eq_modify, hf]
      refine ⟨by rw [hres]; simp, i, hfirst, hres, ?_⟩
      obtain ⟨⟨s0, hs0, _⟩, _⟩ := hfirst
      refine ⟨s0.Update now, ?_, rfl⟩
      rw [hres, List.getElem?_modify_eq, hs0]
      rfl
  · intro servers tmp hall
    have hnone : firstIdx (fun s => decide (s.Compare tmp = 0)) servers = none :=
      firstIdx_none_of_all_false _ servers (fun s hs => by simpa using hall s hs)
    have hres : addOrRefresh servers tmp now = servers ++ [tmp] := by
      simp [addOrRefresh, update_fst_eq_firstIdx, update_snd_eq_modify, hnone]
    exact ⟨hres, by rw [hres]; simp⟩

theorem registry_dedup_witness :
    (addOrRefresh [exampleServer]
        (cSatipServer.new exampleEnv 1000 none (some "10.0.0.2") 554 (some "DVBS2-2") none
          (some "minisatip") 0) 1000).length = [exampleServer].length :=
  ((registry_dedup exampleEnv 1000 none (some "10.0.0.2") 554 none (some "minisatip") 0).2.2.2.1
    [exampleServer] _
    ⟨exampleServer, List.mem_cons_self _ _, by decide, by decide, by decide⟩).1

/-- C9 (as stated) fails: a server whose model is spelled `dvbs2-2` has a triple
that no entry of the registry has, yet adding it leaves the count at 1; and
with single-model splitting on, one call with a two-token model adds two
servers. -/
theorem dedup_counts :
    exampleRegistry.length = 1 ∧
    (∀ s ∈ exampleRegistry,
        (s.addressM, s.modelM, s.descriptionM)
          ≠ ((cSatipServer.new exampleEnv 1000 none (some "10.0.0.2") 554 (some "dvbs2-2") none
                (some "minisatip") 0).addressM,
             (cSatipServer.new exampleEnv 1000 none (some "10.0.0.2") 554 (some "dvbs2-2") none
                (some "minisatip") 0).modelM,
             (cSatipServer.new exampleEnv 1000 none (some "10.0.0.2") 554 (some "dvbs2-2") none
                (some "minisatip") 0).descriptionM)) ∧
    (AddServer exampleEnv false 1000 exampleRegistry none (some "10.0.0.2") 554 (some "dvbs2-2")
        none (some "minisatip") 0).length = 1 ∧
    (AddServer exampleEnv true 0 [] none (some "10.0.0.2") 554 (some "DVBS2-2,DVBT-1")
        none (some "minisatip") 0).length = 2 := by
  decide

theorem cleanup_sublist (staleNext : Bool) (now intervalMsP : Nat) (servers : cSatipServers) :
    List.Sublist (cSatipServers.Cleanup staleNext now intervalMsP servers) servers := by
  induction servers with
  | nil => exact List.Sublist.slnil
  | cons s rest ih =>
    unfold cSatipServers.Cleanup
    split
    · split
      · exact List.Sublist.cons _ ih
      · exact List.sublist_cons_self _ _
    · exact List.Sublist.cons₂ _ ih

theorem cleanup_keeps_fresh (staleNext : Bool) (now intervalMsP : Nat) (h : intervalMsP ≠ 0)
    (servers : cSatipServers) :
    (cSatipServers.Cleanup staleNext now intervalMsP servers).filter
        (fun s => decide (s.LastSeen now ≤ intervalMsP))
      = servers.filter (fun s => decide (s.LastSeen now ≤ intervalMsP)) := by
  induction servers with
  | nil => rfl
  | cons s rest ih =>
    unfold cSatipServers.Cleanup
    by_cases hs : s.LastSeen now > intervalMsP
    · have hle : ¬ s.LastSeen now ≤ intervalMsP := Nat.not_le.mpr hs
      simp only [hs, or_true, if_true]
      cases staleNext
      · simp [List.filter_cons, hle]
      · simp [List.filter_cons, hle, ih]
    · have hle : s.LastSeen now ≤ intervalMsP := Nat.le_of_not_gt hs
      simp [h, hs, List.filter_cons, hle, ih]

theorem cleanup_ideal (now intervalMsP : Nat) (servers : cSatipServers) :
    cSatipServers.Cleanup true now intervalMsP servers
      = if intervalMsP = 0 then []
        else servers.filter (fun s => decide (s.LastSeen now ≤ intervalMsP)) := by
  induction servers with
  | nil => simp [cSatipServers.Cleanup]
  | cons s rest ih =>
    unfold cSatipServers.Cleanup
    by_cases h0 : intervalMsP = 0
    · simp [h0] at ih ⊢
      exact ih
    · by_cases hs : s.LastSeen now > intervalMsP
      · have hle : ¬ s.LastSeen now ≤ intervalMsP := Nat.not_le.mpr hs
        simp [h0, hs, List.filter_cons, hle] at ih ⊢
        exact ih
      · have hle : s.LastSeen now ≤ intervalMsP := Nat.le_of_not_gt hs
        simp [h0, hs, List.filter_cons, hle] at ih ⊢
        exact ih

theorem cleanup_first_expired (staleNext : Bool) (now intervalMsP : Nat) :
    ∀ (pre : cSatipServers) (s : cSatipServer) (post : cSatipServers),
      (∀ x ∈ pre, intervalMsP ≠ 0 ∧ x.LastSeen now ≤ intervalMsP) →
      (intervalMsP = 0 ∨ s.LastSeen now > intervalMsP) →
      cSatipServers.Cleanup staleNext now intervalMsP (pre ++ s :: post)
        = pre ++ (if staleNext then cSatipServers.Cleanup staleNext now intervalMsP post
                  else post) := by
  intro pre
  induction pre with
  | nil =>
    intro s post _ hs
    simp [cSatipServers.Cleanup, hs]
  | cons a rest ih =>
    intro s post hpre hs
    have ha := hpre a (List.mem_cons_self _ _)
    have hcond : ¬ (intervalMsP = 0 ∨ a.LastSeen now > intervalMsP) := by
      rintro (h | h)
      · exact ha.1 h
      · exact Nat.not_le.mpr h ha.2
    have hrest := ih s post (fun x hx => hpre x (List.mem_cons_of_mem _ hx)) hs
    simp only [List.cons_append]
    rw [cSatipServers.Cleanup]
    simp only [hcond, if_false, hrest]

/-- C10. The loop of `Cleanup` calls `Del(s)` and then takes `Next(s)` of the
entry it has just unlinked and freed; unlinking has stored a null pointer
there, so the loop ends after the first removal.  With a non-zero interval
`Cleanup` therefore removes the first server in list order whose last-seen age
exceeds the interval and keeps every other server, also the later ones whose
age exceeds the interval: of two servers last seen 200 s ago the second one
stays in the registry at the interval of 120 s.  A loop that went on to the
former successor would remove exactly the servers older than the interval. -/
theorem cleanup_stops_after_first_removal :
    (∀ (now intervalMsP : Nat) (pre : cSatipServers) (s : cSatipServer) (post : cSatipServers),
      intervalMsP ≠ 0 →
      (∀ x ∈ pre, x.LastSeen now ≤ intervalMsP) → s.LastSeen now > intervalMsP →
      cSatipServers.Cleanup false now intervalMsP (pre ++ s :: post) = pre ++ post) ∧
    staleRegistry.map (fun s => (s.addressM, s.LastSeen 200000)) =
      [("10.0.0.2", 200000), ("10.0.0.3", 200000)] ∧
    (cSatipServers.Cleanup false 200000 120000 staleRegistry).map
        (fun s => (s.addressM, s.LastSeen 200000)) = [("10.0.0.3", 200000)] ∧
    (∀ (now intervalMsP : Nat) (servers : cSatipServers), intervalMsP ≠ 0 →
      cSatipServers.Cleanup true now intervalMsP servers
        = servers.filter (fun s => decide (s.LastSeen now ≤ intervalMsP))) := by
  refine ⟨?_, by decide, by decide, ?_⟩
  · intro now intervalMsP pre s post h0 hpre hs
    have h := cleanup_first_expired false now intervalMsP pre s post
      (fun x hx => ⟨h0, hpre x hx⟩) (Or.inr hs)
    simpa using h
  · intro now intervalMsP servers h0
    rw [cleanup_ideal, if_neg h0]

theorem cleanup_stops_after_first_removal_witness :
    cSatipServers.Cleanup false 200000 120000
        ([exampleServer.Update 150000] ++ exampleServer :: [exampleServer])
      = [exampleServer.Update 150000] ++ [exampleServer] :=
  cleanup_stops_after_first_removal.1 200000 120000 [exampleServer.Update 150000]
    exampleServer [exampleServer] (by decide)
    (fun x hx => by
      rw [List.mem_singleton] at hx
      subst hx
      decide)
    (by decide)

/-! ## Theorems: quirk detection and source filters -/

theorem quirk_bit4 (q : Nat) : ((q &&& eSatipQuirkCiXpmt) != 0) = q.testBit 4 := by
  have h : eSatipQuirkCiXpmt = 2 ^ 4 := by decide
  rw [h, Nat.and_two_pow]
  cases q.testBit 4 <;> simp

theorem detectQuirks_bit4 (env : ServerEnv) (descriptionM : String) (quirkP : Nat)
    (h : containsStr descriptionM "OctopusNet" = true) :
    (detectQuirks env descriptionM quirkP).testBit 4
      = (!env.DisableServerQuirks || quirkP.testBit 4) := by
  unfold detectQuirks
  cases hd : env.DisableServerQuirks
  · simp only [Bool.false_eq_true, if_false, h, Bool.true_or, if_true, Bool.not_false]
    have b1 : eSatipQuirkCiXpmt.testBit 4 = true := by decide
    have b2 : eSatipQuirkCiTnr.testBit 4 = false := by decide
    have b3 : eSatipQuirkForcePilot.testBit 4 = false := by decide
    have b4 : eSatipQuirkTearAndPlay.testBit 4 = false := by decide
    split_ifs <;> simp [Nat.testBit_lor, b1, b2, b3, b4]
  · simp

/-- C11 (amended). For every server whose description contains `OctopusNet`,
the CiXpmt quirk bit (0x10) is set in the quirk mask exactly when the flag
disableQuirks is false or the quirk value handed to the constructor already
has that bit; for a server built with the quirk value None (as discovery does)
it is set exactly when disableQuirks is false. -/
theorem quirk_CiXpmt_detection (env : ServerEnv) (now : Nat)
    (srcAddressP addressP : Option String) (portP : Int)
    (modelP filtersP descriptionP : Option String) (quirkP : Nat)
    (h : containsStr (cSatipServer.new env now srcAddressP addressP portP modelP filtersP
            descriptionP quirkP).descriptionM "OctopusNet" = true) :
    ((cSatipServer.new env now srcAddressP addressP portP modelP filtersP descriptionP
        quirkP).Quirk eSatipQuirkCiXpmt = true
      ↔ (env.DisableServerQuirks = false ∨ (quirkP &&& eSatipQuirkCiXpmt) ≠ 0)) ∧
    (quirkP = 0 →
      ((cSatipServer.new env now srcAddressP addressP portP modelP filtersP descriptionP
          quirkP).Quirk eSatipQuirkCiXpmt = true
        ↔ env.DisableServerQuirks = false)) := by
  have hq : (cSatipServer.new env now srcAddressP addressP portP modelP filtersP descriptionP
        quirkP).Quirk eSatipQuirkCiXpmt
      = (!env.DisableServerQuirks || quirkP.testBit 4) := by
    unfold cSatipServer.Quirk
    rw [quirk_bit4]
    exact detectQuirks_bit4 env _ quirkP h
  have hp : ((quirkP &&& eSatipQuirkCiXpmt) ≠ 0) ↔ quirkP.testBit 4 = true := by
    rw [← quirk_bit4]
    simp
  refine ⟨?_, ?_⟩
  · rw [hq, hp]
    cases env.DisableServerQuirks <;> simp
  · intro h0
    rw [hq, h0]
    cases env.DisableServerQuirks <;> simp

theorem quirk_CiXpmt_detection_witness :
    (cSatipServer.new exampleEnv 0 none (some "10.0.0.2") 554 (some "DVBS2-2") none
        (some "OctopusNet") 0).Quirk eSatipQuirkCiXpmt = true :=
  ((quirk_CiXpmt_detection exampleEnv 0 none (some "10.0.0.2") 554 (some "DVBS2-2") none
      (some "OctopusNet") 0 (by decide)).2 rfl).mpr rfl

/-- C11 (as stated) fails: with quirk detection disabled, a server described as
`OctopusNet` that is configured with the quirk value 0x10 has the CiXpmt bit
set. -/
theorem quirk_CiXpmt_configured :
    noQuirksEnv.DisableServerQuirks = true ∧
    containsStr (cSatipServer.new noQuirksEnv 0 none (some "10.0.0.2") 554 (some "DVBS2-2") none
        (some "OctopusNet") 0x10).descriptionM "OctopusNet" = true ∧
    (cSatipServer.new noQuirksEnv 0 none (some "10.0.0.2") 554 (some "DVBS2-2") none
        (some "OctopusNet") 0x10).quirkM = 0x10 ∧
    (cSatipServer.new noQuirksEnv 0 none (some "10.0.0.2") 554 (some "DVBS2-2") none
        (some "OctopusNet") 0x10).Quirk eSatipQuirkCiXpmt = true := by
  decide

theorem mem_AddPid (l : cSatipPid) (p x : Int) :
    x ∈ cSatipPid.AddPid l p ↔ x = p ∨ x ∈ l := by
  unfold cSatipPid.AddPid
  split
  · constructor
    · intro h; exact Or.inr h
    · rintro (h | h)
      · subst h; assumption
      · exact h
  · exact List.mem_orderedInsert _

theorem mem_RemovePid (l : cSatipPid) (p x : Int) :
    x ∈ cSatipPid.RemovePid l p ↔ x ∈ l ∧ x ≠ p := by
  simp [cSatipPid.RemovePid]

theorem setPid_disjoint (t : cSatipTuner) (pidP : Int) (onP : Bool)
    (h : pendingDisjoint t) : pendingDisjoint (t.SetPid pidP onP) := by
  intro p hp
  cases onP
  · simp only [cSatipTuner.SetPid, Bool.false_eq_true, if_false, mem_AddPid, mem_RemovePid] at hp
    rcases hp.2 with h2 | h2
    · exact hp.1.2 h2
    · exact h p ⟨hp.1.1, h2⟩
  · simp only [cSatipTuner.SetPid, if_true, mem_AddPid, mem_RemovePid] at hp
    rcases hp.1 with h1 | h1
    · exact hp.2.2 h1
    · exact h p ⟨h1, hp.2.1⟩

theorem updatePids_not_due (env : PidUpdateEnv) (now : Nat) (play : String → Bool)
    (t : cSatipTuner) (forceP : Bool) (h : updatePidsDue now t forceP = false) :
    t.UpdatePids env now play forceP = (true, t, []) := by
  simp [cSatipTuner.UpdatePids, h]

theorem updatePids_failed (env : PidUpdateEnv) (now : Nat) (play : String → Bool)
    (t : cSatipTuner) (forceP : Bool) (h : updatePidsDue now t forceP = true)
    (hp : play (playUri env t forceP) = false) :
    t.UpdatePids env now play forceP
      = (false,
         { t with pmtPidM :=
                    (ciQuery env t (pidQuery env t forceP
                      (IsQuirk t.currentServerM eSatipQuirkPlayPids)).2).2.1
                  tnrParamM :=
                    (ciQuery env t (pidQuery env t forceP
                      (IsQuirk t.currentServerM eSatipQuirkPlayPids)).2).2.2
                  pidUpdateCacheM := now + ePidUpdateIntervalMs },
         [TunerCall.Play (playUri env t forceP)]) := by
  simp [cSatipTuner.UpdatePids, h, hp]

theorem updatePids_played (env : PidUpdateEnv) (now : Nat) (play : String → Bool)
    (t : cSatipTuner) (forceP : Bool) (h : updatePidsDue now t forceP = true)
    (hp : play (playUri env t forceP) = true) :
    t.UpdatePids env now play forceP
      = (true,
         { t with pmtPidM :=
                    (ciQuery env t (pidQuery env t forceP
                      (IsQuirk t.currentServerM eSatipQuirkPlayPids)).2).2.1
                  tnrParamM :=
                    (ciQuery env t (pidQuery env t forceP
                      (IsQuirk t.currentServerM eSatipQuirkPlayPids)).2).2.2
                  pidUpdateCacheM := now + ePidUpdateIntervalMs
                  addPidsM := []
                  delPidsM := [] },
         [TunerCall.Play (playUri env t forceP)]) := by
  simp [cSatipTuner.UpdatePids, h, hp]

theorem updatePids_disjoint (env : PidUpdateEnv) (now : Nat) (play : String → Bool)
    (t : cSatipTuner) (forceP : Bool) (h : pendingDisjoint t) :
    pendingDisjoint (t.UpdatePids env now play forceP).2.1 := by
  cases hd : updatePidsDue now t forceP
  · rw [updatePids_not_due env now play t forceP hd]
    exact h
  · cases hp : play (playUri env t forceP)
    · rw [updatePids_failed env now play t forceP hd hp]
      exact h
    · rw [updatePids_played env now play t forceP hd hp]
      intro p hp'
      simp at hp'

/-- C13. Starting from a tuner whose addPids and delPids are disjoint, they are
disjoint after SetPid (on or off, any pid), after UpdatePids (forced or not,
whether the PLAY succeeds or fails) and after Disconnect. -/
theorem pending_sets_stay_disjoint (t : cSatipTuner) (h : pendingDisjoint t) :
    (∀ pidP onP, pendingDisjoint (t.SetPid pidP onP)) ∧
    (∀ env now play forceP, pendingDisjoint (t.UpdatePids env now play forceP).2.1) ∧
    (∀ now, pendingDisjoint (t.Disconnect now).1) := by
  refine ⟨fun pidP onP => setPid_disjoint t pidP onP h,
          fun env now play forceP => updatePids_disjoint env now play t forceP h, ?_⟩
  intro now p hp
  simp [cSatipTuner.Disconnect] at hp

theorem pending_sets_stay_disjoint_witness :
    pendingDisjoint (lockedTuner.SetPid 160 true) :=
  (pending_sets_stay_disjoint lockedTuner
    (by intro p hp; exact absurd hp.1 (by simp [lockedTuner, idleTuner]))).1 160 true


theorem removePid_of_not_mem (l : cSatipPid) (p : Int) (h : p ∉ l) :
    cSatipPid.RemovePid l p = l := by
  unfold cSatipPid.RemovePid
  rw [List.filter_eq_self]
  intro a ha
  have : a ≠ p := fun e => h (e ▸ ha)
  simpa using this

theorem filter_orderedInsert (p : Int) :
    ∀ l : List Int, p ∉ l →
      (List.orderedInsert (fun a b => a ≤ b) p l).filter (fun q => q != p) = l := by
  intro l
  induction l with
  | nil => intro _; simp
  | cons a rest ih =>
    intro h
    have ha : a ≠ p := fun e => h (by simp [e])
    have hr : p ∉ rest := fun e => h (List.mem_cons_of_mem _ e)
    have hfr : rest.filter (fun q => q != p) = rest := removePid_of_not_mem rest p hr
    by_cases hle : p ≤ a
    · simp [List.orderedInsert, hle, ha, hfr]
    · simp [List.orderedInsert, hle, ha, ih hr]

theorem removePid_addPid (l : cSatipPid) (p : Int) (h : p ∉ l) :
    cSatipPid.RemovePid (cSatipPid.AddPid l p) p = l := by
  unfold cSatipPid.AddPid cSatipPid.RemovePid
  rw [if_neg h]
  exact filter_orderedInsert p l h

/-- C14 (amended). For every pid p that is in none of pids, addPids, delPids,
SetPid(p, true) followed by SetPid(p, false) leaves pids and addPids as they
were and puts p into delPids; the next incremental PLAY therefore lists p
under `delpids=`. -/
theorem setPid_on_then_off (env : PidUpdateEnv) (t : cSatipTuner) (p : Int)
    (hp : p ∉ t.pidsM) (ha : p ∉ t.addPidsM) (hd : p ∉ t.delPidsM) :
    ((t.SetPid p true).SetPid p false).pidsM = t.pidsM ∧
    ((t.SetPid p true).SetPid p false).addPidsM = t.addPidsM ∧
    ((t.SetPid p true).SetPid p false).delPidsM
      = List.orderedInsert (fun a b => a ≤ b) p t.delPidsM ∧
    p ∈ ((t.SetPid p true).SetPid p false).delPidsM ∧
    ∃ pre, (pidQuery env ((t.SetPid p true).SetPid p false) false false).1
      = pre ++ "delpids=" ++ ((t.SetPid p true).SetPid p false).delPidsM.ListPids := by
  have h1 : ((t.SetPid p true).SetPid p false).pidsM = t.pidsM := by
    simp only [cSatipTuner.SetPid, if_true, Bool.false_eq_true, if_false]
    exact removePid_addPid t.pidsM p hp
  have h2 : ((t.SetPid p true).SetPid p false).addPidsM = t.addPidsM := by
    simp only [cSatipTuner.SetPid, if_true, Bool.false_eq_true, if_false]
    exact removePid_addPid t.addPidsM p ha
  have h3 : ((t.SetPid p true).SetPid p false).delPidsM
      = List.orderedInsert (fun a b => a ≤ b) p t.delPidsM := by
    simp only [cSatipTuner.SetPid, if_true, Bool.false_eq_true, if_false]
    rw [removePid_of_not_mem t.delPidsM p hd]
    unfold cSatipPid.AddPid
    rw [if_neg hd]
  have h4 : p ∈ ((t.SetPid p true).SetPid p false).delPidsM := by
    rw [h3]
    exact (List.mem_orderedInsert _).mpr (Or.inl rfl)
  refine ⟨h1, h2, h3, h4, ?_⟩
  have hne : (((t.SetPid p true).SetPid p false).delPidsM.length != 0) = true := by
    have := List.length_pos_of_mem h4
    simp only [bne_iff_ne, ne_eq]
    omega
  unfold pidQuery
  simp only [Bool.or_self, Bool.false_eq_true, if_false, hne, if_true]
  exact ⟨_, rfl⟩

theorem setPid_on_then_off_witness :
    ((lockedTuner.SetPid 160 true).SetPid 160 false).delPidsM
      = List.orderedInsert (fun a b => a ≤ b) 160 lockedTuner.delPidsM :=
  (setPid_on_then_off exampleMinPidEnv lockedTuner 160 (by decide) (by decide) (by decide)).2.2.1

/-- C14 (as stated) fails: on a tuner with PID 2000 active and nothing pending,
SetPid(160, true) followed by SetPid(160, false) leaves 160 in delPids, and the
next PLAY carries `delpids=160`. -/
theorem setPid_on_then_off_leaves_delpid :
    ((lockedTuner.SetPid 160 true).SetPid 160 false).addPidsM = [] ∧
    ((lockedTuner.SetPid 160 true).SetPid 160 false).delPidsM = [160] ∧
    (((lockedTuner.SetPid 160 true).SetPid 160 false).UpdatePids exampleMinPidEnv 1000
        (fun _ => true) false).2.2
      = [TunerCall.Play "rtsp://10.0.0.2/stream=1?delpids=160"] := by
  decide


/-- C16 (the code at the failing input). A tuner holds the established session
with stream id 0, a stream address and the pending PID 160, and the debounce
has elapsed: UpdatePids returns true without issuing a PLAY and addPids still
holds 160; with stream id 1 the same call issues the PLAY and empties
addPids. -/
theorem updatePids_skips_stream_zero :
    (cSatipTuner.UpdatePids exampleMinPidEnv 1000 (fun _ => true)
        { lockedTuner with streamIdM := 0, pidsM := [160, 2000], addPidsM := [160] } false).1
      = true ∧
    (cSatipTuner.UpdatePids exampleMinPidEnv 1000 (fun _ => true)
        { lockedTuner with streamIdM := 0, pidsM := [160, 2000], addPidsM := [160] } false).2.2
      = [] ∧
    (cSatipTuner.UpdatePids exampleMinPidEnv 1000 (fun _ => true)
        { lockedTuner with streamIdM := 0, pidsM := [160, 2000], addPidsM := [160] }
        false).2.1.addPidsM = [160] ∧
    (cSatipTuner.UpdatePids exampleMinPidEnv 1000 (fun _ => true)
        { lockedTuner with streamIdM := 1, pidsM := [160, 2000], addPidsM := [160] } false).2.2
      = [TunerCall.Play "rtsp://10.0.0.2/stream=1?addpids=160"] ∧
    (cSatipTuner.UpdatePids exampleMinPidEnv 1000 (fun _ => true)
        { lockedTuner with streamIdM := 1, pidsM := [160, 2000], addPidsM := [160] }
        false).2.1.addPidsM = [] := by
  decide


/-- C17 (amended). On a server with the PlayPids quirk, a PLAY issued by
UpdatePids never carries addpids or delpids: while the pid set is not empty its
PID parameter is `pids=` followed by the full pid set, with the dummy PID
appended exactly when the set holds a single PID and that PID is below 0x20;
while the pid set is empty the PLAY carries no PID parameter at all.  After a
successful PLAY addPids and delPids are both empty. -/
theorem playPids_quirk (env : PidUpdateEnv) (now : Nat) (play : String → Bool)
    (t : cSatipTuner) (forceP : Bool)
    (hq : IsQuirk t.currentServerM eSatipQuirkPlayPids = true)
    (hdue : updatePidsDue now t forceP = true) :
    (t.UpdatePids env now play forceP).2.2 = [TunerCall.Play (playUri env t forceP)] ∧
    (t.pidsM ≠ [] →
      playUri env t forceP
        = GetBaseUrl t.streamAddrM t.streamPortM ++ "stream=" ++ printInt t.streamIdM
            ++ ("?pids=" ++ t.pidsM.ListPids ++
                 (if t.pidsM.length = 1 ∧ t.pidsM.headD 0 < 0x20
                    then "," ++ printInt env.eDummyPid else ""))
            ++ (ciQuery env t true).1) ∧
    (t.pidsM = [] →
      playUri env t forceP
        = GetBaseUrl t.streamAddrM t.streamPortM ++ "stream=" ++ printInt t.streamIdM
            ++ (ciQuery env t false).1) ∧
    (play (playUri env t forceP) = true →
      (t.UpdatePids env now play forceP).1 = true ∧
      (t.UpdatePids env now play forceP).2.1.addPidsM = [] ∧
      (t.UpdatePids env now play forceP).2.1.delPidsM = []) := by
  refine ⟨?_, ?_, ?_, ?_⟩
  · cases hp : play (playUri env t forceP)
    · rw [updatePids_failed env now play t forceP hdue hp]
    · rw [updatePids_played env now play t forceP hdue hp]
  · intro hne
    have hlen : (t.pidsM.length != 0) = true := by
      cases hl : t.pidsM with
      | nil => exact absurd hl hne
      | cons a l => simp
    unfold playUri pidQuery
    simp only [hq, Bool.or_true, if_true, hlen, paramSep, Bool.false_eq_true, if_false,
      Bool.true_and, Bool.and_eq_true, beq_iff_eq, decide_eq_true_eq, String.append_assoc]
    have hjoin : ∀ X : String, "?" ++ ("pids=" ++ X) = "?pids=" ++ X := by
      intro X
      rw [← String.append_assoc]
      rfl
    rw [hjoin]
  · intro he
    unfold playUri pidQuery
    simp [hq, he]
  · intro hp
    rw [updatePids_played env now play t forceP hdue hp]
    exact ⟨rfl, rfl, rfl⟩

theorem playPids_quirk_witness :
    (cSatipTuner.UpdatePids exampleMinPidEnv 1000 (fun _ => true)
        { lockedTuner with currentServerM := some fritzServer, pidsM := [18], addPidsM := [18] }
        false).2.2
      = [TunerCall.Play "rtsp://10.0.0.2/stream=1?pids=18,100"] := by
  have h := (playPids_quirk exampleMinPidEnv 1000 (fun _ => true)
      { lockedTuner with currentServerM := some fritzServer, pidsM := [18], addPidsM := [18] }
      false (by decide) (by decide)).1
  rw [h]
  decide

/-- C17 (as stated) fails: on a server with the PlayPids quirk, after the last
active PID 2000 has been switched off the pid set is empty and 2000 is pending
in delPids; UpdatePids issues a PLAY whose URI has no `pids=` parameter. -/
theorem playPids_quirk_empty_set :
    IsQuirk (some fritzServer) eSatipQuirkPlayPids = true ∧
    (cSatipTuner.SetPid { lockedTuner with currentServerM := some fritzServer } 2000 false).pidsM
      = [] ∧
    ((cSatipTuner.SetPid { lockedTuner with currentServerM := some fritzServer } 2000
        false).UpdatePids exampleMinPidEnv 1000 (fun _ => true) false).2.2
      = [TunerCall.Play "rtsp://10.0.0.2/stream=1"] := by
  decide

/-! ## Theorems: session timeout and reception report -/

/-- C18 (spec-modelled constants). For every server session timeout t (ms),
SetSessionTimeout sets the keep-alive interval `timeoutM` to
max(t, 30000) − 500; a timeout of 60000 gives 59500, and the interval is never
below 29500. -/
theorem keepalive_interval (t : cSatipTuner) (sessionP : String) (timeoutP : Int) :
    (t.SetSessionTimeout sessionP timeoutP).1.timeoutM = max timeoutP 30000 - 500 ∧
    (t.SetSessionTimeout sessionP 60000).1.timeoutM = 59500 ∧
    29500 ≤ (t.SetSessionTimeout sessionP timeoutP).1.timeoutM := by
  simp only [cSatipTuner.SetSessionTimeout, eMinKeepAliveIntervalMs, eKeepAlivePreBufferMs]
  refine ⟨?_, by decide, ?_⟩
  · split <;> omega
  · split <;> omega

theorem doubleToInt_round (x : ℚ) (h0 : 0 ≤ x) :
    ((doubleToInt (1 / 2 + x) : Int) : ℚ) - x ≤ 1 / 2 ∧
    x - ((doubleToInt (1 / 2 + x) : Int) : ℚ) < 1 / 2 ∧
    0 ≤ doubleToInt (1 / 2 + x) := by
  have hpos : (0 : ℚ) ≤ 1 / 2 + x := by linarith
  unfold doubleToInt
  rw [if_pos hpos]
  have h1 := Int.floor_le (1 / 2 + x)
  have h2 := Int.lt_floor_add_one (1 / 2 + x)
  refine ⟨by linarith, by linarith, Int.floor_nonneg.mpr hpos⟩

theorem processApplicationData_signal (rf : RepFunc) (SrcIdToSource : Int → Int)
    (channelSource channelSrate : Int) (now : Nat) (t : cSatipTuner)
    (bufferP : List Char) (lengthP : Int) (params : List String)
    (h : reportParams rf bufferP lengthP = some params) :
    ∃ t', tunerAfter (t.ProcessApplicationData rf SrcIdToSource channelSource channelSrate now
        bufferP lengthP) = some t' ∧
      t'.hasLockM = (elemAt params 2 == "1") ∧
      t'.signalStrengthDBmM
        = (if rf.StrToInt (elemAt params 1) > 0
            then fl (fl (fl (40 * ((rf.StrToInt (elemAt params 1) - 32 : Int) : ℚ)) / 192) - 65)
            else 0) ∧
      t'.signalStrengthM
        = (if rf.StrToInt (elemAt params 1) ≥ 0
            then doubleToInt (fl (1 / 2 + fl (fl ((rf.StrToInt (elemAt params 1) : ℚ) * 100) / 255)))
            else -1) ∧
      t'.signalQualityM
        = (if (elemAt params 2 == "1") && decide (rf.StrToInt (elemAt params 3) ≥ 0)
            then doubleToInt (fl (1 / 2 + fl (fl ((rf.StrToInt (elemAt params 3) : ℚ) * 100) / 15)))
            else 0) := by
  unfold reportParams at h
  unfold cSatipTuner.ProcessApplicationData
  by_cases h33 : lengthP < 33
  · simp [h33] at h
  · rw [if_neg h33] at h
    simp only [if_neg h33]
    cases hps : strstr (cStr (bufferP.take lengthP.toNat)) "ver=".toList with
    | none => rw [hps] at h; cases h
    | some ps =>
      rw [hps] at h
      simp only at h ⊢
      by_cases h3 : (rf.SplitStr (String.mk ps) ';').length < 3
      · rw [if_pos h3] at h; cases h
      · rw [if_neg h3] at h
        rw [if_neg h3]
        by_cases h6 : (elemAt (rf.SplitStr (String.mk ps) ';')
            (if "src=".toList.isPrefixOf (elemAt (rf.SplitStr (String.mk ps) ';') 1).toList
              then 2 else 1)).length < 6
        · rw [if_pos h6] at h; cases h
        · rw [if_neg h6] at h
          rw [if_neg h6]
          simp only [Option.some.injEq] at h
          rw [h]
          generalize hu : cSatipTuner.applySignalFields rf.StrToInt
            { t with reConnectM := now + eConnectTimeoutMs } params = u
          have hf : u.hasLockM = (elemAt params 2 == "1") ∧
              u.signalStrengthDBmM
                = (if rf.StrToInt (elemAt params 1) > 0
                    then fl (fl (fl (40 * ((rf.StrToInt (elemAt params 1) - 32 : Int) : ℚ)) / 192)
                      - 65)
                    else 0) ∧
              u.signalStrengthM
                = (if rf.StrToInt (elemAt params 1) ≥ 0
                    then doubleToInt
                      (fl (1 / 2 + fl (fl ((rf.StrToInt (elemAt params 1) : ℚ) * 100) / 255)))
                    else -1) ∧
              u.signalQualityM
                = (if (elemAt params 2 == "1") && decide (rf.StrToInt (elemAt params 3) ≥ 0)
                    then doubleToInt
                      (fl (1 / 2 + fl (fl ((rf.StrToInt (elemAt params 3) : ℚ) * 100) / 15)))
                    else 0) := by
            subst hu
            exact ⟨rfl, rfl, rfl, rfl⟩
          obtain ⟨f1, f2, f3, f4⟩ := hf
          rw [← f4, ← f3, ← f2, ← f1]
          split_ifs <;> exact ⟨_, rfl, rfl, rfl, rfl, rfl⟩

set_option maxRecDepth 100000 in
/-- C20 (amended). After `ProcessApplicationData` has processed a reception
report whose tuner field carries level=224, lock=1 and quality=15, the tuner
has lock, its signal strength in dBm is −25, its normalized signal strength is
88 and its normalized signal quality is 100. -/
theorem scenario_S1_report (rf : RepFunc) (SrcIdToSource : Int → Int)
    (channelSource channelSrate : Int) (now : Nat) (t : cSatipTuner)
    (bufferP : List Char) (lengthP : Int) (params : List String)
    (hparams : reportParams rf bufferP lengthP = some params)
    (hlevel : rf.StrToInt (elemAt params 1) = 224) (hlock : elemAt params 2 = "1")
    (hquality : rf.StrToInt (elemAt params 3) = 15) :
    ∃ t', tunerAfter (t.ProcessApplicationData rf SrcIdToSource channelSource channelSrate now
        bufferP lengthP) = some t' ∧
      t'.hasLockM = true ∧ t'.signalStrengthDBmM = -25 ∧ t'.signalStrengthM = 88 ∧
      t'.signalQualityM = 100 := by
  obtain ⟨t', ht', hl, hdbm, hstr, hq⟩ :=
    processApplicationData_signal rf SrcIdToSource channelSource channelSrate now t bufferP
      lengthP params hparams
  rw [hlevel] at hdbm hstr
  rw [hlock, hquality] at hq
  rw [hlock] at hl
  refine ⟨t', ht', ?_, ?_, ?_, ?_⟩
  · rw [hl]; decide
  · rw [hdbm]; decide!
  · rw [hstr]; decide!
  · rw [hq]; decide!

set_option maxRecDepth 100000 in
theorem scenario_S1_report_witness :
    ∃ t', tunerAfter (idleTuner.ProcessApplicationData exampleRepFunc (fun _ => -1) 0 0 0
        reportS1.toList 80) = some t' ∧
      t'.hasLockM = true ∧ t'.signalStrengthDBmM = -25 ∧ t'.signalStrengthM = 88 ∧
      t'.signalQualityM = 100 :=
  scenario_S1_report exampleRepFunc (fun _ => -1) 0 0 0 idleTuner reportS1.toList 80
    ["1", "224", "1", "15", "11494", "h", "dvbs2", "qpsk", "off", "0.35", "22000", "34", "", ""]
    (by decide) (by decide) (by decide) (by decide)

set_option maxRecDepth 100000 in
/-- C20 (as stated) fails: after the report of scenario S1 (level=224, lock=1,
quality=15) has been processed the normalized signal strength is 88, not
100. -/
theorem scenario_S1_report_strength :
    (tunerAfter (idleTuner.ProcessApplicationData exampleRepFunc (fun _ => -1) 0 0 0
        reportS1.toList 80)).map (fun t => (t.hasLockM, t.signalStrengthM, t.signalQualityM))
      = some (true, 88, 100) ∧
    (88 : Int) ≠ 100 := by
  decide!

/-! ## Theorems: the state queues of a tuner -/

theorem updateCurrentState_queue (t : cSatipTuner) :
    t.UpdateCurrentState.internalStateM ++ t.UpdateCurrentState.externalStateM
      = (t.internalStateM ++ t.externalStateM).tail ∧
    ∀ s, (t.internalStateM ++ t.externalStateM).head? = some s →
      t.UpdateCurrentState.currentStateM = s := by
  unfold cSatipTuner.UpdateCurrentState
  cases hi : t.internalStateM with
  | cons a rest => simp
  | nil =>
    cases he : t.externalStateM with
    | cons a rest => simp
    | nil => simp [hi, he]

theorem updateCurrentState_iterate :
    ∀ (k : Nat) (t : cSatipTuner) (s : eTunerState),
      (t.internalStateM ++ t.externalStateM)[k]? = some s →
      (cSatipTuner.UpdateCurrentState^[k + 1] t).currentStateM = s := by
  intro k
  induction k with
  | zero =>
    intro t s h
    have := (updateCurrentState_queue t).2 s (by
      cases hq : t.internalStateM ++ t.externalStateM with
      | nil => rw [hq] at h; simp at h
      | cons a r => rw [hq] at h; simpa using h)
    simpa using this
  | succ j ih =>
    intro t s h
    rw [Function.iterate_succ, Function.comp_apply]
    apply ih
    rw [(updateCurrentState_queue t).1]
    cases hq : t.internalStateM ++ t.externalStateM with
    | nil => rw [hq] at h; simp at h
    | cons a r => rw [hq] at h; simpa using h

/-- C22. An internal request for Release is dropped when the state it would
follow is Idle, that is when the internal queue is empty and the current state
is Idle, or when the last queued internal request is Idle: `RequestState`
returns false and the tuner, both queues included, is left as it was. -/
theorem internal_release_after_idle_dropped (t : cSatipTuner)
    (h : (t.internalStateM = [] ∧ t.currentStateM = eTunerState.tsIdle) ∨
         (∃ l, t.internalStateM = l ++ [eTunerState.tsIdle])) :
    t.RequestState eTunerState.tsRelease eStateMode.smInternal = (false, t) := by
  have hs : (t.internalStateM.getLast?).getD t.currentStateM = eTunerState.tsIdle := by
    rcases h with ⟨h1, h2⟩ | ⟨l, hl⟩
    · simp [h1, h2]
    · simp [hl]
  simp [cSatipTuner.RequestState, hs]

theorem internal_release_after_idle_dropped_witness :
    idleTuner.RequestState eTunerState.tsRelease eStateMode.smInternal = (false, idleTuner) :=
  internal_release_after_idle_dropped idleTuner (Or.inl ⟨rfl, rfl⟩)

/-- C23. `UpdateCurrentState` takes the oldest internal request when the
internal queue is not empty and leaves the external queue as it is; it takes
the oldest external request only when the internal queue is empty; with both
queues empty it changes nothing.  Requests are appended at the end of their
queue, so that successive calls visit first the internal requests, oldest
first, then the external ones, oldest first. -/
theorem state_queue_order (t : cSatipTuner) :
    (∀ s rest, t.internalStateM = s :: rest →
      t.UpdateCurrentState = { t with currentStateM := s, internalStateM := rest }) ∧
    (∀ s rest, t.internalStateM = [] → t.externalStateM = s :: rest →
      t.UpdateCurrentState = { t with currentStateM := s, externalStateM := rest }) ∧
    (t.internalStateM = [] → t.externalStateM = [] → t.UpdateCurrentState = t) ∧
    (∀ s, t.RequestState s eStateMode.smExternal
      = (true, { t with externalStateM := t.externalStateM ++ [s] })) ∧
    (∀ s, (t.RequestState s eStateMode.smInternal).1 = true →
      (t.RequestState s eStateMode.smInternal).2
        = { t with internalStateM := t.internalStateM ++ [s] }) ∧
    (∀ k s, (t.internalStateM ++ t.externalStateM)[k]? = some s →
      (cSatipTuner.UpdateCurrentState^[k + 1] t).currentStateM = s) := by
  refine ⟨?_, ?_, ?_, ?_, ?_, ?_⟩
  · intro s rest h
    simp [cSatipTuner.UpdateCurrentState, h]
  · intro s rest hi he
    simp [cSatipTuner.UpdateCurrentState, hi, he]
  · intro hi he
    simp [cSatipTuner.UpdateCurrentState, hi, he]
  · intro s
    rfl
  · intro s h
    cases hst : (t.internalStateM.getLast?).getD t.currentStateM <;>
      by_cases hs : s = eTunerState.tsRelease <;>
      simp [cSatipTuner.RequestState, hst, hs] at h ⊢
  · intro k s h
    exact updateCurrentState_iterate k t s h

theorem state_queue_order_witness :
    (cSatipTuner.UpdateCurrentState^[2]
      { idleTuner with internalStateM := [eTunerState.tsTuned]
                       externalStateM := [eTunerState.tsSet] }).currentStateM
      = eTunerState.tsSet :=
  (state_queue_order { idleTuner with internalStateM := [eTunerState.tsTuned]
                                      externalStateM := [eTunerState.tsSet] }).2.2.2.2.2
    1 eTunerState.tsSet rfl

/-! ## Theorems: failure of a frontend assignment -/

theorem assignTarget_eq_firstIdx (pool : cSatipFrontends) (d : Int) :
    cSatipFrontends.assignTarget pool d
      = firstIdx (fun f => !f.Attached || f.deviceIdM == d) pool := by
  induction pool with
  | nil => rfl
  | cons a rest ih => simp only [cSatipFrontends.assignTarget, firstIdx, ih]

theorem modify_eq_set {α : Type} (g : α → α) :
    ∀ (l : List α) (k : Nat) (a : α), l[k]? = some a → l.modify g k = l.set k (g a) := by
  intro l
  induction l with
  | nil => intro k a h; simp at h
  | cons b rest ih =>
    intro k a h
    cases k with
    | zero =>
      simp at h
      subst h
      rfl
    | succ j =>
      rw [List.modify_succ_cons, List.set_cons_succ, ih j a (by simpa using h)]

theorem map_deviceId_modify (pool : cSatipFrontends) (t : Int) :
    ∀ k, (pool.modify (fun tmp => tmp.SetTransponder t) k).map (fun f => f.deviceIdM)
      = pool.map (fun f => f.deviceIdM) := by
  induction pool with
  | nil => intro k; cases k <;> rfl
  | cons a rest ih =>
    intro k
    cases k with
    | zero => rfl
    | succ j =>
      rw [List.modify_succ_cons]
      simp only [List.map_cons, ih j]

/-- C30. `cSatipFrontends::Assign(deviceId, transponder)` returns false if and
only if every frontend of the pool is attached to a device other than
`deviceId` (so also for the empty pool), and then the pool is left as it was.
When it returns true, the pool afterwards is the pool with one frontend
replaced, the first in pool order that is unattached or attached to
`deviceId`, and the replacement differs from it only in the transponder, which
is the given value.  In both cases every frontend keeps its attachment. -/
theorem assign_failure_exact_atomic (pool : cSatipFrontends) (d t : Int) :
    ((cSatipFrontends.Assign pool d t).1 = false
      ↔ ∀ f ∈ pool, f.Attached = true ∧ f.deviceIdM ≠ d) ∧
    ((cSatipFrontends.Assign pool d t).1 = false → (cSatipFrontends.Assign pool d t).2 = pool) ∧
    ((cSatipFrontends.Assign pool d t).1 = true →
      ∃ k f, IsFirstAt (fun f => !f.Attached || f.deviceIdM == d) pool k ∧
        pool[k]? = some f ∧
        (cSatipFrontends.Assign pool d t).2 = pool.set k { f with transponderM := t }) ∧
    (cSatipFrontends.Assign pool d t).2.map (fun f => f.deviceIdM)
      = pool.map (fun f => f.deviceIdM) := by
  unfold cSatipFrontends.Assign
  cases h : cSatipFrontends.assignTarget pool d with
  | none =>
    refine ⟨?_, ?_, ?_, ?_⟩
    · simpa using (assignTarget_none_iff pool d).mp h
    · intro _; rfl
    · intro hc; simp at hc
    · rfl
  | some k =>
    refine ⟨?_, ?_, ?_, ?_⟩
    · constructor
      · intro hc; simp at hc
      · intro hall
        rw [(assignTarget_none_iff pool d).mpr hall] at h
        cases h
    · intro hc; simp at hc
    · intro _
      have hfirst : IsFirstAt (fun f => !f.Attached || f.deviceIdM == d) pool k :=
        firstIdx_isFirstAt _ pool k (by rw [← assignTarget_eq_firstIdx]; exact h)
      obtain ⟨f, hf, _⟩ := hfirst.1
      exact ⟨k, f, hfirst, hf, modify_eq_set _ pool k f hf⟩
    · exact map_deviceId_modify pool t k

theorem assign_failure_exact_atomic_witness :
    (cSatipFrontends.Assign [(⟨1, 100, 0, "DVB-S2"⟩ : cSatipFrontend)] 1 200).2
      = [(⟨1, 100, 0, "DVB-S2"⟩ : cSatipFrontend)] :=
  (assign_failure_exact_atomic [⟨1, 100, 0, "DVB-S2"⟩] 1 200).2.1 (by decide)

/-! ## Theorems: the ForcePilot quirk -/

theorem strstr_isSome_iff (n : List Char) :
    ∀ s : List Char, (strstr s n).isSome = true ↔ List.IsInfix n s := by
  intro s
  induction s with
  | nil =>
    cases n with
    | nil => simp [strstr]
    | cons a r => simp [strstr]
  | cons c cs ih =>
    by_cases hp : n.isPrefixOf (c :: cs) = true
    · have hpre : List.IsPrefix n (c :: cs) := List.isPrefixOf_iff_prefix.mp hp
      simp only [strstr, hp, if_true, Option.isSome_some, true_iff]
      exact hpre.isInfix
    · have hnp : ¬ List.IsPrefix n (c :: cs) := fun h => hp (List.isPrefixOf_iff_prefix.mpr h)
      simp only [strstr, hp, Bool.false_eq_true, if_false, ih, List.infix_cons_iff]
      constructor
      · intro h; exact Or.inr h
      · rintro (h | h)
        · exact absurd h hnp
        · exact h

theorem containsStr_iff (s needle : String) :
    containsStr s needle = true ↔ occursIn needle s := by
  unfold containsStr occursIn
  exact strstr_isSome_iff needle.toList s.toList

/-- C27. `SetSource`, called with a server whose address is not empty and with
a parameter that is not empty: when the server has the ForcePilot quirk, the
parameter contains `msys=dvbs2` and contains no `plts=`, the stream parameter
becomes the parameter with `&plts=on` appended (RTSP-unescaped); in every other
case it becomes the parameter as given (RTSP-unescaped).  Called without server
and parameter, `SetSource` clears the stream parameter. -/
theorem forcePilot_appends_plts (unescape : String → String) (now : Nat) (t : cSatipTuner)
    (server : cSatipServer) (parameterP : String)
    (haddr : isempty (some server.addressM) = false)
    (hparam : isempty (some parameterP) = false) :
    (server.Quirk eSatipQuirkForcePilot = true ∧ occursIn "msys=dvbs2" parameterP ∧
        ¬ occursIn "plts=" parameterP →
      (t.SetSource unescape now (some server) (some parameterP)).2.streamParamM
        = unescape (parameterP ++ "&plts=on")) ∧
    (¬ (server.Quirk eSatipQuirkForcePilot = true ∧ occursIn "msys=dvbs2" parameterP ∧
        ¬ occursIn "plts=" parameterP) →
      (t.SetSource unescape now (some server) (some parameterP)).2.streamParamM
        = unescape parameterP) ∧
    (t.SetSource unescape now none none).2.streamParamM = "" := by
  have hframe1 : ∀ (u : cSatipTuner) (s : eTunerState) (m : eStateMode),
      (u.RequestState s m).2.streamParamM = u.streamParamM := by
    intro u s m
    unfold cSatipTuner.RequestState
    cases m <;> simp only
    · split
      · split <;> rfl
      · rfl
  have hcond : (IsQuirk (some server) eSatipQuirkForcePilot &&
        containsStr parameterP "msys=dvbs2" && !containsStr parameterP "plts=") = true
      ↔ (server.Quirk eSatipQuirkForcePilot = true ∧ occursIn "msys=dvbs2" parameterP ∧
        ¬ occursIn "plts=" parameterP) := by
    simp only [IsQuirk, Bool.and_eq_true, Bool.not_eq_true', containsStr_iff, and_assoc,
      ← Bool.not_eq_true]
  refine ⟨?_, ?_, rfl⟩
  · intro h
    have hc := hcond.mpr h
    simp only [cSatipTuner.SetSource, haddr, hparam, Bool.not_false, Bool.and_self, if_true,
      Option.getD_some, hc]
    split_ifs <;> simp only [hframe1]
  · intro h
    have hc : (IsQuirk (some server) eSatipQuirkForcePilot &&
        containsStr parameterP "msys=dvbs2" && !containsStr parameterP "plts=") = false := by
      rw [← Bool.not_eq_true]
      exact fun hh => h (hcond.mp hh)
    simp only [cSatipTuner.SetSource, haddr, hparam, Bool.not_false, Bool.and_self, if_true,
      Option.getD_some, hc, Bool.false_eq_true, if_false]
    split_ifs <;> simp only [hframe1]

theorem forcePilot_appends_plts_witness :
    ({ idleTuner with streamParamM := "old" }.SetSource id 0
        (some { exampleServer with quirkM := eSatipQuirkForcePilot })
        (some "src=1&freq=11494&pol=h&msys=dvbs2&sr=22000")).2.streamParamM
      = "src=1&freq=11494&pol=h&msys=dvbs2&sr=22000&plts=on" :=
  (forcePilot_appends_plts id 0 { idleTuner with streamParamM := "old" }
    { exampleServer with quirkM := eSatipQuirkForcePilot }
    "src=1&freq=11494&pol=h&msys=dvbs2&sr=22000" (by decide) (by decide)).1
    ⟨by decide, (containsStr_iff _ _).mp (by decide),
      fun h => absurd ((containsStr_iff _ _).mpr h) (by decide)⟩

/-- The guard of `SetSource`: called with a server and with a parameter that is
null or empty in the sense of `isempty`, it leaves the stream parameter as it
was. -/
theorem setSource_skips_empty_parameter (unescape : String → String) (now : Nat)
    (t : cSatipTuner) (server : cSatipServer) (parameterP : Option String)
    (hparam : isempty parameterP = true) :
    (t.SetSource unescape now (some server) parameterP).2.streamParamM = t.streamParamM := by
  simp [cSatipTuner.SetSource, hparam]

/-! ## Theorems: failed connection attempts -/

theorem connect_frame (env : ActionEnv) (now : Nat) (t : cSatipTuner) :
    (t.Connect env now).2.1.currentStateM = t.currentStateM ∧
    (t.Connect env now).2.1.internalStateM = t.internalStateM ∧
    (t.Connect env now).2.1.externalStateM = t.externalStateM ∧
    (t.Connect env now).2.1.streamAddrM = t.streamAddrM ∧
    (t.Connect env now).2.1.hasLockM = t.hasLockM := by
  unfold cSatipTuner.Connect
  simp only
  split_ifs <;> exact ⟨rfl, rfl, rfl, rfl, rfl⟩

theorem connect_refused (env : ActionEnv) (now : Nat) (t : cSatipTuner)
    (hPlay : ∀ uri, env.Play uri = false) (hSetup : ∀ uri useTcp, env.Setup uri useTcp = false)
    (hlock : t.hasLockM = false) :
    (t.Connect env now).1 = false ∧
    (isempty (some t.streamAddrM) = false →
      (∃ uri, TunerCall.Play uri ∈ (t.Connect env now).2.2) ∨
      (∃ a, TunerCall.SetInterface a ∈ (t.Connect env now).2.2)) := by
  unfold cSatipTuner.Connect
  simp only [hPlay, hSetup, hlock, Bool.and_false, Bool.false_eq_true, if_false]
  split_ifs with h1 h2 h3 h4
  · exact ⟨rfl, fun _ => Or.inl ⟨_, List.mem_cons_self _ _⟩⟩
  · exact ⟨rfl, fun _ => Or.inr ⟨_, List.mem_cons_self _ _⟩⟩
  · exact ⟨rfl, fun _ => Or.inr ⟨_, List.mem_cons_self _ _⟩⟩
  · exact ⟨rfl, fun _ => Or.inr ⟨_, List.mem_cons_self _ _⟩⟩
  · refine ⟨rfl, fun h => ?_⟩
    simp [h] at h1

theorem disconnect_frame (now : Nat) (t : cSatipTuner) :
    (t.Disconnect now).1.currentStateM = t.currentStateM ∧
    (t.Disconnect now).1.internalStateM = t.internalStateM ∧
    (t.Disconnect now).1.externalStateM = t.externalStateM ∧
    (t.Disconnect now).1.streamAddrM = t.streamAddrM ∧
    (t.Disconnect now).1.hasLockM = false :=
  ⟨rfl, rfl, rfl, rfl, rfl⟩

/-- A round of the thread loop in state Set, with empty queues, against a server
that refuses every PLAY and SETUP. -/
theorem actionRound_refused (env : ActionEnv) (now : Nat) (t : cSatipTuner) (loc : ActionLocals)
    (hPlay : ∀ uri, env.Play uri = false) (hSetup : ∀ uri useTcp, env.Setup uri useTcp = false)
    (hstate : t.currentStateM = eTunerState.tsSet) (hint : t.internalStateM = [])
    (hext : t.externalStateM = []) (hlock : t.hasLockM = false) :
    (t.ActionRound env now loc).1.currentStateM = eTunerState.tsSet ∧
    (t.ActionRound env now loc).1.internalStateM = [] ∧
    (t.ActionRound env now loc).1.externalStateM = [] ∧
    (t.ActionRound env now loc).1.hasLockM = false ∧
    (t.ActionRound env now loc).1.streamAddrM = t.streamAddrM ∧
    (isempty (some t.streamAddrM) = false →
      (∃ uri, TunerCall.Play uri ∈ (t.ActionRound env now loc).2.2) ∨
      (∃ a, TunerCall.SetInterface a ∈ (t.ActionRound env now loc).2.2)) := by
  have hu : t.UpdateCurrentState = t := by
    simp [cSatipTuner.UpdateCurrentState, hint, hext]
  unfold cSatipTuner.ActionRound
  simp only [hu, hstate]
  generalize hd : (if IsQuirk t.currentServerM eSatipQuirkTearAndPlay = true
    then t.Disconnect now else (t, [])) = d
  have hdf : d.1.currentStateM = t.currentStateM ∧ d.1.internalStateM = t.internalStateM ∧
      d.1.externalStateM = t.externalStateM ∧ d.1.streamAddrM = t.streamAddrM ∧
      d.1.hasLockM = false := by
    rw [← hd]
    split_ifs
    · exact disconnect_frame now t
    · exact ⟨rfl, rfl, rfl, rfl, hlock⟩
  obtain ⟨hd1, hd2, hd3, hd4, hd5⟩ := hdf
  obtain ⟨hc0, hcall⟩ := connect_refused env now d.1 hPlay hSetup hd5
  obtain ⟨hc1, hc2, hc3, hc4, _⟩ := connect_frame env now d.1
  obtain ⟨he1, he2, he3, he4, he5⟩ := disconnect_frame now (d.1.Connect env now).2.1
  simp only [hc0, Bool.false_eq_true, if_false]
  refine ⟨?_, ?_, ?_, he5, ?_, ?_⟩
  · rw [he1, hc1, hd1, hstate]
  · rw [he2, hc2, hd2, hint]
  · rw [he3, hc3, hd3, hext]
  · rw [he4, hc4, hd4]
  · intro ha
    rw [← hd4] at ha
    rcases hcall ha with ⟨uri, hm⟩ | ⟨a, hm⟩
    · exact Or.inl ⟨uri, by simp [hm]⟩
    · exact Or.inr ⟨a, by simp [hm]⟩

/-- C24 (amended). The thread loop keeps no count of failed connection
attempts.  Against a server that refuses every PLAY and SETUP, a tuner in state
Set with empty queues and without lock stays in state Set, with empty queues,
through any number of rounds of the loop (nothing being requested from outside
in between): it never goes to Release, and when it has a stream address every
round makes a new attempt (a PLAY or a SetInterface call). -/
theorem connect_failures_never_release (env : ActionEnv)
    (hPlay : ∀ uri, env.Play uri = false) (hSetup : ∀ uri useTcp, env.Setup uri useTcp = false)
    (times : List Nat) :
    ∀ (t : cSatipTuner) (loc : ActionLocals),
      t.currentStateM = eTunerState.tsSet → t.internalStateM = [] → t.externalStateM = [] →
      t.hasLockM = false →
      (runAction env times t loc).1.currentStateM = eTunerState.tsSet ∧
      (runAction env times t loc).1.internalStateM = [] ∧
      (runAction env times t loc).1.externalStateM = [] ∧
      (runAction env times t loc).2.2.length = times.length ∧
      (isempty (some t.streamAddrM) = false →
        ∀ calls ∈ (runAction env times t loc).2.2,
          (∃ uri, TunerCall.Play uri ∈ calls) ∨ (∃ a, TunerCall.SetInterface a ∈ calls)) := by
  induction times with
  | nil =>
    intro t loc hstate hint hext _
    exact ⟨hstate, hint, hext, rfl, fun _ calls hc => by simp [runAction] at hc⟩
  | cons now rest ih =>
    intro t loc hstate hint hext hlock
    obtain ⟨h1, h2, h3, h4, h5, h6⟩ :=
      actionRound_refused env now t loc hPlay hSetup hstate hint hext hlock
    obtain ⟨i1, i2, i3, i4, i5⟩ :=
      ih (t.ActionRound env now loc).1 (t.ActionRound env now loc).2.1 h1 h2 h3 h4
    simp only [runAction]
    refine ⟨i1, i2, i3, by simp [i4], ?_⟩
    intro ha calls hc
    rcases List.mem_cons.mp hc with rfl | hr
    · exact h6 ha
    · exact i5 (by rw [h5]; exact ha) calls hr

theorem connect_failures_never_release_witness :
    (runAction refusingEnv [0, 1000, 2000, 3000] setTuner (ActionLocals.new 0)).1.currentStateM
      = eTunerState.tsSet :=
  (connect_failures_never_release refusingEnv (fun _ => rfl) (fun _ _ => rfl)
    [0, 1000, 2000, 3000] setTuner (ActionLocals.new 0) rfl rfl rfl rfl).1

/-- C24 (as stated) fails: a tuner in state Set makes three connection attempts
that the server refuses, one per round of the loop; after them it is in state
Set, not in Release, no request for Release is queued, and the fourth round
makes the same attempt once more and again ends in state Set. -/
theorem three_failures_then_retry :
    (runAction refusingEnv [0, 1000, 2000] setTuner (ActionLocals.new 0)).2.2
      = [failedAttempt, failedAttempt, failedAttempt] ∧
    (runAction refusingEnv [0, 1000, 2000] setTuner (ActionLocals.new 0)).1.currentStateM
      = eTunerState.tsSet ∧
    (runAction refusingEnv [0, 1000, 2000] setTuner (ActionLocals.new 0)).1.internalStateM
      = [] ∧
    (runAction refusingEnv [0, 1000, 2000] setTuner (ActionLocals.new 0)).1.externalStateM
      = [] ∧
    (runAction refusingEnv [0, 1000, 2000, 3000] setTuner (ActionLocals.new 0)).2.2
      = [failedAttempt, failedAttempt, failedAttempt, failedAttempt] ∧
    (runAction refusingEnv [0, 1000, 2000, 3000] setTuner (ActionLocals.new 0)).1.currentStateM
      ≠ eTunerState.tsRelease := by
  refine ⟨?_, ?_, ?_, ?_, ?_, ?_⟩ <;> decide

/-! ## Theorems: the port range -/

/-- C28. The range check of `ParsePortRange` is done in 32-bit unsigned
arithmetic.  For every device count and every input the configured range is
(0, 0), or its start is even and `stop − start + 1`, taken modulo 2^32, is at
least twice the device count (modulo 2^32).  Taken as integers this fails: with
two devices the input `100-50` is configured as the range (100, 50), whose
stop is below its start and which holds −49 ports, fewer than 4. -/
theorem portRange_check_wraps :
    (∀ (deviceCountM : Nat) (paramP : String),
      ParsePortRange deviceCountM paramP = (0, 0) ∨
      ((ParsePortRange deviceCountM paramP).1 % 2 = 0 ∧
        (deviceCountM * 2) % 4294967296
          ≤ ((ParsePortRange deviceCountM paramP).2
              + (4294967296 - (ParsePortRange deviceCountM paramP).1) + 1) % 4294967296)) ∧
    ParsePortRange 2 "100-50" = (100, 50) ∧
    ¬ (((ParsePortRange 2 "100-50").2 : Int) - ((ParsePortRange 2 "100-50").1 : Int) + 1
        ≥ 2 * 2) := by
  refine ⟨?_, by decide, by decide⟩
  intro deviceCountM paramP
  unfold ParsePortRange
  simp only
  split_ifs with h1 h2
  · exact Or.inl rfl
  · exact Or.inl rfl
  · right
    exact ⟨by simpa using h1, by simpa using h2⟩

/-! ## Theorems: the TS buffer and the section filters of a device -/

/-- C25 (amended). Whenever `GetData` returns a non-null pointer, the first byte
it points to is 0x47 and the length reported through `availableP` is at least
188: it is the length of the run of bytes that the ring buffer hands out, which
starts at the read position (after the bytes delivered before have been
dropped), and one packet of it is marked as delivered. -/
theorem getData_starts_at_sync (contiguous : Nat) (dev : cSatipDevice) (checkTsBuffer : Bool)
    (p : List Nat) (available : Nat)
    (h : (dev.GetData contiguous checkTsBuffer).1 = some (p, available)) :
    p.head? = some TS_SYNC_BYTE ∧ available = p.length ∧ TS_SIZE ≤ available ∧
    (∃ buffer, dev.tsBufferM = some buffer ∧
      p = ((if dev.bytesDelivered != 0 then buffer.drop dev.bytesDelivered else buffer).take
            contiguous)) ∧
    (dev.GetData contiguous checkTsBuffer).2.bytesDelivered = TS_SIZE := by
  unfold cSatipDevice.GetData at h ⊢
  cases hb : dev.tsBufferM with
  | none => simp [hb] at h
  | some buffer =>
    simp only [hb] at h ⊢
    generalize hbuf : (if (dev.bytesDelivered != 0) = true
      then List.drop dev.bytesDelivered buffer else buffer) = b at h ⊢
    by_cases ho : dev.isOpenDvrM = true
    · rw [if_pos ho] at h ⊢
      by_cases hc : (checkTsBuffer && decide (b.length < TS_SIZE)) = true
      · rw [if_pos hc] at h
        cases h
      · rw [if_neg hc] at h ⊢
        by_cases hg : (!(List.take contiguous b).isEmpty &&
            decide ((List.take contiguous b).length ≥ TS_SIZE)) = true
        · rw [if_pos hg] at h ⊢
          by_cases hs : ((List.take contiguous b).head? != some TS_SYNC_BYTE) = true
          · rw [if_pos hs] at h
            cases h
          · rw [if_neg hs] at h ⊢
            simp only [Option.some.injEq, Prod.mk.injEq] at h
            obtain ⟨hp, hn⟩ := h
            simp only [Bool.and_eq_true, decide_eq_true_eq] at hg
            refine ⟨?_, ?_, ?_, ⟨buffer, rfl, ?_⟩, rfl⟩
            · rw [← hp]; simpa using hs
            · rw [← hn, ← hp]
            · rw [← hn]; exact hg.2
            · rw [← hp, hbuf]
        · rw [if_neg hg] at h
          cases h
    · rw [if_neg ho] at h
      cases h

set_option maxRecDepth 100000 in
theorem getData_starts_at_sync_witness :
    (List.take 200 (TS_SYNC_BYTE :: List.replicate 187 0 ++
      (TS_SYNC_BYTE :: List.replicate 11 0))).head? = some TS_SYNC_BYTE :=
  (getData_starts_at_sync 200 deviceOddFill true _ 200 (by decide)).1

set_option maxRecDepth 100000 in
/-- C25 (as stated) fails: the TS buffer holds one TS packet and the first 12
bytes of the next one; `GetData` returns a pointer to the 200 bytes and reports
the length 200, which is not a multiple of 188. -/
theorem getData_length_not_multiple :
    ((deviceOddFill.GetData 200 true).1.map (fun r => r.2)) = some 200 ∧
    ((deviceOddFill.GetData 200 true).1.map (fun r => r.1.head?)) = some (some 0x47) ∧
    200 % TS_SIZE ≠ 0 := by
  decide

/-- C26. Two section filters are open on PID 18 (handles 3 and 4).  Closing
the first one removes PID 18 from the PID set of the tuner and queues it for
deletion, although the second filter is still open on it; `cSatipDevice::SetPid`
asked to switch the same PID off leaves it in the set, because it looks the PID
up among the open filters first.  In general `CloseFilter` switches the PID of
the closed filter off at the tuner without looking at the other filters. -/
theorem closeFilter_drops_pid_in_use :
    (deviceTwoFilters.tuner.map (fun t => t.pidsM)) = some [18] ∧
    ((deviceTwoFilters.CloseFilter 3).pSectionFilterHandlerM.map (fun h => h.Exists 18))
      = some true ∧
    ((deviceTwoFilters.CloseFilter 3).tuner.map (fun t => (t.pidsM, t.delPidsM)))
      = some ([], [18]) ∧
    ((deviceTwoFilters.SetPid (some ⟨18, 0⟩) false).2.tuner.map (fun t => (t.pidsM, t.delPidsM)))
      = some ([18], []) ∧
    (∀ (dev : cSatipDevice) (h : cSatipSectionFilterHandler) (t : cSatipTuner) (handleP : Int),
      dev.pSectionFilterHandlerM = some h → dev.tuner = some t →
      (dev.CloseFilter handleP).tuner = some (t.SetPid (h.GetPid handleP) false)) := by
  refine ⟨by decide, by decide, by decide, by decide, ?_⟩
  intro dev h t handleP hh ht
  simp [cSatipDevice.CloseFilter, hh, ht]

theorem closeFilter_drops_pid_in_use_witness :
    (deviceTwoFilters.CloseFilter 4).tuner
      = deviceTwoFilters.tuner.map (fun t => t.SetPid 18 false) :=
  closeFilter_drops_pid_in_use.2.2.2.2 deviceTwoFilters
    ⟨[(3, 18), (4, 18)]⟩ _ 4 rfl rfl

/-! ## Theorems: reception reports -/

/-- C21. A reception report of fewer than 33 bytes makes
`ProcessApplicationData` return.  A report of at least 33 bytes does not make it
return in two cases, whatever the external helpers do: when the bytes before
the first zero byte do not contain `ver=` (a `std::string` is then constructed
from a null pointer), and when there are at least three `;`-separated fields
and the tuner field has fewer than 6 characters (`substr(6)` is then called with
a position beyond its end).  A report of 40 bytes `x` and the report
`ver=1.0;src=1;tune;pids=0,16,17,18,19,20` are such reports. -/
theorem applicationData_may_not_return (rf : RepFunc) (SrcIdToSource : Int → Int)
    (channelSource channelSrate : Int) (now : Nat) (t : cSatipTuner) :
    (∀ (bufferP : List Char) (lengthP : Int), lengthP < 33 →
      (t.ProcessApplicationData rf SrcIdToSource channelSource channelSrate now
        bufferP lengthP).returns = true) ∧
    (∀ (bufferP : List Char) (lengthP : Int), 33 ≤ lengthP →
      strstr (cStr (bufferP.take lengthP.toNat)) "ver=".toList = none →
      (t.ProcessApplicationData rf SrcIdToSource channelSource channelSrate now
        bufferP lengthP).returns = false) ∧
    (∀ (bufferP : List Char) (lengthP : Int) (ps : List Char), 33 ≤ lengthP →
      strstr (cStr (bufferP.take lengthP.toNat)) "ver=".toList = some ps →
      3 ≤ (rf.SplitStr (String.mk ps) ';').length →
      (elemAt (rf.SplitStr (String.mk ps) ';')
        (if "src=".toList.isPrefixOf (elemAt (rf.SplitStr (String.mk ps) ';') 1).toList
          then 2 else 1)).length < 6 →
      (t.ProcessApplicationData rf SrcIdToSource channelSource channelSrate now
        bufferP lengthP).returns = false) ∧
    (idleTuner.ProcessApplicationData exampleRepFunc (fun _ => -1) 0 0 0
      (List.replicate 40 'x') 40).returns = false ∧
    (idleTuner.ProcessApplicationData exampleRepFunc (fun _ => -1) 0 0 0
      "ver=1.0;src=1;tune;pids=0,16,17,18,19,20".toList 40).returns = false := by
  refine ⟨?_, ?_, ?_, by decide, by decide⟩
  · intro bufferP lengthP h
    simp [cSatipTuner.ProcessApplicationData, h, Outcome.returns]
  · intro bufferP lengthP h hs
    have h' : ¬ lengthP < 33 := not_lt.mpr h
    simp only [cSatipTuner.ProcessApplicationData, h', hs, if_false, Outcome.returns]
  · intro bufferP lengthP ps h hs h3 h6
    have h' : ¬ lengthP < 33 := not_lt.mpr h
    have h3' : ¬ (rf.SplitStr (String.mk ps) ';').length < 3 := not_lt.mpr h3
    simp only [cSatipTuner.ProcessApplicationData, h', hs, h3', if_false, h6, if_true,
      Outcome.returns]

theorem applicationData_may_not_return_witness :
    (idleTuner.ProcessApplicationData exampleRepFunc (fun _ => -1) 0 0 0
      "ver=1.1;tune;pids=0,16,17,18,19,20,21,22".toList 40).returns = false :=
  (applicationData_may_not_return exampleRepFunc (fun _ => -1) 0 0 0 idleTuner).2.2.1
    "ver=1.1;tune;pids=0,16,17,18,19,20,21,22".toList 40
    "ver=1.1;tune;pids=0,16,17,18,19,20,21,22".toList (by decide) (by decide) (by decide)
    (by decide)

theorem elemAt_set (params : List String) (k i : Nat) (v : String) (h : i ≠ k) :
    elemAt (params.set k v) i = elemAt params i := by
  unfold elemAt
  rw [List.getD_eq_getElem?_getD, List.getD_eq_getElem?_getD, List.getElem?_set_ne (Ne.symm h)]

/-- C29. In the terrestrial branch of `ProcessApplicationData` the SISO/MISO
value is translated from the field at the position that the variable `next` has
reached, which is the lock field (or the quality field after a `src=` field),
and the `<sm>` field, the tenth transponder field, is not read: whatever stands
in it, the data written to the channel is the same.  So the report with lock
and `<sm>` 0 is written with `X1`, and the report without lock and with `<sm>`
1 is written with `X0`. -/
theorem terrestrial_sm_from_lock_field :
    (∀ (rf : RepFunc) (next : Nat) (params : List String) (sm : String), next ≠ 13 →
      terrTransponderData rf next (params.set 13 sm) = terrTransponderData rf next params) ∧
    writtenParameters (idleTuner.ProcessApplicationData exampleRepFunc (fun _ => -1) 0 0 0
      reportTerrLock.toList 78) = some "B8C23G128M256P0Q0S1T32X1" ∧
    writtenParameters (idleTuner.ProcessApplicationData exampleRepFunc (fun _ => -1) 0 0 0
      reportTerrNoLock.toList 78) = some "B8C23G128M256P0Q0S1T32X0" := by
  refine ⟨?_, by decide, by decide⟩
  intro rf next params sm h
  simp only [terrTransponderData, elemAt_set params 13 _ sm (by decide : (4 : Nat) ≠ 13),
    elemAt_set params 13 _ sm (by decide : (5 : Nat) ≠ 13),
    elemAt_set params 13 _ sm (by decide : (6 : Nat) ≠ 13),
    elemAt_set params 13 _ sm (by decide : (7 : Nat) ≠ 13),
    elemAt_set params 13 _ sm (by decide : (8 : Nat) ≠ 13),
    elemAt_set params 13 _ sm (by decide : (9 : Nat) ≠ 13),
    elemAt_set params 13 _ sm (by decide : (10 : Nat) ≠ 13),
    elemAt_set params 13 _ sm (by decide : (11 : Nat) ≠ 13),
    elemAt_set params 13 _ sm (by decide : (12 : Nat) ≠ 13),
    elemAt_set params 13 _ sm h]

theorem terrestrial_sm_from_lock_field_witness :
    terrTransponderData exampleRepFunc 2
        (["1", "224", "1", "15", "474", "8", "dvbt2", "32k", "256qam", "1128", "23", "0", "0",
          "0"].set 13 "1")
      = terrTransponderData exampleRepFunc 2
        ["1", "224", "1", "15", "474", "8", "dvbt2", "32k", "256qam", "1128", "23", "0", "0",
          "0"] :=
  terrestrial_sm_from_lock_field.1 exampleRepFunc 2 _ "1" (by decide)

end Satip
